import Mathlib

/-! # kinit client (src/auth/kinit_client/kinit.c)

A shallow embedding of `k5_begin`, `k5_end`, `kinit_prompter`, `k5_kinit` and
`my_kinit_main`.  The Kerberos library, the credential store subsystem and the
host environment are collaborators: every call the C code makes to them is
answered by a field of `Krb5` and is appended, with its arguments and its
result, to a chronological call log.

Conventions of the embedding.
* A C pointer is an `Option`: `none` is `NULL`.  A principal is `Option Nat`,
  where equal numbers denote the same principal name; store, keytab and
  context handles are `Option Nat` too.
* A collaborator with an output parameter answers with a return code and a
  value (`Res`); the output parameter is written only when the code is `0`.
  A successful call may still hand back `NULL`.
* C `int` flags stay integers and are tested against `0` as in the source.
* `goto cleanup` is the `Flow.cleanup` outcome of a block; the blocks of a
  function are chained with `Flow.bind` and the cleanup code runs last.
* The context argument `k5->ctx` is not passed to the collaborators and the
  com_err hook state `errctx` is not modelled.
-/

namespace Kinit

abbrev krb5_error_code := Int
abbrev krb5_principal := Option Nat
abbrev krb5_ccache := Option Nat
abbrev krb5_keytab := Option Nat
abbrev krb5_context := Option Nat

/-- The `action_type` enumeration. -/
inductive action_type where
  | INIT_PW
  | INIT_KT
  | RENEW
  | VALIDATE
deriving DecidableEq

/-- One pre-authentication attribute/value pair (`krb5_gic_opt_pa_data`). -/
structure krb5_gic_opt_pa_data where
  attr : String
  value : String
deriving DecidableEq

/-- The run options `struct k_opts`.  The array `pa_opts` of length
`num_pa_opts` is the list `pa_opts`; a `NULL` array is the empty list. -/
structure k_opts where
  starttime : Int := 0
  lifetime : Int := 0
  rlife : Int := 0
  forwardable : Int := 0
  proxiable : Int := 0
  request_pac : Int := 0
  anonymous : Int := 0
  addresses : Int := 0
  not_forwardable : Int := 0
  not_proxiable : Int := 0
  not_request_pac : Int := 0
  no_addresses : Int := 0
  verbose : Int := 0
  principal_name : Option String := none
  service_name : Option String := none
  keytab_name : Option String := none
  k5_in_cache_name : Option String := none
  k5_out_cache_name : Option String := none
  armor_ccache : Option String := none
  action : action_type := action_type.INIT_PW
  use_client_keytab : Int := 0
  pa_opts : List krb5_gic_opt_pa_data := []
  canonicalize : Int := 0
  enterprise : Int := 0
deriving DecidableEq

/-- The session state `struct k5_data`. -/
structure k5_data where
  ctx : krb5_context := none
  in_cc : krb5_ccache := none
  out_cc : krb5_ccache := none
  me : krb5_principal := none
  name : Option String := none
  switch_to_cache : Int := 0
deriving DecidableEq

/-- The request options record `krb5_get_init_creds_opt`: a field is `none`
until a setter writes it. -/
structure krb5_get_init_creds_opt where
  tkt_life : Option Int := none
  renew_life : Option Int := none
  forwardable : Option Int := none
  proxiable : Option Int := none
  canonicalize : Option Int := none
  anonymous : Option Int := none
  address_list : Option (Option Nat) := none
  fast_ccache_name : Option String := none
  pac_request : Option Bool := none
  pa : List krb5_gic_opt_pa_data := []
  in_ccache : Option krb5_ccache := none
  out_ccache : Option krb5_ccache := none
deriving DecidableEq

/-- The part of `krb5_creds` the client looks at: the client principal, and a
number standing for the ticket material. -/
structure krb5_creds where
  client : krb5_principal := none
  ticket : Nat := 0
deriving DecidableEq

/-- Names of the functions that appear in the call log. -/
inductive Fn where
  | krb5_init_context
  | com_err
  | fprintf_stderr
  | krb5_cc_resolve
  | krb5_cc_default
  | krb5_cc_get_type
  | krb5_cc_get_principal
  | krb5_parse_name_flags
  | krb5_get_default_realm
  | krb5_build_principal_ext
  | krb5_free_default_realm
  | krb5_kt_client_default
  | k5_kt_get_principal
  | krb5_kt_close
  | krb5_sname_to_principal
  | get_name_from_os
  | krb5_cc_support_switch
  | krb5_cc_cache_match
  | krb5_cc_get_name
  | krb5_cc_new_unique
  | krb5_unparse_name
  | krb5_cc_close
  | krb5_free_principal
  | krb5_free_unparsed_name
  | krb5_free_context
  | krb5_get_init_creds_opt_alloc
  | krb5_get_init_creds_opt_set_tkt_life
  | krb5_get_init_creds_opt_set_renew_life
  | krb5_get_init_creds_opt_set_forwardable
  | krb5_get_init_creds_opt_set_proxiable
  | krb5_get_init_creds_opt_set_canonicalize
  | krb5_get_init_creds_opt_set_anonymous
  | krb5_os_localaddr
  | krb5_get_init_creds_opt_set_address_list
  | krb5_get_init_creds_opt_set_fast_ccache_name
  | krb5_get_init_creds_opt_set_pac_request
  | kinit_kdb_init
  | krb5_kt_resolve
  | krb5_get_init_creds_opt_set_pa
  | krb5_get_init_creds_opt_set_in_ccache
  | krb5_get_init_creds_opt_set_out_ccache
  | krb5_get_init_creds_password
  | krb5_get_init_creds_keytab
  | krb5_get_validated_creds
  | krb5_get_renewed_creds
  | kinit_prompter
  | krb5_cc_initialize
  | k5_cc_store_primary_cred
  | krb5_cc_move
  | krb5_cc_switch
  | kinit_kdb_fini
  | krb5_cc_destroy
  | krb5_get_init_creds_opt_free
  | free
  | krb5_free_cred_contents
  | memset
  | set_com_err_hook
  | krb5_get_error_message
  | krb5_free_error_message
deriving DecidableEq

/-- An argument or result recorded in the call log. -/
inductive Val where
  | null
  | int (i : Int)
  | bool (b : Bool)
  | str (s : Option String)
  | ptr (p : Option Nat)
  | options (o : krb5_get_init_creds_opt)
  | creds (c : krb5_creds)
  | bytes (b : List Nat)
  | va_list
deriving DecidableEq

/-- One entry of the call log: the function, its arguments, its return code
and what it handed back through its output parameter (or returned). -/
structure Call where
  fn : Fn
  args : List Val := []
  ret : krb5_error_code := 0
  out : Val := Val.null
deriving DecidableEq

/-- Answer of a collaborator that yields a handle or a principal. -/
structure Res where
  ret : krb5_error_code
  out : Option Nat
deriving DecidableEq

/-- Answer of a collaborator that yields a string. -/
structure SRes where
  ret : krb5_error_code
  out : Option String
deriving DecidableEq

/-- Answer of an acquisition call: the return code and the credentials it
filled in. -/
structure CRes where
  ret : krb5_error_code
  creds : krb5_creds
deriving DecidableEq

/-- One invocation of the prompter callback by the library: the prompt types
`krb5_get_prompt_types` reports (possibly `NULL`) and `num_prompts`. -/
structure prompt_call where
  ptypes : Option (List Int)
  num_prompts : Nat
deriving DecidableEq

/-- The collaborators: the Kerberos library, the credential store and keytab
subsystems and the host environment, with the constants of `krb5.h` the
client names.  Every field answers one call of the C code as a function of
the arguments the code passes. -/
structure Krb5 where
  KRB5_CC_NOTFOUND : krb5_error_code
  KRB5KRB_AP_ERR_BAD_INTEGRITY : krb5_error_code
  KRB5KDC_ERR_PREAUTH_FAILED : krb5_error_code
  KRB5_PROMPT_TYPE_PASSWORD : Int
  KRB5_PRINCIPAL_PARSE_ENTERPRISE : Int
  krb5_init_context : Res
  krb5_cc_resolve : String → Res
  krb5_cc_default : Res
  krb5_cc_get_type : krb5_ccache → Option String
  krb5_cc_get_principal : krb5_ccache → Res
  krb5_parse_name_flags : String → Int → Res
  krb5_get_default_realm : SRes
  krb5_build_principal_ext : Option String → Res
  krb5_kt_client_default : Res
  k5_kt_get_principal : krb5_keytab → Res
  krb5_sname_to_principal : Res
  get_name_from_os : Option String
  krb5_cc_support_switch : Option String → Bool
  krb5_cc_cache_match : krb5_principal → Res
  krb5_cc_new_unique : Option String → Res
  krb5_unparse_name : krb5_principal → SRes
  krb5_get_init_creds_opt_alloc : krb5_error_code
  krb5_os_localaddr : Res
  kinit_kdb_init : krb5_principal → Res
  krb5_kt_resolve : String → Res
  krb5_get_init_creds_opt_set_pa :
    krb5_get_init_creds_opt → String → String → krb5_error_code
  krb5_get_init_creds_opt_set_in_ccache : krb5_ccache → krb5_error_code
  krb5_get_init_creds_opt_set_out_ccache : krb5_ccache → krb5_error_code
  krb5_get_init_creds_password :
    krb5_principal → Int → Option String → krb5_get_init_creds_opt → CRes
  password_prompts :
    krb5_principal → Int → Option String → krb5_get_init_creds_opt →
      List prompt_call
  krb5_get_init_creds_keytab :
    krb5_principal → krb5_keytab → Int → Option String →
      krb5_get_init_creds_opt → CRes
  krb5_get_validated_creds :
    krb5_principal → krb5_ccache → Option String → CRes
  krb5_get_renewed_creds :
    krb5_principal → krb5_ccache → Option String → CRes
  krb5_cc_initialize : krb5_ccache → krb5_principal → krb5_error_code
  k5_cc_store_primary_cred : krb5_ccache → krb5_creds → krb5_error_code
  krb5_cc_move : krb5_ccache → krb5_ccache → krb5_error_code
  krb5_cc_switch : krb5_ccache → krb5_error_code
  krb5_get_error_message : krb5_context → krb5_error_code → String

/-- Control flow out of a block: fall through to the next block, or
`goto cleanup`. -/
inductive Flow (σ : Type) where
  | next (s : σ)
  | cleanup (s : σ)

/-- The state a block ends in. -/
@[simp] def Flow.state {σ : Type} : Flow σ → σ
  | Flow.next s => s
  | Flow.cleanup s => s

/-- Sequencing of blocks: a block that jumped to cleanup skips the rest. -/
@[simp] def Flow.bind {σ : Type} (f : Flow σ) (g : σ → Flow σ) : Flow σ :=
  match f with
  | Flow.next s => g s
  | Flow.cleanup s => Flow.cleanup s

/-- What an output parameter holds after a call: the answer when the call
succeeded, its old value otherwise. -/
@[simp] def Res.assign (r : Res) (old : Option Nat) : Option Nat :=
  if r.ret = 0 then r.out else old

/-- String variant of `Res.assign`. -/
@[simp] def SRes.assign (r : SRes) (old : Option String) : Option String :=
  if r.ret = 0 then r.out else old

/-- Log entry for the call `com_err(progname, code, fmt, ...)`.  What the
call prints is decided by the hook `extended_com_err_fn`, which `my_kinit_main`
installs before anything else runs; see `com_err_hook`. -/
@[simp] def com_err (progname : Option String) (code : krb5_error_code) (fmt : String)
    (args : List Val) : Call :=
  { fn := Fn.com_err, args := Val.str progname :: Val.str (some fmt) :: args,
    ret := code }

/-- Log entry for `fprintf(stderr, fmt, ...)`. -/
@[simp] def fprintf_stderr (fmt : String) (args : List Val) : Call :=
  { fn := Fn.fprintf_stderr, args := Val.str (some fmt) :: args }

/-- The hook `extended_com_err_fn` (lines 146-157): the calls it makes for
the program name, code and format that `com_err` hands it.  `errctx` is the
value of the global of that name when the hook runs.  The variable arguments
arrive as a `va_list`; line 155 passes that object itself to `fprintf` as the
argument of the format (it is not `vfprintf`), so the arguments it holds do
not reach the call. -/
def extended_com_err_fn (env : Krb5) (errctx : krb5_context) (myprog : Option String)
    (code : krb5_error_code) (fmt : String) (_args : List Val) : List Call :=
  let emsg := env.krb5_get_error_message errctx code
  [{ fn := Fn.krb5_get_error_message, args := [Val.ptr errctx, Val.int code],
     out := Val.str (some emsg) },
   fprintf_stderr "%s: %s " [Val.str myprog, Val.str (some emsg)],
   { fn := Fn.krb5_free_error_message, args := [Val.ptr errctx, Val.str (some emsg)] },
   fprintf_stderr fmt [Val.va_list],
   fprintf_stderr "\n" []]

/-- What a logged call of `com_err` does once the hook is installed: the
library hands program name, code, format and the variable arguments to
`extended_com_err_fn`. -/
def com_err_hook (env : Krb5) (errctx : krb5_context) (c : Call) : List Call :=
  if c.fn = Fn.com_err then
    match c.args with
    | Val.str myprog :: Val.str (some fmt) :: args =>
      extended_com_err_fn env errctx myprog c.ret fmt args
    | _ => []
  else []

/-! ## k5_begin -/

/-- Locals of `k5_begin` together with the two structures it updates and the
call log. -/
structure begin_state where
  opts : k_opts
  k5 : k5_data
  success : Int := 0
  defcache : krb5_ccache := none
  defcache_princ : krb5_principal := none
  deftype : Option String := none
  trace : List Call := []

/-- Appends a call to the log. -/
@[simp] def begin_state.log (s : begin_state) (c : Call) : begin_state :=
  { s with trace := s.trace ++ [c] }

/-- The `flags` local of `k5_begin`. -/
def parse_flags (env : Krb5) (opts : k_opts) : Int :=
  if opts.enterprise ≠ 0 then env.KRB5_PRINCIPAL_PARSE_ENTERPRISE else 0

/-- Lines 178-200: resolve the named output cache, or else the default cache
with its type and principal. -/
def begin_out_cache (env : Krb5) (progname : Option String) (s : begin_state) :
    Flow begin_state :=
  match s.opts.k5_out_cache_name with
  | some nm =>
    let r := env.krb5_cc_resolve nm
    let s1 := s.log { fn := Fn.krb5_cc_resolve, args := [Val.str (some nm)],
                      ret := r.ret, out := Val.ptr r.out }
    let s2 := { s1 with k5 := { s1.k5 with out_cc := r.assign s1.k5.out_cc } }
    if r.ret ≠ 0 then
      Flow.cleanup (s2.log (com_err progname r.ret "resolving ccache %s"
        [Val.str (some nm)]))
    else if s2.opts.verbose ≠ 0 then
      Flow.next (s2.log (fprintf_stderr "Using specified cache: %s\n"
        [Val.str (some nm)]))
    else Flow.next s2
  | none =>
    let r := env.krb5_cc_default
    let s1 := s.log { fn := Fn.krb5_cc_default, ret := r.ret,
                      out := Val.ptr r.out }
    let s2 := { s1 with defcache := r.assign s1.defcache }
    if r.ret ≠ 0 then
      Flow.cleanup (s2.log (com_err progname r.ret
        "while getting default ccache" []))
    else
      let ty := env.krb5_cc_get_type s2.defcache
      let s3 := s2.log { fn := Fn.krb5_cc_get_type,
                         args := [Val.ptr s2.defcache], out := Val.str ty }
      let g := env.krb5_cc_get_principal s3.defcache
      let s4 := s3.log { fn := Fn.krb5_cc_get_principal,
                         args := [Val.ptr s3.defcache], ret := g.ret,
                         out := Val.ptr g.out }
      Flow.next { s4 with deftype := ty,
                          defcache_princ := if g.ret ≠ 0 then none
                                            else g.assign s4.defcache_princ }

/-- Lines 202-265: choose a client principal name. -/
def begin_choose_princ (env : Krb5) (progname : Option String)
    (s : begin_state) : Flow begin_state :=
  match s.opts.principal_name with
  | some nm =>
    let r := env.krb5_parse_name_flags nm (parse_flags env s.opts)
    let s1 := s.log { fn := Fn.krb5_parse_name_flags,
                      args := [Val.str (some nm),
                               Val.int (parse_flags env s.opts)],
                      ret := r.ret, out := Val.ptr r.out }
    let s2 := { s1 with k5 := { s1.k5 with me := r.assign s1.k5.me } }
    if r.ret ≠ 0 then
      Flow.cleanup (s2.log (com_err progname r.ret "when parsing name %s"
        [Val.str (some nm)]))
    else Flow.next s2
  | none =>
    if s.opts.anonymous ≠ 0 then
      let d := env.krb5_get_default_realm
      let s1 := s.log { fn := Fn.krb5_get_default_realm, ret := d.ret,
                        out := Val.str d.out }
      if d.ret ≠ 0 then
        Flow.cleanup (s1.log (com_err progname d.ret
          "while getting default realm" []))
      else
        let r := env.krb5_build_principal_ext d.out
        let s2 := s1.log { fn := Fn.krb5_build_principal_ext,
                           args := [Val.str d.out], ret := r.ret,
                           out := Val.ptr r.out }
        let s3 := { s2 with k5 := { s2.k5 with me := r.assign s2.k5.me } }
        let s4 := s3.log { fn := Fn.krb5_free_default_realm,
                           args := [Val.str d.out] }
        if r.ret ≠ 0 then
          Flow.cleanup (s4.log (com_err progname r.ret
            "while building principal" []))
        else Flow.next s4
    else if s.opts.action = action_type.INIT_KT ∧
        s.opts.use_client_keytab ≠ 0 then
      let t := env.krb5_kt_client_default
      let s1 := s.log { fn := Fn.krb5_kt_client_default, ret := t.ret,
                        out := Val.ptr t.out }
      if t.ret ≠ 0 then
        Flow.cleanup (s1.log (com_err progname t.ret
          "When resolving the default client keytab" []))
      else
        let r := env.k5_kt_get_principal t.out
        let s2 := s1.log { fn := Fn.k5_kt_get_principal,
                           args := [Val.ptr t.out], ret := r.ret,
                           out := Val.ptr r.out }
        let s3 := { s2 with k5 := { s2.k5 with me := r.assign s2.k5.me } }
        let s4 := s3.log { fn := Fn.krb5_kt_close, args := [Val.ptr t.out] }
        if r.ret ≠ 0 then
          Flow.cleanup (s4.log (com_err progname r.ret
            "When determining client principal name from keytab" []))
        else Flow.next s4
    else if s.opts.action = action_type.INIT_KT then
      let r := env.krb5_sname_to_principal
      let s1 := s.log { fn := Fn.krb5_sname_to_principal, ret := r.ret,
                        out := Val.ptr r.out }
      let s2 := { s1 with k5 := { s1.k5 with me := r.assign s1.k5.me } }
      if r.ret ≠ 0 then
        Flow.cleanup (s2.log (com_err progname r.ret
          "when creating default server principal name" []))
      else Flow.next s2
    else if s.k5.out_cc ≠ none then
      let g := env.krb5_cc_get_principal s.k5.out_cc
      let s1 := s.log { fn := Fn.krb5_cc_get_principal,
                        args := [Val.ptr s.k5.out_cc], ret := g.ret,
                        out := Val.ptr g.out }
      if g.ret = 0 then
        Flow.next { s1 with k5 := { s1.k5 with me := g.out } }
      else Flow.next s1
    else if s.defcache_princ ≠ none then
      Flow.next { s with k5 := { s.k5 with out_cc := s.defcache,
                                           me := s.defcache_princ },
                         defcache := none, defcache_princ := none }
    else Flow.next s

/-- Lines 267-279: if no principal was chosen, use the local user name. -/
def begin_local_user (env : Krb5) (progname : Option String)
    (s : begin_state) : Flow begin_state :=
  if s.k5.me = none then
    let s1 := s.log { fn := Fn.get_name_from_os,
                      out := Val.str env.get_name_from_os }
    match env.get_name_from_os with
    | none =>
      Flow.cleanup (s1.log (fprintf_stderr "Unable to identify user\n" []))
    | some nm =>
      let r := env.krb5_parse_name_flags nm (parse_flags env s1.opts)
      let s2 := s1.log { fn := Fn.krb5_parse_name_flags,
                         args := [Val.str (some nm),
                                  Val.int (parse_flags env s1.opts)],
                         ret := r.ret, out := Val.ptr r.out }
      let s3 := { s2 with k5 := { s2.k5 with me := r.assign s2.k5.me } }
      if r.ret ≠ 0 then
        Flow.cleanup (s3.log (com_err progname r.ret "when parsing name %s"
          [Val.str (some nm)]))
      else Flow.next s3
  else Flow.next s

/-- The verbose line that names a cache through `krb5_cc_get_name`. -/
def begin_state.say_cache (s : begin_state) (fmt : String) : begin_state :=
  if s.opts.verbose ≠ 0 then
    (s.log { fn := Fn.krb5_cc_get_name, args := [Val.ptr s.k5.out_cc] }).log
      (fprintf_stderr fmt [Val.ptr s.k5.out_cc])
  else s

/-- Lines 281-309: with no output cache yet and a switchable default type,
look for a cache of the client principal, or create a new one when the
default cache is initialized. -/
def begin_select_cache (env : Krb5) (progname : Option String)
    (s : begin_state) : Flow begin_state :=
  if s.k5.out_cc ≠ none then Flow.next s
  else
    let sw := env.krb5_cc_support_switch s.deftype
    let s0 := s.log { fn := Fn.krb5_cc_support_switch,
                      args := [Val.str s.deftype], out := Val.bool sw }
    if sw = false then Flow.next s0
    else
      let m := env.krb5_cc_cache_match s0.k5.me
      let s1 := s0.log { fn := Fn.krb5_cc_cache_match,
                         args := [Val.ptr s0.k5.me], ret := m.ret,
                         out := Val.ptr m.out }
      let s2 := { s1 with k5 := { s1.k5 with out_cc := m.assign s1.k5.out_cc } }
      if m.ret ≠ 0 ∧ m.ret ≠ env.KRB5_CC_NOTFOUND then
        Flow.cleanup (s2.log (com_err progname m.ret
          "while searching for ccache for %s" [Val.str s2.opts.principal_name]))
      else if m.ret = 0 then
        let s3 := s2.say_cache "Using existing cache: %s\n"
        Flow.next { s3 with k5 := { s3.k5 with switch_to_cache := 1 } }
      else if s2.defcache_princ ≠ none then
        let n := env.krb5_cc_new_unique s2.deftype
        let s3 := s2.log { fn := Fn.krb5_cc_new_unique,
                           args := [Val.str s2.deftype, Val.null],
                           ret := n.ret, out := Val.ptr n.out }
        let s4 := { s3 with k5 := { s3.k5 with out_cc := n.assign s3.k5.out_cc } }
        if n.ret ≠ 0 then
          Flow.cleanup (s4.log (com_err progname n.ret
            "while generating new ccache" []))
        else
          let s5 := s4.say_cache "Using new cache: %s\n"
          Flow.next { s5 with k5 := { s5.k5 with switch_to_cache := 1 } }
      else Flow.next s2

/-- Lines 311-319: use the default cache if none was picked yet. -/
def begin_default_cache (s : begin_state) : Flow begin_state :=
  if s.k5.out_cc = none then
    let s1 := { s with k5 := { s.k5 with out_cc := s.defcache },
                       defcache := none }
    Flow.next (s1.say_cache "Using default cache: %s\n")
  else Flow.next s

/-- Lines 321-332: resolve the named input cache. -/
def begin_in_cache (env : Krb5) (progname : Option String) (s : begin_state) :
    Flow begin_state :=
  match s.opts.k5_in_cache_name with
  | some nm =>
    let r := env.krb5_cc_resolve nm
    let s1 := s.log { fn := Fn.krb5_cc_resolve, args := [Val.str (some nm)],
                      ret := r.ret, out := Val.ptr r.out }
    let s2 := { s1 with k5 := { s1.k5 with in_cc := r.assign s1.k5.in_cc } }
    if r.ret ≠ 0 then
      Flow.cleanup (s2.log (com_err progname r.ret "resolving ccache %s"
        [Val.str (some nm)]))
    else if s2.opts.verbose ≠ 0 then
      Flow.next (s2.log (fprintf_stderr "Using specified input cache: %s\n"
        [Val.str (some nm)]))
    else Flow.next s2
  | none => Flow.next s

/-- Lines 334-344: unparse the principal, write the display name back into
the options and record success. -/
def begin_unparse (env : Krb5) (progname : Option String) (s : begin_state) :
    Flow begin_state :=
  let u := env.krb5_unparse_name s.k5.me
  let s1 := s.log { fn := Fn.krb5_unparse_name, args := [Val.ptr s.k5.me],
                    ret := u.ret, out := Val.str u.out }
  let s2 := { s1 with k5 := { s1.k5 with name := u.assign s1.k5.name } }
  if u.ret ≠ 0 then
    Flow.cleanup (s2.log (com_err progname u.ret "when unparsing name" []))
  else
    let s3 := if s2.opts.verbose ≠ 0 then
        s2.log (fprintf_stderr "Using principal: %s\n" [Val.str s2.k5.name])
      else s2
    Flow.next { s3 with opts := { s3.opts with principal_name := s3.k5.name },
                        success := 1 }

/-- Lines 346-350: the `cleanup` label of `k5_begin`. -/
def begin_cleanup (s : begin_state) : begin_state :=
  let s1 := if s.defcache ≠ none then
      s.log { fn := Fn.krb5_cc_close, args := [Val.ptr s.defcache] }
    else s
  s1.log { fn := Fn.krb5_free_principal, args := [Val.ptr s1.defcache_princ] }

/-- Lines 178-344 of `k5_begin`, the part between context initialization and
the `cleanup` label. -/
def begin_body (env : Krb5) (progname : Option String) (s : begin_state) :
    Flow begin_state :=
  (((((begin_out_cache env progname s).bind
    (begin_choose_princ env progname)).bind
    (begin_local_user env progname)).bind
    (begin_select_cache env progname)).bind
    begin_default_cache).bind
    (fun t => (begin_in_cache env progname t).bind (begin_unparse env progname))

/-- The function `k5_begin`: returns the final state, whose `success` field is
the return value. -/
def k5_begin (env : Krb5) (progname : Option String) (opts : k_opts)
    (k5 : k5_data) : begin_state :=
  let r := env.krb5_init_context
  let s : begin_state :=
    { opts := opts, k5 := { k5 with ctx := r.assign k5.ctx },
      trace := [{ fn := Fn.krb5_init_context, ret := r.ret,
                  out := Val.ptr r.out }] }
  if r.ret ≠ 0 then
    s.log (com_err progname r.ret "while initializing Kerberos 5 library" [])
  else
    begin_cleanup (begin_body env progname s).state

/-! ## k5_end -/

/-- The function `k5_end`: releases the session state and zeroes it.  Returns
the zeroed state and the calls made. -/
def k5_end (k5 : k5_data) : k5_data × List Call :=
  ({},
   [{ fn := Fn.krb5_free_unparsed_name, args := [Val.str k5.name] },
    { fn := Fn.krb5_free_principal, args := [Val.ptr k5.me] }] ++
   (if k5.in_cc ≠ none then
      [{ fn := Fn.krb5_cc_close, args := [Val.ptr k5.in_cc] }] else []) ++
   (if k5.out_cc ≠ none then
      [{ fn := Fn.krb5_cc_close, args := [Val.ptr k5.out_cc] }] else []) ++
   [{ fn := Fn.krb5_free_context, args := [Val.ptr k5.ctx] },
    { fn := Fn.memset, args := [Val.str (some "k5"), Val.int 0] }])

/-! ## kinit_prompter -/

/-- Result of one run of the prompter callback. -/
structure prompter_result where
  pwprompt : Bool
  reply : List Nat
  ret : krb5_error_code

/-- The function `kinit_prompter`: notes in `pwprompt` whether one of the
`num_prompts` prompts is a password prompt, and answers with the bytes of
`udata.pass` up to its first NUL. -/
def kinit_prompter (env : Krb5) (pass : List Nat) (pc : prompt_call)
    (pwprompt : Bool) : prompter_result :=
  { pwprompt := (List.range pc.num_prompts).foldl
      (fun b i =>
        if pc.ptypes ≠ none ∧
            pc.ptypes.bind (fun ts => ts[i]?) = some env.KRB5_PROMPT_TYPE_PASSWORD
        then true else b) pwprompt,
    reply := pass.takeWhile (fun b => b ≠ 0),
    ret := 0 }

/-! ## k5_kinit -/

/-- Locals of `k5_kinit` together with the two structures it reads and
updates and the call log.  The pointer `options` is the flag `options_alloc`
(non-`NULL`) and the record `options` it points to. -/
structure kinit_state where
  opts : k_opts
  k5 : k5_data
  notix : Int := 1
  keytab : krb5_keytab := none
  my_creds : krb5_creds := {}
  options_alloc : Bool := false
  options : krb5_get_init_creds_opt := {}
  pwprompt : Bool := false
  addresses : Option Nat := none
  mcc : krb5_ccache := none
  trace : List Call := []

/-- Appends a call to the log. -/
@[simp] def kinit_state.log (s : kinit_state) (c : Call) : kinit_state :=
  { s with trace := s.trace ++ [c] }

/-- A conditional setter call `if (cond) setter(options, v)`: logs the call
and writes the options record. -/
def kinit_state.setopt (s : kinit_state) (cond : Prop) [Decidable cond] (c : Call)
    (f : krb5_get_init_creds_opt → krb5_get_init_creds_opt) : kinit_state :=
  if cond then { s with options := f s.options, trace := s.trace ++ [c] } else s

/-- A verbose line `if (opts->verbose) fprintf(stderr, ...)`. -/
def kinit_state.say (s : kinit_state) (fmt : String) (args : List Val) :
    kinit_state :=
  if s.opts.verbose ≠ 0 then s.log (fprintf_stderr fmt args) else s

/-- Lines 409-411: allocate the request options. -/
def kinit_alloc (env : Krb5) (s : kinit_state) : Flow kinit_state :=
  let ret := env.krb5_get_init_creds_opt_alloc
  let s1 := s.log { fn := Fn.krb5_get_init_creds_opt_alloc, ret := ret }
  if ret ≠ 0 then Flow.cleanup s1
  else Flow.next { s1 with options_alloc := true, options := {} }

/-- Lines 413-428: lifetimes and the forwardable, proxiable, canonicalize and
anonymous settings. -/
def kinit_flags (s : kinit_state) : kinit_state :=
  let o := s.opts
  (((((((s.setopt (o.lifetime ≠ 0)
      { fn := Fn.krb5_get_init_creds_opt_set_tkt_life, args := [Val.int o.lifetime] }
      (fun r => { r with tkt_life := some o.lifetime })).setopt (o.rlife ≠ 0)
      { fn := Fn.krb5_get_init_creds_opt_set_renew_life, args := [Val.int o.rlife] }
      (fun r => { r with renew_life := some o.rlife })).setopt (o.forwardable ≠ 0)
      { fn := Fn.krb5_get_init_creds_opt_set_forwardable, args := [Val.int 1] }
      (fun r => { r with forwardable := some 1 })).setopt (o.not_forwardable ≠ 0)
      { fn := Fn.krb5_get_init_creds_opt_set_forwardable, args := [Val.int 0] }
      (fun r => { r with forwardable := some 0 })).setopt (o.proxiable ≠ 0)
      { fn := Fn.krb5_get_init_creds_opt_set_proxiable, args := [Val.int 1] }
      (fun r => { r with proxiable := some 1 })).setopt (o.not_proxiable ≠ 0)
      { fn := Fn.krb5_get_init_creds_opt_set_proxiable, args := [Val.int 0] }
      (fun r => { r with proxiable := some 0 })).setopt (o.canonicalize ≠ 0)
      { fn := Fn.krb5_get_init_creds_opt_set_canonicalize, args := [Val.int 1] }
      (fun r => { r with canonicalize := some 1 })).setopt (o.anonymous ≠ 0)
      { fn := Fn.krb5_get_init_creds_opt_set_anonymous, args := [Val.int 1] }
      (fun r => { r with anonymous := some 1 })

/-- Lines 429-436: the local address list. -/
def kinit_addresses (env : Krb5) (progname : Option String) (s : kinit_state) :
    Flow kinit_state :=
  if s.opts.addresses ≠ 0 then
    let r := env.krb5_os_localaddr
    let s1 := s.log { fn := Fn.krb5_os_localaddr, ret := r.ret, out := Val.ptr r.out }
    let s2 := { s1 with addresses := r.assign s1.addresses }
    if r.ret ≠ 0 then
      Flow.cleanup (s2.log (com_err progname r.ret "getting local addresses" []))
    else
      Flow.next (s2.setopt True
        { fn := Fn.krb5_get_init_creds_opt_set_address_list,
          args := [Val.ptr s2.addresses] }
        (fun o => { o with address_list := some s2.addresses }))
  else Flow.next s

/-- Lines 437-446: no addresses, the armor cache and the PAC request. -/
def kinit_flags_pac (s : kinit_state) : kinit_state :=
  let o := s.opts
  (((s.setopt (o.no_addresses ≠ 0)
      { fn := Fn.krb5_get_init_creds_opt_set_address_list, args := [Val.null] }
      (fun r => { r with address_list := some none })).setopt (o.armor_ccache ≠ none)
      { fn := Fn.krb5_get_init_creds_opt_set_fast_ccache_name,
        args := [Val.str o.armor_ccache] }
      (fun r => { r with fast_ccache_name := o.armor_ccache })).setopt
      (o.request_pac ≠ 0)
      { fn := Fn.krb5_get_init_creds_opt_set_pac_request, args := [Val.bool true] }
      (fun r => { r with pac_request := some true })).setopt (o.not_request_pac ≠ 0)
      { fn := Fn.krb5_get_init_creds_opt_set_pac_request, args := [Val.bool false] }
      (fun r => { r with pac_request := some false })

/-- The test `strncmp(name, "KDB:", 4) == 0`. -/
def is_kdb_keytab (name : String) : Bool :=
  name.toList.take 4 = ['K', 'D', 'B', ':']

/-- Lines 450-470: keytab mode with a named keytab; a `KDB:` name first sets
up the database keytab (non-Windows build). -/
def kinit_keytab_named (env : Krb5) (progname : Option String) (nm : String)
    (s : kinit_state) : Flow kinit_state :=
  let kdb : Flow kinit_state :=
    if is_kdb_keytab nm = true then
      let r := env.kinit_kdb_init s.k5.me
      let s1 := s.log { fn := Fn.kinit_kdb_init, args := [Val.ptr s.k5.me],
                        ret := r.ret, out := Val.ptr r.out }
      let s2 := { s1 with k5 := { s1.k5 with ctx := r.assign s1.k5.ctx } }
      if r.ret ≠ 0 then
        Flow.cleanup (s2.log (com_err progname r.ret
          "while setting up KDB keytab for realm %s" [Val.ptr s2.k5.me]))
      else Flow.next s2
    else Flow.next s
  kdb.bind (fun t =>
    let r := env.krb5_kt_resolve nm
    let t1 := t.log { fn := Fn.krb5_kt_resolve, args := [Val.str (some nm)],
                      ret := r.ret, out := Val.ptr r.out }
    let t2 := { t1 with keytab := r.assign t1.keytab }
    if r.ret ≠ 0 then
      Flow.cleanup (t2.log (com_err progname r.ret "resolving keytab %s"
        [Val.str (some nm)]))
    else Flow.next (t2.say "Using keytab: %s\n" [Val.str (some nm)]))

/-- Lines 449-477: resolve the keytab in keytab mode: the named one, or the
default client keytab when that is asked for. -/
def kinit_keytab (env : Krb5) (progname : Option String) (s : kinit_state) :
    Flow kinit_state :=
  match s.opts.keytab_name with
  | some nm =>
    if s.opts.action = action_type.INIT_KT then kinit_keytab_named env progname nm s
    else Flow.next s
  | none =>
    if s.opts.action = action_type.INIT_KT ∧ s.opts.use_client_keytab ≠ 0 then
      let r := env.krb5_kt_client_default
      let s1 := s.log { fn := Fn.krb5_kt_client_default, ret := r.ret,
                        out := Val.ptr r.out }
      let s2 := { s1 with keytab := r.assign s1.keytab }
      if r.ret ≠ 0 then
        Flow.cleanup (s2.log (com_err progname r.ret
          "resolving default client keytab" []))
      else Flow.next s2
    else Flow.next s

/-- Lines 479-492: apply the pre-authentication pairs in order, stopping at
the first one the library rejects. -/
def kinit_pa_loop (env : Krb5) (progname : Option String) :
    List krb5_gic_opt_pa_data → kinit_state → Flow kinit_state
  | [], s => Flow.next s
  | p :: ps, s =>
    let ret := env.krb5_get_init_creds_opt_set_pa s.options p.attr p.value
    let s1 := s.log { fn := Fn.krb5_get_init_creds_opt_set_pa,
                      args := [Val.str (some p.attr), Val.str (some p.value)],
                      ret := ret }
    if ret ≠ 0 then
      Flow.cleanup (s1.log (com_err progname ret "while setting '%s'='%s'"
        [Val.str (some p.attr), Val.str (some p.value)]))
    else
      let s2 := { s1 with options := { s1.options with pa := s1.options.pa ++ [p] } }
      kinit_pa_loop env progname ps
        (s2.say "PA Option %s = %s\n" [Val.str (some p.attr), Val.str (some p.value)])

/-- Lines 493-501: attach the input and output caches to the options. -/
def kinit_ccaches (env : Krb5) (s : kinit_state) : Flow kinit_state :=
  let step_in : Flow kinit_state :=
    if s.k5.in_cc ≠ none then
      let ret := env.krb5_get_init_creds_opt_set_in_ccache s.k5.in_cc
      let s1 := s.log { fn := Fn.krb5_get_init_creds_opt_set_in_ccache,
                        args := [Val.ptr s.k5.in_cc], ret := ret }
      if ret ≠ 0 then Flow.cleanup s1
      else Flow.next { s1 with options := { s1.options with in_ccache := some s1.k5.in_cc } }
    else Flow.next s
  step_in.bind (fun t =>
    let ret := env.krb5_get_init_creds_opt_set_out_ccache t.k5.out_cc
    let t1 := t.log { fn := Fn.krb5_get_init_creds_opt_set_out_ccache,
                      args := [Val.ptr t.k5.out_cc], ret := ret }
    if ret ≠ 0 then Flow.cleanup t1
    else Flow.next { t1 with options := { t1.options with out_ccache := some t1.k5.out_cc } })

/-- The acquisition calls of the call log. -/
def Fn.is_acquisition (f : Fn) : Bool :=
  f = Fn.krb5_get_init_creds_password ∨ f = Fn.krb5_get_init_creds_keytab ∨
  f = Fn.krb5_get_validated_creds ∨ f = Fn.krb5_get_renewed_creds

/-- The prompter callbacks the library makes during
`krb5_get_init_creds_password`: each runs `kinit_prompter` on `pwprompt`. -/
def kinit_prompts (env : Krb5) (pass : List Nat) :
    List prompt_call → kinit_state → kinit_state
  | [], s => s
  | pc :: pcs, s =>
    let r := kinit_prompter env pass pc s.pwprompt
    kinit_prompts env pass pcs
      ({ s with pwprompt := r.pwprompt }.log
        { fn := Fn.kinit_prompter, args := [Val.int pc.num_prompts],
          ret := r.ret, out := Val.bytes r.reply })

/-- The label `doing` of lines 526-538. -/
def doing (a : action_type) : String :=
  match a with
  | action_type.INIT_PW => "getting initial credentials"
  | action_type.INIT_KT => "getting initial credentials"
  | action_type.VALIDATE => "validating credentials"
  | action_type.RENEW => "renewing credentials"

/-- The dedicated message of line 544. -/
def password_incorrect (progname : Option String) (a : action_type) : Call :=
  fprintf_stderr "%s: Password incorrect while %s\n"
    [Val.str progname, Val.str (some (doing a))]

/-- The generic message of line 547: the call of `com_err` with the code, the
format and the label.  What this call prints is decided by the hook
`extended_com_err_fn`; see `com_err_hook`. -/
def while_doing (progname : Option String) (ret : krb5_error_code)
    (a : action_type) : Call :=
  com_err progname ret "while %s" [Val.str (some (doing a))]

/-- Lines 503-523: the acquisition call of the chosen mode.  Yields the state
after the call and the return code `ret`. -/
def kinit_dispatch (env : Krb5) (pass : List Nat) (s : kinit_state) :
    kinit_state × krb5_error_code :=
  match s.opts.action with
  | action_type.INIT_PW =>
    let t := kinit_prompts env pass
      (env.password_prompts s.k5.me s.opts.starttime s.opts.service_name s.options) s
    let r := env.krb5_get_init_creds_password s.k5.me s.opts.starttime
      s.opts.service_name s.options
    ({ t with my_creds := if r.ret = 0 then r.creds else t.my_creds,
              trace := t.trace ++
                [{ fn := Fn.krb5_get_init_creds_password,
                   args := [Val.ptr s.k5.me, Val.int 0, Val.int s.opts.starttime,
                            Val.str s.opts.service_name, Val.options s.options],
                   ret := r.ret, out := Val.creds r.creds }] }, r.ret)
  | action_type.INIT_KT =>
    let r := env.krb5_get_init_creds_keytab s.k5.me s.keytab s.opts.starttime
      s.opts.service_name s.options
    ({ s with my_creds := if r.ret = 0 then r.creds else s.my_creds,
              trace := s.trace ++
                [{ fn := Fn.krb5_get_init_creds_keytab,
                   args := [Val.ptr s.k5.me, Val.ptr s.keytab,
                            Val.int s.opts.starttime, Val.str s.opts.service_name,
                            Val.options s.options],
                   ret := r.ret, out := Val.creds r.creds }] }, r.ret)
  | action_type.VALIDATE =>
    let r := env.krb5_get_validated_creds s.k5.me s.k5.out_cc s.opts.service_name
    ({ s with my_creds := if r.ret = 0 then r.creds else s.my_creds,
              trace := s.trace ++
                [{ fn := Fn.krb5_get_validated_creds,
                   args := [Val.ptr s.k5.me, Val.ptr s.k5.out_cc,
                            Val.str s.opts.service_name],
                   ret := r.ret, out := Val.creds r.creds }] }, r.ret)
  | action_type.RENEW =>
    let r := env.krb5_get_renewed_creds s.k5.me s.k5.out_cc s.opts.service_name
    ({ s with my_creds := if r.ret = 0 then r.creds else s.my_creds,
              trace := s.trace ++
                [{ fn := Fn.krb5_get_renewed_creds,
                   args := [Val.ptr s.k5.me, Val.ptr s.k5.out_cc,
                            Val.str s.opts.service_name],
                   ret := r.ret, out := Val.creds r.creds }] }, r.ret)

/-- Lines 525-550: the report of a failed acquisition call with return code
`ret`: the dedicated message for a likely wrong password, the generic one
otherwise. -/
def kinit_report (env : Krb5) (progname : Option String) (s : kinit_state)
    (ret : krb5_error_code) : Flow kinit_state :=
  if ret ≠ 0 then
    if ret = env.KRB5KRB_AP_ERR_BAD_INTEGRITY ∨
        (s.pwprompt = true ∧ ret = env.KRB5KDC_ERR_PREAUTH_FAILED) then
      Flow.cleanup (s.log (password_incorrect progname s.opts.action))
    else
      Flow.cleanup (s.log (while_doing progname ret s.opts.action))
  else Flow.next s

/-- Lines 503-550: the acquisition call and the report of its failure. -/
def kinit_acquire (env : Krb5) (progname : Option String) (pass : List Nat)
    (s : kinit_state) : Flow kinit_state :=
  kinit_report env progname (kinit_dispatch env pass s).1 (kinit_dispatch env pass s).2

/-- Lines 552-578: in validate and renew mode, stage the credentials in a
temporary MEMORY cache and move it into the output cache. -/
def kinit_commit (env : Krb5) (progname : Option String) (s : kinit_state) :
    Flow kinit_state :=
  if s.opts.action ≠ action_type.INIT_PW ∧ s.opts.action ≠ action_type.INIT_KT then
    let cprinc := if s.opts.canonicalize ≠ 0 then s.my_creds.client else s.k5.me
    let n := env.krb5_cc_new_unique (some "MEMORY")
    let s1 := s.log { fn := Fn.krb5_cc_new_unique,
                      args := [Val.str (some "MEMORY"), Val.null],
                      ret := n.ret, out := Val.ptr n.out }
    let s2 := { s1 with mcc := n.assign s1.mcc }
    let s3 : kinit_state × krb5_error_code :=
      if n.ret = 0 then
        let i := env.krb5_cc_initialize s2.mcc cprinc
        (s2.log { fn := Fn.krb5_cc_initialize, args := [Val.ptr s2.mcc, Val.ptr cprinc],
                  ret := i }, i)
      else (s2, n.ret)
    if s3.2 ≠ 0 then
      Flow.cleanup (s3.1.log (com_err progname s3.2 "when creating temporary cache" []))
    else
      let s4 := s3.1.say "Initialized cache\n" []
      let w := env.k5_cc_store_primary_cred s4.mcc s4.my_creds
      let s5 := s4.log { fn := Fn.k5_cc_store_primary_cred,
                         args := [Val.ptr s4.mcc, Val.creds s4.my_creds], ret := w }
      if w ≠ 0 then
        Flow.cleanup (s5.log (com_err progname w "while storing credentials" []))
      else
        let m := env.krb5_cc_move s5.mcc s5.k5.out_cc
        let s6 := s5.log { fn := Fn.krb5_cc_move,
                           args := [Val.ptr s5.mcc, Val.ptr s5.k5.out_cc], ret := m }
        if m ≠ 0 then
          Flow.cleanup (s6.log (com_err progname m "while saving to cache %s"
            [Val.str (some (s6.opts.k5_out_cache_name.getD ""))]))
        else
          Flow.next ({ s6 with mcc := none }.say "Stored credentials\n" [])
  else Flow.next s

/-- Lines 579-586: record success and switch the active cache if asked. -/
def kinit_switch (env : Krb5) (progname : Option String) (s : kinit_state) :
    Flow kinit_state :=
  let s1 := { s with notix := 0 }
  if s1.k5.switch_to_cache ≠ 0 then
    let ret := env.krb5_cc_switch s1.k5.out_cc
    let s2 := s1.log { fn := Fn.krb5_cc_switch, args := [Val.ptr s1.k5.out_cc],
                       ret := ret }
    if ret ≠ 0 then
      Flow.cleanup (s2.log (com_err progname ret "while switching to new ccache" []))
    else Flow.next s2
  else Flow.next s1

/-- Lines 588-605: the `cleanup` label of `k5_kinit`. -/
def kinit_cleanup (s : kinit_state) : kinit_state :=
  let s1 := s.log { fn := Fn.kinit_kdb_fini }
  let s2 := if s1.mcc ≠ none then
      s1.log { fn := Fn.krb5_cc_destroy, args := [Val.ptr s1.mcc] }
    else s1
  let s3 := if s2.options_alloc = true then
      s2.log { fn := Fn.krb5_get_init_creds_opt_free, args := [Val.options s2.options] }
    else s2
  let s4 := if s3.my_creds.client = s3.k5.me then
      { s3 with my_creds := { s3.my_creds with client := none } }
    else s3
  let s5 := if s4.opts.pa_opts ≠ [] then
      { s4 with opts := { s4.opts with pa_opts := [] } }.log { fn := Fn.free }
    else s4
  let s6 := s5.log { fn := Fn.krb5_free_cred_contents, args := [Val.creds s5.my_creds] }
  if s6.keytab ≠ none then
    s6.log { fn := Fn.krb5_kt_close, args := [Val.ptr s6.keytab] }
  else s6

/-- Lines 409-477 of `k5_kinit`: everything before the pre-authentication
loop. -/
def kinit_setup (env : Krb5) (progname : Option String) (s : kinit_state) :
    Flow kinit_state :=
  ((kinit_alloc env s).bind
    (fun t => kinit_addresses env progname (kinit_flags t))).bind
    (fun t => kinit_keytab env progname (kinit_flags_pac t))

/-- Lines 409-586 of `k5_kinit`, the part before the `cleanup` label. -/
def kinit_body (env : Krb5) (progname : Option String) (pass : List Nat)
    (s : kinit_state) : Flow kinit_state :=
  (((((kinit_setup env progname s).bind
    (fun t => kinit_pa_loop env progname t.opts.pa_opts t)).bind
    (kinit_ccaches env)).bind
    (kinit_acquire env progname pass)).bind
    (kinit_commit env progname)).bind
    (kinit_switch env progname)

/-- The value `notix ? 0 : 1` that `k5_kinit` returns. -/
def kinit_state.retval (s : kinit_state) : Int :=
  if s.notix ≠ 0 then 0 else 1

/-- The function `k5_kinit`: returns the final state; `retval` of it is the
return value.  `pass` is the content of the global `udata.pass`. -/
def k5_kinit (env : Krb5) (progname : Option String) (pass : List Nat)
    (opts : k_opts) (k5 : k5_data) : kinit_state :=
  kinit_cleanup (kinit_body env progname pass { opts := opts, k5 := k5 }).state

/-! ## my_kinit_main -/

/-- The global `struct userdata udata`: two arrays, each of 256 bytes in the
C code. -/
structure userdata where
  name : List Nat
  pass : List Nat
deriving DecidableEq

/-- The bytes of the C string that the text `s` stands for (its UTF-8
encoding), without the final NUL. -/
def c_bytes (s : String) : List Nat :=
  (s.toList.flatMap String.utf8EncodeChar).map UInt8.toNat

/-- The text stands for a C string: none of its bytes is NUL. -/
def is_c_string (s : String) : Prop := 0 ∉ c_bytes s

instance (s : String) : Decidable (is_c_string s) := by
  unfold is_c_string; infer_instance

/-- The call `strncpy(dst, src, strlen(src) + 1)`: the bytes of `src` and its
NUL overwrite the start of `dst`. -/
def strncpy_all (dst : List Nat) (src : String) : List Nat :=
  (c_bytes src ++ [0]) ++ dst.drop ((c_bytes src).length + 1)

/-- The call `memset(buf, v, n)`: the first `n` bytes of `buf` become `v`. -/
def memset (buf : List Nat) (v n : Nat) : List Nat :=
  List.replicate (min n buf.length) v ++ buf.drop n

/-- The macro `GET_PROGNAME` (non-Windows): what follows the last slash. -/
def GET_PROGNAME (x : String) : String :=
  String.mk (x.toList.reverse.takeWhile (fun c => c ≠ '/')).reverse

/-- The exit status of lines 650-652. -/
def exit_status (authed_k5 : Int) : Int :=
  if authed_k5 = 0 then 1 else 0

/-- What a run hands back: the exit status, the global `udata`, the value of
`authed_k5`, the session state at the end, and the call log. -/
structure main_result where
  status : Int
  udata : userdata
  authed_k5 : Int
  k5 : k5_data
  trace : List Call

/-- Lines 639-640: `k5_kinit` runs only when `k5_begin` succeeded.  Yields
`authed_k5`, the options and session state, and the call log so far. -/
def kinit_attempt (env : Krb5) (progname : Option String) (opts : k_opts)
    (pass : List Nat) : Int × k_opts × k5_data × List Call :=
  let b := k5_begin env progname opts {}
  if b.success ≠ 0 then
    let k := k5_kinit env progname pass b.opts b.k5
    (k.retval, k.opts, k.k5, b.trace ++ k.trace)
  else (0, b.opts, b.k5, b.trace)

/-- Lines 635-652 of `my_kinit_main` for given options: the installation of
the `com_err` hook, `k5_begin`, `k5_kinit` when it succeeded, `k5_end`, the
overwrite of `udata`, the exit status. -/
def kinit_session (env : Krb5) (progname : Option String) (opts : k_opts)
    (udata : userdata) : main_result :=
  let a := kinit_attempt env progname opts udata.pass
  let t := if a.1 ≠ 0 ∧ a.2.1.verbose ≠ 0 then
      a.2.2.2 ++ [fprintf_stderr "Authenticated to Kerberos v5\n" []]
    else a.2.2.2
  let e := k5_end a.2.2.1
  { status := exit_status a.1,
    udata := { name := memset udata.name 255 256, pass := memset udata.pass 255 256 },
    authed_k5 := a.1,
    k5 := e.1,
    trace := [{ fn := Fn.set_com_err_hook }] ++ t ++ e.2 ++
      [{ fn := Fn.memset, args := [Val.str (some "udata.name"), Val.int 255] },
       { fn := Fn.memset, args := [Val.str (some "udata.pass"), Val.int 255] }] }

/-- The function `my_kinit_main`.  The arguments are given as texts, which
stand for the C strings of their UTF-8 encodings.  `argv[1]` and `argv[2]` are
copied into the arrays of `udata`, which hold 256 bytes each; the result is `none` when one of
the first three arguments is missing or is no C string, or when `argv[1]` or
`argv[2]` with its final NUL takes more than 256 bytes, where the C code has
no defined behaviour.  The locale and stream buffering calls are left out. -/
def my_kinit_main (env : Krb5) (argv : List String) (udata : userdata) :
    Option main_result :=
  match argv with
  | a0 :: a1 :: a2 :: _ =>
    if is_c_string a0 ∧ is_c_string a1 ∧ is_c_string a2 ∧
        (c_bytes a1).length + 1 ≤ 256 ∧ (c_bytes a2).length + 1 ≤ 256 then
      let u : userdata := { name := strncpy_all udata.name a1,
                            pass := strncpy_all udata.pass a2 }
      some (kinit_session env (some (GET_PROGNAME a0))
        { action := action_type.INIT_PW, principal_name := some a1, verbose := 1 } u)
    else none
  | _ => none

/-! ## Call logs -/

/-- The function `f` occurs in the call log `tr`. -/
def called (f : Fn) (tr : List Call) : Prop := ∃ c ∈ tr, c.fn = f

instance (f : Fn) (tr : List Call) : Decidable (called f tr) := by
  unfold called; infer_instance

/-- The calls of `f` in the call log `tr`, in order. -/
def calls_of (f : Fn) (tr : List Call) : List Call :=
  tr.filter (fun c => c.fn = f)

/-- Postcondition of a block: `I` when it falls through, `Q` when it jumps to
cleanup. -/
@[simp] def Flow.post {σ : Type} (f : Flow σ) (I Q : σ → Prop) : Prop :=
  match f with
  | Flow.next t => I t
  | Flow.cleanup t => Q t

/-! ## The credential stores -/

/-- Modelled from the spec: the content of a credential store, which the
store subsystem (not part of the repository) keeps: the principal it was
initialized for and the credentials written to it. -/
structure store_content where
  princ : krb5_principal
  creds : List krb5_creds
deriving DecidableEq

/-- Modelled from the spec: the stores by handle; `none` is a store that does
not exist or was destroyed. -/
abbrev stores := Nat → Option store_content

/-- Replaces the content of the store with handle `h`. -/
def stores.set (w : stores) (h : Nat) (v : Option store_content) : stores :=
  fun k => if k = h then v else w k

/-- Modelled from the spec: what a logged call does to the stores, following
sections 4.5 and 4.6 of the specification.  A call that failed changes
nothing (the move is atomic).  Creating a store makes it exist empty,
initializing sets its principal and empties it, storing adds a credential,
moving replaces the destination by the source and removes the source,
destroying removes the store, and a successful initial acquisition (password
or keytab) writes the credentials into the output store named in the request
options.  Validation, renewal and all other calls only read. -/
def Call.effect (c : Call) (w : stores) : stores :=
  if c.ret ≠ 0 then w
  else if c.fn = Fn.krb5_cc_new_unique then
    match c.out with
    | Val.ptr (some h) => w.set h (some { princ := none, creds := [] })
    | _ => w
  else if c.fn = Fn.krb5_cc_initialize then
    match c.args with
    | [Val.ptr (some h), Val.ptr p] => w.set h (some { princ := p, creds := [] })
    | _ => w
  else if c.fn = Fn.k5_cc_store_primary_cred then
    match c.args with
    | [Val.ptr (some h), Val.creds cr] =>
      w.set h ((w h).map (fun st => { st with creds := st.creds ++ [cr] }))
    | _ => w
  else if c.fn = Fn.krb5_cc_move then
    match c.args with
    | [Val.ptr (some src), Val.ptr (some dst)] => (w.set dst (w src)).set src none
    | _ => w
  else if c.fn = Fn.krb5_cc_destroy then
    match c.args with
    | [Val.ptr (some h)] => w.set h none
    | _ => w
  else if c.fn = Fn.krb5_get_init_creds_password ∨
      c.fn = Fn.krb5_get_init_creds_keytab then
    match c.args.getLast?, c.out with
    | some (Val.options o), Val.creds cr =>
      match o.out_ccache with
      | some (some h) => w.set h (some { princ := cr.client, creds := [cr] })
      | _ => w
    | _, _ => w
  else w

/-- The stores after the calls of a log, in order. -/
def run_effects (tr : List Call) (w : stores) : stores :=
  tr.foldl (fun v c => c.effect v) w

/-! ## Concrete collaborators -/

/-- A collaborator environment in which every call succeeds: the default
cache is handle 1 of a switchable type and holds principal 7, every name
parses to principal 7, no cache of the collection matches, and new caches
get handle 2. -/
def env_same : Krb5 where
  KRB5_CC_NOTFOUND := -1765328243
  KRB5KRB_AP_ERR_BAD_INTEGRITY := -1765328353
  KRB5KDC_ERR_PREAUTH_FAILED := -1765328360
  KRB5_PROMPT_TYPE_PASSWORD := 1
  KRB5_PRINCIPAL_PARSE_ENTERPRISE := 4
  krb5_init_context := ⟨0, some 100⟩
  krb5_cc_resolve := fun _ => ⟨0, some 3⟩
  krb5_cc_default := ⟨0, some 1⟩
  krb5_cc_get_type := fun _ => some "DIR"
  krb5_cc_get_principal := fun _ => ⟨0, some 7⟩
  krb5_parse_name_flags := fun _ _ => ⟨0, some 7⟩
  krb5_get_default_realm := ⟨0, some "EXAMPLE.COM"⟩
  krb5_build_principal_ext := fun _ => ⟨0, some 8⟩
  krb5_kt_client_default := ⟨0, some 20⟩
  k5_kt_get_principal := fun _ => ⟨0, some 9⟩
  krb5_sname_to_principal := ⟨0, some 10⟩
  get_name_from_os := some "root"
  krb5_cc_support_switch := fun _ => true
  krb5_cc_cache_match := fun _ => ⟨-1765328243, none⟩
  krb5_cc_new_unique := fun _ => ⟨0, some 2⟩
  krb5_unparse_name := fun _ => ⟨0, some "alice@EXAMPLE.COM"⟩
  krb5_get_init_creds_opt_alloc := 0
  krb5_os_localaddr := ⟨0, some 30⟩
  kinit_kdb_init := fun _ => ⟨0, some 100⟩
  krb5_kt_resolve := fun _ => ⟨0, some 21⟩
  krb5_get_init_creds_opt_set_pa := fun _ _ _ => 0
  krb5_get_init_creds_opt_set_in_ccache := fun _ => 0
  krb5_get_init_creds_opt_set_out_ccache := fun _ => 0
  krb5_get_init_creds_password := fun me _ _ _ => ⟨0, ⟨me, 1⟩⟩
  password_prompts := fun _ _ _ _ => [⟨some [1], 1⟩]
  krb5_get_init_creds_keytab := fun me _ _ _ _ => ⟨0, ⟨me, 1⟩⟩
  krb5_get_validated_creds := fun me _ _ => ⟨0, ⟨me, 2⟩⟩
  krb5_get_renewed_creds := fun me _ _ => ⟨0, ⟨me, 3⟩⟩
  krb5_cc_initialize := fun _ _ => 0
  k5_cc_store_primary_cred := fun _ _ => 0
  krb5_cc_move := fun _ _ => 0
  krb5_cc_switch := fun _ => 0
  krb5_get_error_message := fun _ _ => "Unknown error"

/-- Run options with only an explicit principal name. -/
def opts_alice : k_opts := { principal_name := some "alice" }

/-- As `env_same`, but the default cache is not initialized and the operating
system reports no user name. -/
def env_nouser : Krb5 :=
  { env_same with
    krb5_cc_get_principal := fun _ => ⟨2, none⟩
    get_name_from_os := none }

/-- As `env_same`, but no name parses. -/
def env_noparse : Krb5 :=
  { env_same with krb5_parse_name_flags := fun _ _ => ⟨22, none⟩ }

/-! ## Predicates used in the proofs about k5_begin -/

/-- What the locals of `k5_begin` record about the default cache. -/
def def_inv (env : Krb5) (opts : k_opts) (s : begin_state) : Prop :=
  s.opts = opts ∧ ¬ called Fn.krb5_cc_new_unique s.trace ∧
  (s.defcache_princ ≠ none →
    opts.k5_out_cache_name = none ∧
    s.deftype = env.krb5_cc_get_type env.krb5_cc_default.out ∧
    (env.krb5_cc_get_principal env.krb5_cc_default.out).ret = 0 ∧
    (env.krb5_cc_get_principal env.krb5_cc_default.out).out ≠ none)

/-- After the choice of principal: a default principal that is still held
back was not taken as the client principal. -/
def def_inv_chosen (env : Krb5) (opts : k_opts) (s : begin_state) : Prop :=
  def_inv env opts s ∧
  (s.defcache_princ ≠ none → s.k5.out_cc = none →
    opts.principal_name ≠ none ∨ opts.anonymous ≠ 0 ∨ opts.action = action_type.INIT_KT)

/-- The circumstances under which `krb5_cc_new_unique` is called. -/
def new_unique_cond (env : Krb5) (opts : k_opts) (me : krb5_principal) : Prop :=
  opts.k5_out_cache_name = none ∧
  env.krb5_cc_support_switch (env.krb5_cc_get_type env.krb5_cc_default.out) = true ∧
  (env.krb5_cc_cache_match me).ret = env.KRB5_CC_NOTFOUND ∧
  (env.krb5_cc_cache_match me).ret ≠ 0 ∧
  (env.krb5_cc_get_principal env.krb5_cc_default.out).ret = 0 ∧
  (env.krb5_cc_get_principal env.krb5_cc_default.out).out ≠ none ∧
  (opts.principal_name ≠ none ∨ opts.anonymous ≠ 0 ∨ opts.action = action_type.INIT_KT)

/-- The property of the final state: a logged `krb5_cc_new_unique` implies
`new_unique_cond`. -/
def new_unique_post (env : Krb5) (opts : k_opts) (s : begin_state) : Prop :=
  called Fn.krb5_cc_new_unique s.trace → new_unique_cond env opts s.k5.me

/-! ## The priority order of identity resolution (specification, section 4.2) -/

/-- The seven sources of the client principal, in priority order. -/
inductive Source where
  | explicit
  | anonymous
  | client_keytab
  | host
  | out_store
  | default_store
  | os_user
deriving DecidableEq

/-- Position of a source in the priority order. -/
def Source.rank : Source → Nat
  | Source.explicit => 1
  | Source.anonymous => 2
  | Source.client_keytab => 3
  | Source.host => 4
  | Source.out_store => 5
  | Source.default_store => 6
  | Source.os_user => 7

/-- The collaborator answer for the principal of the named output store. -/
def out_store_princ (env : Krb5) (opts : k_opts) : Option Res :=
  opts.k5_out_cache_name.map
    (fun nm => env.krb5_cc_get_principal (env.krb5_cc_resolve nm).out)

/-- When a source applies, in the words of the specification: an explicit
name is supplied; the anonymous flag is set; keytab mode with the default
client keytab; keytab mode; an output store was given and has a principal;
no output store was given and the default store has a principal; the
fallback applies always. -/
def Source.applicable (env : Krb5) (opts : k_opts) : Source → Bool
  | Source.explicit => opts.principal_name ≠ none
  | Source.anonymous => opts.anonymous ≠ 0
  | Source.client_keytab =>
    opts.action = action_type.INIT_KT ∧ opts.use_client_keytab ≠ 0
  | Source.host => opts.action = action_type.INIT_KT
  | Source.out_store =>
    match out_store_princ env opts with
    | some g => g.ret = 0 ∧ g.out ≠ none
    | none => false
  | Source.default_store =>
    opts.k5_out_cache_name = none ∧
    (env.krb5_cc_get_principal env.krb5_cc_default.out).ret = 0 ∧
    (env.krb5_cc_get_principal env.krb5_cc_default.out).out ≠ none
  | Source.os_user => true

/-- The earliest applicable source: first match wins. -/
def chosen (env : Krb5) (opts : k_opts) : Source :=
  ([Source.explicit, Source.anonymous, Source.client_keytab, Source.host,
    Source.out_store, Source.default_store].find?
      (fun s => s.applicable env opts)).getD Source.os_user

/-- The principal a source yields. -/
def Source.yield (env : Krb5) (opts : k_opts) : Source → krb5_principal
  | Source.explicit =>
    opts.principal_name.bind
      (fun nm => (env.krb5_parse_name_flags nm (parse_flags env opts)).out)
  | Source.anonymous =>
    (env.krb5_build_principal_ext env.krb5_get_default_realm.out).out
  | Source.client_keytab =>
    (env.k5_kt_get_principal env.krb5_kt_client_default.out).out
  | Source.host => env.krb5_sname_to_principal.out
  | Source.out_store => (out_store_princ env opts).bind (fun g => g.out)
  | Source.default_store =>
    (env.krb5_cc_get_principal env.krb5_cc_default.out).out
  | Source.os_user =>
    env.get_name_from_os.bind
      (fun nm => (env.krb5_parse_name_flags nm (parse_flags env opts)).out)

/-- Every collaborator call that reports success yields a non-null handle or
principal. -/
structure success_nonnull (env : Krb5) : Prop where
  resolve : ∀ nm, (env.krb5_cc_resolve nm).ret = 0 → (env.krb5_cc_resolve nm).out ≠ none
  default : env.krb5_cc_default.ret = 0 → env.krb5_cc_default.out ≠ none
  get_principal : ∀ c, (env.krb5_cc_get_principal c).ret = 0 →
    (env.krb5_cc_get_principal c).out ≠ none
  parse : ∀ nm fl, (env.krb5_parse_name_flags nm fl).ret = 0 →
    (env.krb5_parse_name_flags nm fl).out ≠ none
  build : ∀ r, (env.krb5_build_principal_ext r).ret = 0 →
    (env.krb5_build_principal_ext r).out ≠ none
  kt_principal : ∀ k, (env.k5_kt_get_principal k).ret = 0 →
    (env.k5_kt_get_principal k).out ≠ none
  sname : env.krb5_sname_to_principal.ret = 0 → env.krb5_sname_to_principal.out ≠ none
  cache_match : ∀ p, (env.krb5_cc_cache_match p).ret = 0 →
    (env.krb5_cc_cache_match p).out ≠ none
  new_unique : ∀ t, (env.krb5_cc_new_unique t).ret = 0 →
    (env.krb5_cc_new_unique t).out ≠ none

/-- Every step of the priority list that reports success yields a non-null
result: a resolved output store, and the principal of the parser, of the
anonymous principal builder, of the client keytab and of the host name. -/
structure yields_nonnull (env : Krb5) : Prop where
  resolve : ∀ nm, (env.krb5_cc_resolve nm).ret = 0 → (env.krb5_cc_resolve nm).out ≠ none
  parse : ∀ nm fl, (env.krb5_parse_name_flags nm fl).ret = 0 →
    (env.krb5_parse_name_flags nm fl).out ≠ none
  build : ∀ r, (env.krb5_build_principal_ext r).ret = 0 →
    (env.krb5_build_principal_ext r).out ≠ none
  kt_principal : ∀ k, (env.k5_kt_get_principal k).ret = 0 →
    (env.k5_kt_get_principal k).out ≠ none
  sname : env.krb5_sname_to_principal.ret = 0 → env.krb5_sname_to_principal.out ≠ none

/-- The logged call consults no source later than the earliest applicable
one.  A call of a collaborator that serves one source only (the default-realm
lookup and the building of the anonymous principal, the two calls on the
default client keytab, the host principal, the OS user name) is made only when
that source is the earliest applicable one.  A call of
`krb5_parse_name_flags` parses the explicit name when the explicit name is the
earliest applicable source, and the OS user name when the fallback is.  A call
of `krb5_cc_get_principal` is made on the named output store, and then no
source before it applies, or on the default store when no output store is
named: that lookup of lines 190-199 is made whatever the earliest applicable
source is. -/
def call_allowed (env : Krb5) (opts : k_opts) (c : Call) : Prop :=
  (c.fn = Fn.krb5_get_default_realm ∨ c.fn = Fn.krb5_build_principal_ext →
    chosen env opts = Source.anonymous) ∧
  (c.fn = Fn.krb5_kt_client_default ∨ c.fn = Fn.k5_kt_get_principal →
    chosen env opts = Source.client_keytab) ∧
  (c.fn = Fn.krb5_sname_to_principal → chosen env opts = Source.host) ∧
  (c.fn = Fn.get_name_from_os → chosen env opts = Source.os_user) ∧
  (c.fn = Fn.krb5_parse_name_flags →
    (chosen env opts = Source.explicit ∧
      c.args = [Val.str opts.principal_name, Val.int (parse_flags env opts)]) ∨
    (chosen env opts = Source.os_user ∧
      c.args = [Val.str env.get_name_from_os, Val.int (parse_flags env opts)])) ∧
  (c.fn = Fn.krb5_cc_get_principal →
    (opts.k5_out_cache_name = none ∧ c.args = [Val.ptr env.krb5_cc_default.out]) ∨
    (∃ nm, opts.k5_out_cache_name = some nm ∧
      c.args = [Val.ptr (env.krb5_cc_resolve nm).out] ∧
      (chosen env opts = Source.out_store ∨ chosen env opts = Source.os_user)))

/-- Every call of the log is allowed in the sense of `call_allowed`. -/
def calls_allowed (env : Krb5) (opts : k_opts) (tr : List Call) : Prop :=
  ∀ c ∈ tr, call_allowed env opts c

/-- The calls of `krb5_parse_name_flags` in a log, in order. -/
def parse_calls (tr : List Call) : List Call :=
  calls_of Fn.krb5_parse_name_flags tr

/-- State of `k5_begin` once the output or default cache is resolved. -/
def ident_inv_start (env : Krb5) (opts : k_opts) (s : begin_state) : Prop :=
  s.opts = opts ∧ s.success = 0 ∧ s.k5.me = none ∧ calls_allowed env opts s.trace ∧
  parse_calls s.trace = [] ∧
  (∀ nm, opts.k5_out_cache_name = some nm →
    (env.krb5_cc_resolve nm).ret = 0 ∧
    s.k5.out_cc = (env.krb5_cc_resolve nm).out ∧ s.defcache_princ = none) ∧
  (opts.k5_out_cache_name = none →
    s.k5.out_cc = none ∧
    s.defcache_princ =
      if (env.krb5_cc_get_principal env.krb5_cc_default.out).ret ≠ 0 then none
      else (env.krb5_cc_get_principal env.krb5_cc_default.out).out)

/-- State of `k5_begin` after lines 202-265. -/
def ident_inv_chosen (env : Krb5) (opts : k_opts) (s : begin_state) : Prop :=
  s.opts = opts ∧ s.success = 0 ∧ calls_allowed env opts s.trace ∧
  (s.k5.me = none → chosen env opts = Source.os_user) ∧
  (s.k5.me ≠ none → s.k5.me = (chosen env opts).yield env opts) ∧
  (s.k5.me = none → parse_calls s.trace = []) ∧
  (parse_calls s.trace).length ≤ 1

/-- State of `k5_begin` after lines 267-279. -/
def ident_inv_done (env : Krb5) (opts : k_opts) (s : begin_state) : Prop :=
  s.success = 0 ∧ calls_allowed env opts s.trace ∧
  s.k5.me = (chosen env opts).yield env opts ∧
  (parse_calls s.trace).length ≤ 1

/-- The property of the final state of `k5_begin`. -/
def ident_post (env : Krb5) (opts : k_opts) (s : begin_state) : Prop :=
  calls_allowed env opts s.trace ∧
  (s.success ≠ 0 → s.k5.me = (chosen env opts).yield env opts) ∧
  (parse_calls s.trace).length ≤ 1

/-! ## Predicates for the session state invariant -/

/-- Before the principal is settled: some cache is at hand. -/
def cache_inv (s : begin_state) : Prop :=
  s.success = 0 ∧ (s.k5.out_cc ≠ none ∨ s.defcache ≠ none)

/-- After lines 267-279: the principal is settled and some cache is at hand. -/
def princ_inv (s : begin_state) : Prop :=
  s.success = 0 ∧ s.k5.me ≠ none ∧ (s.k5.out_cc ≠ none ∨ s.defcache ≠ none)

/-- After lines 311-319: principal and output cache are settled. -/
def ready_inv (s : begin_state) : Prop :=
  s.success = 0 ∧ s.k5.me ≠ none ∧ s.k5.out_cc ≠ none

/-- The session state invariant at the end of `k5_begin`. -/
def ready_post (s : begin_state) : Prop :=
  s.success ≠ 0 → s.k5.me ≠ none ∧ s.k5.out_cc ≠ none

/-! ## Predicates for identity resolution failure -/

/-- A logged call that makes identity resolution fail: `get_name_from_os`
returning `NULL`, or `krb5_parse_name_flags` rejecting its input. -/
def Call.rejects (c : Call) : Prop :=
  (c.fn = Fn.get_name_from_os ∧ c.out = Val.str none) ∨
  (c.fn = Fn.krb5_parse_name_flags ∧ c.ret ≠ 0)

/-- The explicit principal name is given and its parse is rejected. -/
def explicit_rejected (env : Krb5) (opts : k_opts) : Prop :=
  ∃ nm, opts.principal_name = some nm ∧
    (env.krb5_parse_name_flags nm (parse_flags env opts)).ret ≠ 0

/-- No call of the log rejects. -/
def no_reject (tr : List Call) : Prop := ∀ c ∈ tr, ¬ c.rejects

/-- No rejecting call so far, and no success recorded. -/
def reject_inv_start (opts : k_opts) (s : begin_state) : Prop :=
  s.opts = opts ∧ s.success = 0 ∧ no_reject s.trace

/-- As `reject_inv_start`, once the explicit name has been parsed. -/
def reject_inv (env : Krb5) (opts : k_opts) (s : begin_state) : Prop :=
  s.success = 0 ∧ no_reject s.trace ∧ ¬ explicit_rejected env opts

/-- At the end of `k5_begin`: a rejecting call or a rejected explicit name
means failure. -/
def reject_post (env : Krb5) (opts : k_opts) (s : begin_state) : Prop :=
  (¬ no_reject s.trace ∨ explicit_rejected env opts) → s.success = 0

/-! ## Predicates for store selection -/

/-- The log holds a `krb5_cc_cache_match` call answered `KRB5_CC_NOTFOUND`. -/
def notfound_logged (env : Krb5) (tr : List Call) : Prop :=
  ∃ c ∈ tr, c.fn = Fn.krb5_cc_cache_match ∧ c.ret = env.KRB5_CC_NOTFOUND

/-- The default store holds an initialized principal. -/
def default_held (env : Krb5) : Prop :=
  (env.krb5_cc_get_principal env.krb5_cc_default.out).ret = 0 ∧
  (env.krb5_cc_get_principal env.krb5_cc_default.out).out ≠ none

/-- The collaborator calls that remain after the cache search succeed. -/
def rest_succeeds (env : Krb5) (opts : k_opts) : Prop :=
  (∀ t, (env.krb5_cc_new_unique t).ret = 0) ∧
  (∀ nm, opts.k5_in_cache_name = some nm → (env.krb5_cc_resolve nm).ret = 0) ∧
  (∀ p, (env.krb5_unparse_name p).ret = 0)

/-- With no output store named: the state after lines 178-200. -/
def sel_inv_start (env : Krb5) (opts : k_opts) (s : begin_state) : Prop :=
  s.opts = opts ∧ s.success = 0 ∧ ¬ called Fn.krb5_cc_cache_match s.trace ∧
  ¬ called Fn.krb5_cc_new_unique s.trace ∧ s.k5.out_cc = none ∧
  s.defcache = env.krb5_cc_default.out ∧
  s.defcache_princ =
    if (env.krb5_cc_get_principal env.krb5_cc_default.out).ret ≠ 0 then none
    else (env.krb5_cc_get_principal env.krb5_cc_default.out).out

/-- With no output store named: the state before the cache search. -/
def sel_inv (env : Krb5) (opts : k_opts) (s : begin_state) : Prop :=
  s.opts = opts ∧ s.success = 0 ∧ ¬ called Fn.krb5_cc_cache_match s.trace ∧
  ¬ called Fn.krb5_cc_new_unique s.trace ∧
  (s.k5.out_cc = none →
    s.defcache = env.krb5_cc_default.out ∧
    ((s.defcache_princ =
        if (env.krb5_cc_get_principal env.krb5_cc_default.out).ret ≠ 0 then none
        else (env.krb5_cc_get_principal env.krb5_cc_default.out).out) ∨
     (s.defcache_princ = none ∧ env.krb5_cc_default.out = none)))

/-- What the cache search leaves when nothing was found: a new cache, or the
default cache still to be taken. -/
def sel_found (env : Krb5) (s : begin_state) : Prop :=
  (called Fn.krb5_cc_new_unique s.trace ∨
    (s.k5.out_cc = none ∧ s.defcache = env.krb5_cc_default.out)) ∧
  (default_held env ∧ env.krb5_cc_default.out ≠ none →
    called Fn.krb5_cc_new_unique s.trace) ∧
  (¬ default_held env →
    ¬ called Fn.krb5_cc_new_unique s.trace ∧ s.k5.out_cc = none ∧
    s.defcache = env.krb5_cc_default.out)

/-- The outcome of store selection when nothing was found: a new cache was
created, or the default cache is the output cache. -/
def sel_done (env : Krb5) (s : begin_state) : Prop :=
  (called Fn.krb5_cc_new_unique s.trace ∨ s.k5.out_cc = env.krb5_cc_default.out) ∧
  (default_held env ∧ env.krb5_cc_default.out ≠ none →
    called Fn.krb5_cc_new_unique s.trace) ∧
  (¬ default_held env →
    ¬ called Fn.krb5_cc_new_unique s.trace ∧ s.k5.out_cc = env.krb5_cc_default.out)

/-- State after lines 281-309. -/
def sel_inv_searched (env : Krb5) (opts : k_opts) (s : begin_state) : Prop :=
  s.opts = opts ∧ s.success = 0 ∧ (notfound_logged env s.trace → sel_found env s)

/-- State after lines 311-319. -/
def sel_inv_done (env : Krb5) (opts : k_opts) (s : begin_state) : Prop :=
  s.opts = opts ∧ s.success = 0 ∧ (notfound_logged env s.trace → sel_done env s)

/-- At the end of `k5_begin`: a search that found nothing did not make the
run fail. -/
def sel_post (env : Krb5) (s : begin_state) : Prop :=
  notfound_logged env s.trace → s.success ≠ 0 ∧ sel_done env s

/-- The named output store, or the named input store, does not resolve. -/
def resolve_fails (env : Krb5) (opts : k_opts) : Prop :=
  (∃ nm, opts.k5_out_cache_name = some nm ∧ (env.krb5_cc_resolve nm).ret ≠ 0) ∨
  (∃ nm, opts.k5_in_cache_name = some nm ∧ (env.krb5_cc_resolve nm).ret ≠ 0)

/-- Before the input store is resolved: the output store, if named, did
resolve. -/
def resolve_inv (env : Krb5) (opts : k_opts) (s : begin_state) : Prop :=
  s.opts = opts ∧ s.success = 0 ∧
  ¬ (∃ nm, opts.k5_out_cache_name = some nm ∧ (env.krb5_cc_resolve nm).ret ≠ 0)

/-- After the input store is resolved. -/
def resolve_inv_done (env : Krb5) (opts : k_opts) (s : begin_state) : Prop :=
  s.success = 0 ∧ ¬ resolve_fails env opts

/-- At the end of `k5_begin`: a store that does not resolve means failure. -/
def resolve_post (env : Krb5) (opts : k_opts) (s : begin_state) : Prop :=
  resolve_fails env opts → s.success = 0

/-! ## The calls each block of k5_kinit can log -/

/-- The log `t` extends the log `s` by calls of functions in `fs` only. -/
def extends_by (fs : List Fn) (s t : List Call) : Prop :=
  ∃ l, t = s ++ l ∧ ∀ c ∈ l, c.fn ∈ fs

/-- Functions called by lines 413-428, for given options. -/
def flags_fns (o : k_opts) : List Fn :=
  (if o.lifetime ≠ 0 then [Fn.krb5_get_init_creds_opt_set_tkt_life] else []) ++
  (if o.rlife ≠ 0 then [Fn.krb5_get_init_creds_opt_set_renew_life] else []) ++
  (if o.forwardable ≠ 0 ∨ o.not_forwardable ≠ 0 then
    [Fn.krb5_get_init_creds_opt_set_forwardable] else []) ++
  (if o.proxiable ≠ 0 ∨ o.not_proxiable ≠ 0 then
    [Fn.krb5_get_init_creds_opt_set_proxiable] else []) ++
  [Fn.krb5_get_init_creds_opt_set_canonicalize, Fn.krb5_get_init_creds_opt_set_anonymous]

/-- Functions called by lines 429-436. -/
def addresses_fns : List Fn :=
  [Fn.krb5_os_localaddr, Fn.com_err, Fn.krb5_get_init_creds_opt_set_address_list]

/-- Functions called by lines 437-446, for given options. -/
def flags_pac_fns (o : k_opts) : List Fn :=
  [Fn.krb5_get_init_creds_opt_set_address_list,
   Fn.krb5_get_init_creds_opt_set_fast_ccache_name] ++
  (if o.request_pac ≠ 0 ∨ o.not_request_pac ≠ 0 then
    [Fn.krb5_get_init_creds_opt_set_pac_request] else [])

/-- Functions called by lines 449-477. -/
def keytab_fns : List Fn :=
  [Fn.kinit_kdb_init, Fn.com_err, Fn.krb5_kt_resolve, Fn.fprintf_stderr,
   Fn.krb5_kt_client_default]

/-- Functions called by lines 409-477. -/
def setup_fns (o : k_opts) : List Fn :=
  Fn.krb5_get_init_creds_opt_alloc ::
    (flags_fns o ++ addresses_fns ++ flags_pac_fns o ++ keytab_fns)

/-- Functions called by lines 479-492. -/
def pa_fns : List Fn :=
  [Fn.krb5_get_init_creds_opt_set_pa, Fn.com_err, Fn.fprintf_stderr]

/-- Functions called by lines 493-501. -/
def ccaches_fns : List Fn :=
  [Fn.krb5_get_init_creds_opt_set_in_ccache, Fn.krb5_get_init_creds_opt_set_out_ccache]

/-- The acquisition function of a mode. -/
def acquisition_fn : action_type → Fn
  | action_type.INIT_PW => Fn.krb5_get_init_creds_password
  | action_type.INIT_KT => Fn.krb5_get_init_creds_keytab
  | action_type.VALIDATE => Fn.krb5_get_validated_creds
  | action_type.RENEW => Fn.krb5_get_renewed_creds

/-- Functions called by lines 503-550, for a given mode. -/
def acquire_fns (a : action_type) : List Fn :=
  (if a = action_type.INIT_PW then [Fn.kinit_prompter] else []) ++
  [acquisition_fn a, Fn.fprintf_stderr, Fn.com_err]

/-- Functions called by lines 552-578, for a given mode. -/
def commit_fns (a : action_type) : List Fn :=
  if a ≠ action_type.INIT_PW ∧ a ≠ action_type.INIT_KT then
    [Fn.krb5_cc_new_unique, Fn.krb5_cc_initialize, Fn.com_err, Fn.fprintf_stderr,
     Fn.k5_cc_store_primary_cred, Fn.krb5_cc_move]
  else []

/-- Functions called by lines 579-586, for a given switch flag. -/
def switch_fns (sw : Int) : List Fn :=
  if sw ≠ 0 then [Fn.krb5_cc_switch, Fn.com_err] else []

/-- Functions called by lines 588-605. -/
def cleanup_fns : List Fn :=
  [Fn.kinit_kdb_fini, Fn.krb5_cc_destroy, Fn.krb5_get_init_creds_opt_free, Fn.free,
   Fn.krb5_free_cred_contents, Fn.krb5_kt_close]

/-- Functions called by lines 409-550. -/
def front_fns (o : k_opts) : List Fn :=
  setup_fns o ++ pa_fns ++ ccaches_fns ++ acquire_fns o.action

/-- Functions `k5_kinit` can call, for given options and session state. -/
def kinit_fns (o : k_opts) (k5 : k5_data) : List Fn :=
  front_fns o ++ commit_fns o.action ++ switch_fns k5.switch_to_cache ++ cleanup_fns

/-- The state `t` agrees with `s` on the options, on `notix`, on the temporary
cache and on the session state apart from the context. -/
def same_frame (s t : kinit_state) : Prop :=
  t.opts = s.opts ∧ t.notix = s.notix ∧ t.mcc = s.mcc ∧ t.k5.out_cc = s.k5.out_cc ∧
  t.k5.me = s.k5.me ∧ t.k5.in_cc = s.k5.in_cc ∧
  t.k5.switch_to_cache = s.k5.switch_to_cache

/-- Lines 493-586 of `k5_kinit`: what follows the pre-authentication loop. -/
def kinit_rest (env : Krb5) (progname : Option String) (pass : List Nat)
    (s : kinit_state) : Flow kinit_state :=
  (((kinit_ccaches env s).bind (kinit_acquire env progname pass)).bind
    (kinit_commit env progname)).bind (kinit_switch env progname)

/-- The logged arguments of one pre-authentication pair. -/
def pa_args (p : krb5_gic_opt_pa_data) : List Val :=
  [Val.str (some p.attr), Val.str (some p.value)]

/-- The calls of `krb5_get_init_creds_opt_set_pa` in a log, in order. -/
def pa_calls (tr : List Call) : List Call :=
  calls_of Fn.krb5_get_init_creds_opt_set_pa tr

/-- The calls `A` are attempts on a prefix of the pairs `ps`, in order, of
which only the last one can have failed. -/
def pa_applied (ps : List krb5_gic_opt_pa_data) (A : List Call) : Prop :=
  A.map (fun c => c.args) = (ps.take A.length).map pa_args ∧
  ∀ i c, A[i]? = some c → c.ret ≠ 0 → A.length = i + 1

/-- All functions lines 409-477 can call, whatever the options. -/
def setup_all : List Fn :=
  [Fn.krb5_get_init_creds_opt_alloc, Fn.krb5_get_init_creds_opt_set_tkt_life,
   Fn.krb5_get_init_creds_opt_set_renew_life, Fn.krb5_get_init_creds_opt_set_forwardable,
   Fn.krb5_get_init_creds_opt_set_proxiable, Fn.krb5_get_init_creds_opt_set_canonicalize,
   Fn.krb5_get_init_creds_opt_set_anonymous, Fn.krb5_os_localaddr, Fn.com_err,
   Fn.krb5_get_init_creds_opt_set_address_list,
   Fn.krb5_get_init_creds_opt_set_fast_ccache_name,
   Fn.krb5_get_init_creds_opt_set_pac_request, Fn.kinit_kdb_init, Fn.krb5_kt_resolve,
   Fn.fprintf_stderr, Fn.krb5_kt_client_default]

/-- All functions lines 493-586 can call, whatever the mode. -/
def rest_all : List Fn :=
  [Fn.krb5_get_init_creds_opt_set_in_ccache, Fn.krb5_get_init_creds_opt_set_out_ccache,
   Fn.kinit_prompter, Fn.krb5_get_init_creds_password, Fn.krb5_get_init_creds_keytab,
   Fn.krb5_get_validated_creds, Fn.krb5_get_renewed_creds, Fn.fprintf_stderr, Fn.com_err,
   Fn.krb5_cc_new_unique, Fn.krb5_cc_initialize, Fn.k5_cc_store_primary_cred,
   Fn.krb5_cc_move, Fn.krb5_cc_switch]

/-- The fields of the request options the flag and lifetime settings write. -/
def opt_fields (r : krb5_get_init_creds_opt) :
    Option Int × Option Int × Option Int × Option Int × Option Bool :=
  (r.tkt_life, r.renew_life, r.forwardable, r.proxiable, r.pac_request)

/-- The request options as the flag mapping leaves them: a lifetime is set
only when non-zero; of a pair of flags, the negative one gives false (`0`),
otherwise the positive one gives true (`1`), and with neither flag the field
is not written. -/
def options_built (o : k_opts) (r : krb5_get_init_creds_opt) : Prop :=
  r.tkt_life = (if o.lifetime ≠ 0 then some o.lifetime else none) ∧
  r.renew_life = (if o.rlife ≠ 0 then some o.rlife else none) ∧
  r.forwardable =
    (if o.not_forwardable ≠ 0 then some 0 else if o.forwardable ≠ 0 then some 1
     else none) ∧
  r.proxiable =
    (if o.not_proxiable ≠ 0 then some 0 else if o.proxiable ≠ 0 then some 1 else none) ∧
  r.pac_request =
    (if o.not_request_pac ≠ 0 then some false else if o.request_pac ≠ 0 then some true
     else none)

/-- Every initial acquisition call of the log was passed request options
satisfying `P`. -/
def acq_opts_ok (P : krb5_get_init_creds_opt → Prop) (tr : List Call) : Prop :=
  ∀ c ∈ tr, c.fn = Fn.krb5_get_init_creds_password ∨ c.fn = Fn.krb5_get_init_creds_keytab →
    ∀ o, Val.options o ∈ c.args → P o

/-- As `env_same`, but the pre-authentication attribute `bad` is rejected. -/
def env_pa : Krb5 :=
  { env_same with
    krb5_get_init_creds_opt_set_pa := fun _ attr _ => if attr = "bad" then 7 else 0 }

/-- Run options with three pre-authentication pairs, the second of which is
rejected by `env_pa`. -/
def opts_pa : k_opts :=
  { principal_name := some "alice",
    pa_opts := [⟨"a", "1"⟩, ⟨"bad", "2"⟩, ⟨"c", "3"⟩] }

/-- A session state as `k5_begin` leaves it: principal 7 and output cache 1. -/
def k5_ready : k5_data :=
  { ctx := some 100, out_cc := some 1, me := some 7, name := some "alice@EXAMPLE.COM" }

/-- Run options with both the forwardable and the not-forwardable flag set. -/
def opts_fwd : k_opts :=
  { principal_name := some "alice", forwardable := 1, not_forwardable := 1 }

/-- Lines 409-501 of `k5_kinit`: everything before the acquisition call. -/
def kinit_pre (env : Krb5) (progname : Option String) (s : kinit_state) :
    Flow kinit_state :=
  ((kinit_setup env progname s).bind
    (fun t => kinit_pa_loop env progname t.opts.pa_opts t)).bind (kinit_ccaches env)

/-- All functions lines 409-501 can call, whatever the options. -/
def pre_all : List Fn := setup_all ++ pa_fns ++ ccaches_fns

/-- The condition of line 542-543 under which the dedicated message is
printed. -/
def wrong_secret (env : Krb5) (ret : krb5_error_code) (pwprompt : Bool) : Prop :=
  ret = env.KRB5KRB_AP_ERR_BAD_INTEGRITY ∨
  (pwprompt = true ∧ ret = env.KRB5KDC_ERR_PREAUTH_FAILED)

/-- As `env_same`, but the password acquisition fails with the code of an
unknown client principal, and the error message of every code is
"Client not found". -/
def env_unknown : Krb5 :=
  { env_same with
    krb5_get_init_creds_password := fun _ _ _ _ => ⟨-1765328378, {}⟩
    krb5_get_error_message := fun _ _ => "Client not found" }

/-- As `env_same`, but the password acquisition fails with the
pre-authentication failure code. -/
def env_preauth : Krb5 :=
  { env_same with
    krb5_get_init_creds_password := fun _ _ _ _ => ⟨-1765328360, {}⟩ }

/-- The library presents a password prompt in the callback invocation `pc`:
prompt types are reported and one of the first `num_prompts` is the password
type. -/
def password_prompt (env : Krb5) (pc : prompt_call) : Prop :=
  ∃ ts, pc.ptypes = some ts ∧
    ∃ i, i < pc.num_prompts ∧ ts[i]? = some env.KRB5_PROMPT_TYPE_PASSWORD

/-- A call of `krb5_cc_move` is logged with a non-zero return code. -/
def move_failed (tr : List Call) : Prop :=
  ∃ c ∈ tr, c.fn = Fn.krb5_cc_move ∧ c.ret ≠ 0

/-- No call of the log changes the store with handle `o`, whatever the
stores are when it is made. -/
def harmless (o : Nat) (tr : List Call) : Prop :=
  ∀ c ∈ tr, ∀ w : stores, c.effect w o = w o

/-- The functions that `Call.effect` lets write to a store. -/
def store_fns : List Fn :=
  [Fn.krb5_cc_new_unique, Fn.krb5_cc_initialize, Fn.k5_cc_store_primary_cred,
   Fn.krb5_cc_move, Fn.krb5_cc_destroy, Fn.krb5_get_init_creds_password,
   Fn.krb5_get_init_creds_keytab]

/-- As `env_same`, but moving a cache fails with code 5. -/
def env_move_fails : Krb5 :=
  { env_same with krb5_cc_move := fun _ _ => 5 }

/-- Run options of a renewal. -/
def opts_renew : k_opts :=
  { action := action_type.RENEW, principal_name := some "alice" }

/-- The global `udata` as the loader leaves it: two arrays of 256 zero
bytes. -/
def udata_zero : userdata :=
  { name := List.replicate 256 0, pass := List.replicate 256 0 }

/-- The options `my_kinit_main` fixes for the principal name `a1`. -/
def main_opts (a1 : String) : k_opts :=
  { action := action_type.INIT_PW, principal_name := some a1, verbose := 1 }

/-! ## Predicates on the call log of `k5_kinit` for the commit and switch stages -/

/-- The four functions of the staging sequence of lines 552-573, in the order
the code calls them. -/
def staging_fns : List Fn :=
  [Fn.krb5_cc_new_unique, Fn.krb5_cc_initialize, Fn.k5_cc_store_primary_cred,
   Fn.krb5_cc_move]

/-- The function is one of the staging sequence. -/
def Fn.is_staging (f : Fn) : Bool :=
  f = Fn.krb5_cc_new_unique ∨ f = Fn.krb5_cc_initialize ∨
  f = Fn.k5_cc_store_primary_cred ∨ f = Fn.krb5_cc_move

/-- The calls of the staging sequence in a call log, in order. -/
def staging_calls (tr : List Call) : List Call :=
  tr.filter (fun c => c.fn.is_staging)

/-- An acquisition call is logged with return code 0. -/
def acquired (tr : List Call) : Prop :=
  ∃ c ∈ tr, c.fn.is_acquisition = true ∧ c.ret = 0

/-- A call of `krb5_cc_move` is logged with return code 0. -/
def move_done (tr : List Call) : Prop :=
  ∃ c ∈ tr, c.fn = Fn.krb5_cc_move ∧ c.ret = 0

/-- The mode is validate or renew, the test of line 552. -/
def non_initial (a : action_type) : Prop :=
  a ≠ action_type.INIT_PW ∧ a ≠ action_type.INIT_KT

/-- What the log `tr` and the flag `notix` at the end of a run in mode `a` say
about the staging sequence: its calls are made in the order of the code, each
after the previous one succeeded and as long as the previous one succeeded;
the sequence is entered exactly in validate or renew mode after a successful
acquisition; in these modes `notix` is cleared exactly when the move
succeeded; and `notix` is cleared only after a successful acquisition, in the
initial modes after every successful acquisition. -/
def staging_spec (a : action_type) (tr : List Call) (notix : Int) : Prop :=
  (staging_calls tr).map Call.fn <+: staging_fns ∧
  (∀ c ∈ (staging_calls tr).dropLast, c.ret = 0) ∧
  ((staging_calls tr).length < 4 →
    ∀ c, (staging_calls tr).getLast? = some c → c.ret ≠ 0) ∧
  (called Fn.krb5_cc_new_unique tr ↔ non_initial a ∧ acquired tr) ∧
  (¬ non_initial a → staging_calls tr = []) ∧
  (non_initial a → (notix = 0 ↔ move_done tr)) ∧
  (notix = 0 → acquired tr) ∧
  (¬ non_initial a → acquired tr → notix = 0)

/-- Run options of a validation. -/
def opts_validate : k_opts :=
  { action := action_type.VALIDATE, principal_name := some "alice" }

/-- As `env_same`, but switching the primary cache fails with code 13. -/
def env_switch_fails : Krb5 :=
  { env_same with krb5_cc_switch := fun _ => 13 }

/-- A session state as `k5_begin` leaves it when a new cache was created in a
collection: principal 7, output cache 2, and the switch flag set. -/
def k5_switch : k5_data :=
  { ctx := some 100, out_cc := some 2, me := some 7, name := some "alice@EXAMPLE.COM",
    switch_to_cache := 1 }

/-! ## Predicates for the fallback of identity resolution -/

/-- No step of the priority list before the fallback yields a principal:
either none of the first six sources applies, or the earliest one that
applies yields `NULL`. -/
def no_step_yields (env : Krb5) (opts : k_opts) : Prop :=
  chosen env opts = Source.os_user ∨ (chosen env opts).yield env opts = none

/-- The fallback cannot produce a principal: the OS reports no user name, or
the parse of the name it reports is rejected. -/
def os_user_fails (env : Krb5) (opts : k_opts) : Prop :=
  env.get_name_from_os = none ∨
  ∃ nm, env.get_name_from_os = some nm ∧
    (env.krb5_parse_name_flags nm (parse_flags env opts)).ret ≠ 0

/-- State of `k5_begin` after lines 178-200, started without a principal and
without an output cache: the output cache is the named one, or else the
principal of the default cache is known. -/
def fb_start (env : Krb5) (opts : k_opts) (s : begin_state) : Prop :=
  s.opts = opts ∧ s.success = 0 ∧ s.k5.me = none ∧
  (∀ nm, opts.k5_out_cache_name = some nm →
    s.k5.out_cc = (env.krb5_cc_resolve nm).out ∧ s.defcache_princ = none) ∧
  (opts.k5_out_cache_name = none →
    s.k5.out_cc = none ∧
    s.defcache_princ =
      if (env.krb5_cc_get_principal env.krb5_cc_default.out).ret ≠ 0 then none
      else (env.krb5_cc_get_principal env.krb5_cc_default.out).out)

/-- State of `k5_begin` after lines 202-265: when no step yields a principal,
there is none. -/
def fb_chosen (env : Krb5) (opts : k_opts) (s : begin_state) : Prop :=
  s.opts = opts ∧ s.success = 0 ∧ (no_step_yields env opts → s.k5.me = none)

/-- As `env_same`, but the OS user name is rejected by the parser and the
default cache is not initialized. -/
def env_os_rejected : Krb5 :=
  { env_same with
    krb5_cc_get_principal := fun _ => ⟨2, none⟩
    krb5_parse_name_flags := fun _ _ => ⟨22, none⟩ }

/-- Run options with an explicit principal name and the anonymous flag both
set. -/
def opts_both : k_opts := { principal_name := some "alice", anonymous := 1 }

/-- As `env_same`, but the parser reports success without yielding a
principal. -/
def env_null_parse : Krb5 :=
  { env_same with krb5_parse_name_flags := fun _ _ => ⟨0, none⟩ }

/-- A session state that already holds principal 5 at entry. -/
def k5_stale : k5_data := { me := some 5 }

/-- Run options with only the anonymous flag set. -/
def opts_anonymous : k_opts := { anonymous := 1 }

/-- Run options of keytab mode with the default client keytab. -/
def opts_client_keytab : k_opts :=
  { action := action_type.INIT_KT, use_client_keytab := 1 }

/-- Run options of keytab mode without the client keytab flag. -/
def opts_host : k_opts := { action := action_type.INIT_KT }

/-- Run options that name an output store only. -/
def opts_out_store : k_opts := { k5_out_cache_name := some "FILE:/tmp/cc" }

/-- As `env_same`, but the builder of the anonymous principal reports success
without yielding a principal. -/
def env_null_build : Krb5 :=
  { env_same with krb5_build_principal_ext := fun _ => ⟨0, none⟩ }

/-- As `env_same`, but the client keytab reports success without yielding a
principal. -/
def env_null_keytab : Krb5 :=
  { env_same with k5_kt_get_principal := fun _ => ⟨0, none⟩ }

/-- As `env_same`, but the host principal lookup reports success without
yielding a principal. -/
def env_null_host : Krb5 :=
  { env_same with krb5_sname_to_principal := ⟨0, none⟩ }

/-- As `env_same`, but resolving a named store reports success without
yielding a store. -/
def env_null_resolve : Krb5 :=
  { env_same with krb5_cc_resolve := fun _ => ⟨0, none⟩ }

/-- A session state that already holds output cache 9 at entry. -/
def k5_stale_out : k5_data := { out_cc := some 9 }

/-! ## Blocks and call logs -/

theorem Flow.post_bind {σ : Type} {f : Flow σ} {g : σ → Flow σ} {I J Q : σ → Prop}
    (hf : f.post I Q) (hg : ∀ t, I t → (g t).post J Q) : (f.bind g).post J Q := by
  cases f with
  | next t => exact hg t hf
  | cleanup t => exact hf

theorem Flow.post_state {σ : Type} {f : Flow σ} {Q : σ → Prop} (hf : f.post Q Q) :
    Q f.state := by
  cases f <;> exact hf

theorem Flow.post_mono {σ : Type} {f : Flow σ} {I J Q R : σ → Prop}
    (hf : f.post I Q) (hI : ∀ t, I t → J t) (hQ : ∀ t, Q t → R t) : f.post J R := by
  cases f with
  | next t => exact hI t hf
  | cleanup t => exact hQ t hf

@[simp] theorem called_nil (f : Fn) : called f [] ↔ False := by
  simp [called]

@[simp] theorem called_cons (f : Fn) (c : Call) (tr : List Call) :
    called f (c :: tr) ↔ c.fn = f ∨ called f tr := by
  simp [called]

@[simp] theorem called_append (f : Fn) (a b : List Call) :
    called f (a ++ b) ↔ called f a ∨ called f b := by
  simp only [called, List.mem_append]
  constructor
  · rintro ⟨c, h | h, e⟩
    · exact Or.inl ⟨c, h, e⟩
    · exact Or.inr ⟨c, h, e⟩
  · rintro (⟨c, h, e⟩ | ⟨c, h, e⟩)
    · exact ⟨c, Or.inl h, e⟩
    · exact ⟨c, Or.inr h, e⟩

@[simp] theorem say_cache_k5 (s : begin_state) (fmt : String) :
    (s.say_cache fmt).k5 = s.k5 := by
  unfold begin_state.say_cache; split_ifs <;> rfl

@[simp] theorem say_cache_opts (s : begin_state) (fmt : String) :
    (s.say_cache fmt).opts = s.opts := by
  unfold begin_state.say_cache; split_ifs <;> rfl

@[simp] theorem say_cache_success (s : begin_state) (fmt : String) :
    (s.say_cache fmt).success = s.success := by
  unfold begin_state.say_cache; split_ifs <;> rfl

@[simp] theorem say_cache_defcache (s : begin_state) (fmt : String) :
    (s.say_cache fmt).defcache = s.defcache := by
  unfold begin_state.say_cache; split_ifs <;> rfl

@[simp] theorem say_cache_defcache_princ (s : begin_state) (fmt : String) :
    (s.say_cache fmt).defcache_princ = s.defcache_princ := by
  unfold begin_state.say_cache; split_ifs <;> rfl

@[simp] theorem say_cache_deftype (s : begin_state) (fmt : String) :
    (s.say_cache fmt).deftype = s.deftype := by
  unfold begin_state.say_cache; split_ifs <;> rfl

@[simp] theorem called_say_cache (f : Fn) (s : begin_state) (fmt : String) :
    called f (s.say_cache fmt).trace ↔
      called f s.trace ∨
        (s.opts.verbose ≠ 0 ∧ (f = Fn.krb5_cc_get_name ∨ f = Fn.fprintf_stderr)) := by
  unfold begin_state.say_cache
  split_ifs with h <;> simp [begin_state.log, fprintf_stderr, h, eq_comm]

/-! ## C1: when a new unique cache is created -/

theorem def_inv_post {env : Krb5} {opts : k_opts} {s : begin_state}
    (h : def_inv env opts s) : new_unique_post env opts s :=
  fun hc => absurd hc h.2.1

theorem begin_out_cache_def_inv (env : Krb5) (pn : Option String) (s : begin_state)
    (h0 : ¬ called Fn.krb5_cc_new_unique s.trace) (h1 : s.defcache_princ = none)
    (h2 : s.defcache = none) :
    (begin_out_cache env pn s).post (def_inv env s.opts) (def_inv env s.opts) := by
  unfold begin_out_cache def_inv
  dsimp only
  split <;> split_ifs <;> simp_all

theorem begin_choose_princ_def_inv (env : Krb5) (pn : Option String) (opts : k_opts)
    (s : begin_state) (h : def_inv env opts s) :
    (begin_choose_princ env pn s).post (def_inv_chosen env opts) (def_inv env opts) := by
  obtain ⟨rfl, h1, h2⟩ := h
  unfold begin_choose_princ def_inv_chosen def_inv
  dsimp only
  split <;> split_ifs <;> simp_all

theorem begin_local_user_def_inv (env : Krb5) (pn : Option String) (opts : k_opts)
    (s : begin_state) (h : def_inv_chosen env opts s) :
    (begin_local_user env pn s).post (def_inv_chosen env opts) (def_inv env opts) := by
  obtain ⟨⟨rfl, h1, h2⟩, h3⟩ := h
  unfold begin_local_user def_inv_chosen def_inv
  dsimp only
  split_ifs <;> (try split) <;> (try split_ifs) <;> simp_all

theorem begin_select_cache_post (env : Krb5) (pn : Option String) (opts : k_opts)
    (s : begin_state) (h : def_inv_chosen env opts s) :
    (begin_select_cache env pn s).post (new_unique_post env opts)
      (new_unique_post env opts) := by
  obtain ⟨⟨rfl, h1, h2⟩, h3⟩ := h
  unfold begin_select_cache new_unique_post new_unique_cond
  dsimp only
  split_ifs <;> simp_all

theorem begin_default_cache_post (env : Krb5) (opts : k_opts) (s : begin_state)
    (h : new_unique_post env opts s) :
    (begin_default_cache s).post (new_unique_post env opts) (new_unique_post env opts) := by
  unfold begin_default_cache new_unique_post at *
  dsimp only
  split_ifs <;> simp_all

theorem begin_in_cache_post (env : Krb5) (pn : Option String) (opts : k_opts)
    (s : begin_state) (h : new_unique_post env opts s) :
    (begin_in_cache env pn s).post (new_unique_post env opts) (new_unique_post env opts) := by
  unfold begin_in_cache new_unique_post at *
  dsimp only
  split <;> (try split_ifs) <;> simp_all

theorem begin_unparse_post (env : Krb5) (pn : Option String) (opts : k_opts)
    (s : begin_state) (h : new_unique_post env opts s) :
    (begin_unparse env pn s).post (new_unique_post env opts) (new_unique_post env opts) := by
  unfold begin_unparse new_unique_post at *
  dsimp only
  split_ifs <;> simp_all

theorem begin_cleanup_post (env : Krb5) (opts : k_opts) (s : begin_state)
    (h : new_unique_post env opts s) : new_unique_post env opts (begin_cleanup s) := by
  unfold begin_cleanup new_unique_post at *
  dsimp only
  split_ifs <;> simp_all

theorem begin_body_post (env : Krb5) (pn : Option String) (s : begin_state)
    (h0 : ¬ called Fn.krb5_cc_new_unique s.trace) (h1 : s.defcache_princ = none)
    (h2 : s.defcache = none) :
    (begin_body env pn s).post (new_unique_post env s.opts) (new_unique_post env s.opts) := by
  unfold begin_body
  refine Flow.post_bind (I := new_unique_post env s.opts) ?_
    (fun t ht => Flow.post_bind (begin_in_cache_post env pn s.opts t ht)
      (fun u hu => begin_unparse_post env pn s.opts u hu))
  refine Flow.post_bind (I := new_unique_post env s.opts) ?_
    (fun t ht => begin_default_cache_post env s.opts t ht)
  refine Flow.post_bind (I := def_inv_chosen env s.opts) ?_
    (fun t ht => begin_select_cache_post env pn s.opts t ht)
  refine Flow.post_bind (I := def_inv_chosen env s.opts) ?_
    (fun t ht => Flow.post_mono (begin_local_user_def_inv env pn s.opts t ht)
      (fun _ h => h) (fun _ h => def_inv_post h))
  refine Flow.post_bind (I := def_inv env s.opts) ?_
    (fun t ht => Flow.post_mono (begin_choose_princ_def_inv env pn s.opts t ht)
      (fun _ h => h) (fun _ h => def_inv_post h))
  exact Flow.post_mono (begin_out_cache_def_inv env pn s h0 h1 h2)
    (fun _ h => h) (fun _ h => def_inv_post h)

/-- C1 (amended): `krb5_cc_new_unique` is called in `k5_begin` only if no
output cache was named, the type of the default cache is switchable,
`krb5_cc_cache_match` answered `KRB5_CC_NOTFOUND` for the resolved principal,
and the default cache holds an initialized principal while the client
principal came from an explicit name, the anonymous flag or keytab mode; the
two principals are not compared. -/
theorem k5_begin_new_unique_only_if (env : Krb5) (pn : Option String) (opts : k_opts)
    (k5 : k5_data)
    (h : called Fn.krb5_cc_new_unique (k5_begin env pn opts k5).trace) :
    opts.k5_out_cache_name = none ∧
    env.krb5_cc_support_switch (env.krb5_cc_get_type env.krb5_cc_default.out) = true ∧
    (env.krb5_cc_cache_match (k5_begin env pn opts k5).k5.me).ret =
      env.KRB5_CC_NOTFOUND ∧
    (env.krb5_cc_cache_match (k5_begin env pn opts k5).k5.me).ret ≠ 0 ∧
    (env.krb5_cc_get_principal env.krb5_cc_default.out).ret = 0 ∧
    (env.krb5_cc_get_principal env.krb5_cc_default.out).out ≠ none ∧
    (opts.principal_name ≠ none ∨ opts.anonymous ≠ 0 ∨
      opts.action = action_type.INIT_KT) := by
  revert h
  unfold k5_begin
  dsimp only
  split_ifs with hr
  · intro h
    simp at h
  · exact begin_cleanup_post env opts _
      (Flow.post_state (begin_body_post env pn _ (by simp) rfl rfl))

/-- C1 (witness): a run with an explicit principal name in which a new cache
is created. -/
theorem k5_begin_new_unique_only_if_witness :
    called Fn.krb5_cc_new_unique (k5_begin env_same none opts_alice {}).trace ∧
    (opts_alice.k5_out_cache_name = none ∧
    env_same.krb5_cc_support_switch
      (env_same.krb5_cc_get_type env_same.krb5_cc_default.out) = true ∧
    (env_same.krb5_cc_cache_match (k5_begin env_same none opts_alice {}).k5.me).ret =
      env_same.KRB5_CC_NOTFOUND ∧
    (env_same.krb5_cc_cache_match (k5_begin env_same none opts_alice {}).k5.me).ret ≠ 0 ∧
    (env_same.krb5_cc_get_principal env_same.krb5_cc_default.out).ret = 0 ∧
    (env_same.krb5_cc_get_principal env_same.krb5_cc_default.out).out ≠ none ∧
    (opts_alice.principal_name ≠ none ∨ opts_alice.anonymous ≠ 0 ∨
      opts_alice.action = action_type.INIT_KT)) :=
  ⟨by decide, k5_begin_new_unique_only_if env_same none opts_alice {} (by decide)⟩

/-- C1 (counterexample): with the principal name `alice` parsed to the very
principal the default cache holds and no matching cache reported,
`krb5_cc_new_unique` is called although the default cache does not hold a
different principal. -/
theorem k5_begin_new_unique_same_principal :
    ¬ (called Fn.krb5_cc_new_unique (k5_begin env_same none opts_alice {}).trace →
      env_same.krb5_cc_support_switch
        (env_same.krb5_cc_get_type env_same.krb5_cc_default.out) = true ∧
      (env_same.krb5_cc_cache_match (k5_begin env_same none opts_alice {}).k5.me).ret =
        env_same.KRB5_CC_NOTFOUND ∧
      ((env_same.krb5_cc_get_principal env_same.krb5_cc_default.out).ret = 0 ∧
       (env_same.krb5_cc_get_principal env_same.krb5_cc_default.out).out ≠ none ∧
       (env_same.krb5_cc_get_principal env_same.krb5_cc_default.out).out ≠
         (k5_begin env_same none opts_alice {}).k5.me)) := by
  decide

/-! ## C2: the priority order of identity resolution -/

theorem calls_allowed_append (env : Krb5) (opts : k_opts) (a b : List Call) :
    calls_allowed env opts (a ++ b) ↔ calls_allowed env opts a ∧ calls_allowed env opts b := by
  simp only [calls_allowed, List.mem_append]
  constructor
  · intro h
    exact ⟨fun c hc => h c (Or.inl hc), fun c hc => h c (Or.inr hc)⟩
  · rintro ⟨ha, hb⟩ c (hc | hc)
    · exact ha c hc
    · exact hb c hc

theorem calls_allowed_nil (env : Krb5) (opts : k_opts) :
    calls_allowed env opts [] ↔ True := by
  simp [calls_allowed]

theorem calls_allowed_cons (env : Krb5) (opts : k_opts) (c : Call) (l : List Call) :
    calls_allowed env opts (c :: l) ↔
      call_allowed env opts c ∧ calls_allowed env opts l := by
  simp [calls_allowed]

@[simp] theorem parse_calls_nil : parse_calls [] = [] := rfl

@[simp] theorem parse_calls_append (a b : List Call) :
    parse_calls (a ++ b) = parse_calls a ++ parse_calls b := by
  simp [parse_calls, calls_of]

theorem parse_calls_cons (c : Call) (l : List Call) :
    parse_calls (c :: l) =
      if c.fn = Fn.krb5_parse_name_flags then c :: parse_calls l else parse_calls l := by
  simp only [parse_calls, calls_of, List.filter_cons, decide_eq_true_eq]

theorem parse_calls_say_cache (s : begin_state) (fmt : String) :
    parse_calls (s.say_cache fmt).trace = parse_calls s.trace := by
  unfold begin_state.say_cache
  split_ifs <;> simp [parse_calls_cons]

theorem Source.one_le_rank (s : Source) : 1 ≤ s.rank := by
  cases s <;> simp [Source.rank]

theorem chosen_explicit (env : Krb5) (opts : k_opts) (h : opts.principal_name ≠ none) :
    chosen env opts = Source.explicit := by
  simp [chosen, List.find?, Source.applicable, h]

theorem chosen_anonymous (env : Krb5) (opts : k_opts) (h : opts.principal_name = none)
    (h2 : opts.anonymous ≠ 0) : chosen env opts = Source.anonymous := by
  simp [chosen, List.find?, Source.applicable, h, h2]

theorem chosen_client_keytab (env : Krb5) (opts : k_opts) (h : opts.principal_name = none)
    (h2 : opts.anonymous = 0) (h3 : opts.action = action_type.INIT_KT)
    (h4 : opts.use_client_keytab ≠ 0) : chosen env opts = Source.client_keytab := by
  simp [chosen, List.find?, Source.applicable, h, h2, h3, h4]

theorem chosen_host (env : Krb5) (opts : k_opts) (h : opts.principal_name = none)
    (h2 : opts.anonymous = 0) (h3 : opts.action = action_type.INIT_KT)
    (h4 : opts.use_client_keytab = 0) : chosen env opts = Source.host := by
  simp [chosen, List.find?, Source.applicable, h, h2, h3, h4]

theorem chosen_stores (env : Krb5) (opts : k_opts) (h : opts.principal_name = none)
    (h2 : opts.anonymous = 0) (h3 : opts.action ≠ action_type.INIT_KT) :
    chosen env opts =
      if Source.out_store.applicable env opts = true then Source.out_store
      else if Source.default_store.applicable env opts = true then Source.default_store
      else Source.os_user := by
  have e1 : Source.explicit.applicable env opts = false := by
    simp [Source.applicable, h]
  have e2 : Source.anonymous.applicable env opts = false := by
    simp [Source.applicable, h2]
  have e3 : Source.client_keytab.applicable env opts = false := by
    simp [Source.applicable, h3]
  have e4 : Source.host.applicable env opts = false := by
    simp [Source.applicable, h3]
  unfold chosen
  simp only [List.find?, e1, e2, e3, e4]
  cases h5 : Source.out_store.applicable env opts
  · cases h6 : Source.default_store.applicable env opts <;> simp
  · simp

theorem calls_allowed_say_cache (env : Krb5) (opts : k_opts) (s : begin_state)
    (fmt : String) :
    calls_allowed env opts (s.say_cache fmt).trace ↔ calls_allowed env opts s.trace := by
  unfold begin_state.say_cache
  split_ifs <;>
    simp [calls_allowed_append, calls_allowed_cons, calls_allowed_nil, call_allowed, parse_calls_cons, parse_calls_say_cache]

theorem begin_out_cache_ident (env : Krb5) (pn : Option String) (s : begin_state)
    (h0 : calls_allowed env s.opts s.trace) (h1 : s.defcache_princ = none)
    (h2 : s.defcache = none) (h3 : s.success = 0) (h4 : s.k5.me = none)
    (h5 : s.k5.out_cc = none) (h6 : parse_calls s.trace = []) :
    (begin_out_cache env pn s).post (ident_inv_start env s.opts) (ident_post env s.opts) := by
  unfold begin_out_cache ident_inv_start ident_post
  dsimp only
  split <;> split_ifs <;>
    simp_all [calls_allowed_append, calls_allowed_cons, calls_allowed_nil, call_allowed, parse_calls_cons, parse_calls_say_cache]

theorem begin_choose_princ_ident (env : Krb5) (pn : Option String) (opts : k_opts)
    (hn : yields_nonnull env) (s : begin_state) (h : ident_inv_start env opts s) :
    (begin_choose_princ env pn s).post (ident_inv_chosen env opts) (ident_post env opts) := by
  obtain ⟨rfl, h1, h2, h3, hpc, h4, h5⟩ := h
  unfold begin_choose_princ
  dsimp only
  split
  · rename_i nm hnm
    have hc := chosen_explicit env s.opts (by simp [hnm])
    have hnn := hn.parse nm (parse_flags env s.opts)
    split_ifs with hr
    · simp_all [ident_post, calls_allowed_append, calls_allowed_cons, calls_allowed_nil,
        call_allowed, parse_calls_cons, parse_calls_say_cache]
    · simp_all [ident_inv_chosen, calls_allowed_append, calls_allowed_cons,
        calls_allowed_nil, Source.yield, call_allowed, parse_calls_cons]
  · rename_i hnm
    by_cases ha : s.opts.anonymous ≠ 0
    · rw [if_pos ha]
      have hc := chosen_anonymous env s.opts hnm ha
      have hnn := hn.build env.krb5_get_default_realm.out
      split_ifs with hd hb
      · simp_all [ident_post, calls_allowed_append, calls_allowed_cons, calls_allowed_nil,
          call_allowed, parse_calls_cons, parse_calls_say_cache]
      · simp_all [ident_post, calls_allowed_append, calls_allowed_cons, calls_allowed_nil,
          call_allowed, parse_calls_cons, parse_calls_say_cache]
      · simp_all [ident_inv_chosen, calls_allowed_append, calls_allowed_cons,
          calls_allowed_nil, call_allowed, parse_calls_cons, parse_calls_say_cache, Source.yield]
    · rw [if_neg ha]
      simp only [ne_eq, not_not] at ha
      by_cases hk : s.opts.action = action_type.INIT_KT ∧ s.opts.use_client_keytab ≠ 0
      · rw [if_pos hk]
        have hc := chosen_client_keytab env s.opts hnm ha hk.1 hk.2
        have hnn := hn.kt_principal env.krb5_kt_client_default.out
        split_ifs with hd hb
        · simp_all [ident_post, calls_allowed_append, calls_allowed_cons,
            calls_allowed_nil, call_allowed, parse_calls_cons, parse_calls_say_cache]
        · simp_all [ident_post, calls_allowed_append, calls_allowed_cons,
            calls_allowed_nil, call_allowed, parse_calls_cons, parse_calls_say_cache]
        · simp_all [ident_inv_chosen, calls_allowed_append, calls_allowed_cons,
            calls_allowed_nil, call_allowed, parse_calls_cons, parse_calls_say_cache, Source.yield]
      · rw [if_neg hk]
        by_cases ht : s.opts.action = action_type.INIT_KT
        · rw [if_pos ht]
          have hu : s.opts.use_client_keytab = 0 := by
            by_contra hu
            exact hk ⟨ht, hu⟩
          have hc := chosen_host env s.opts hnm ha ht hu
          have hnn := hn.sname
          split_ifs with hd
          · simp_all [ident_post, calls_allowed_append, calls_allowed_cons,
              calls_allowed_nil, call_allowed, parse_calls_cons, parse_calls_say_cache]
          · simp_all [ident_inv_chosen, calls_allowed_append, calls_allowed_cons,
              calls_allowed_nil, call_allowed, parse_calls_cons, parse_calls_say_cache, Source.yield]
        · rw [if_neg ht]
          have hc := chosen_stores env s.opts hnm ha ht
          by_cases ho : s.k5.out_cc ≠ none
          · rw [if_pos ho]
            cases hon : s.opts.k5_out_cache_name with
            | none => exact absurd (h5 hon).1 ho
            | some nm =>
              obtain ⟨hr, hoc, hdp⟩ := h4 nm hon
              have hd : Source.default_store.applicable env s.opts = false := by
                simp [Source.applicable, hon]
              by_cases hg : (env.krb5_cc_get_principal (env.krb5_cc_resolve nm).out).ret = 0
              · by_cases hgo : (env.krb5_cc_get_principal (env.krb5_cc_resolve nm).out).out
                    = none
                · have h5a : Source.out_store.applicable env s.opts = false := by
                    simp [Source.applicable, out_store_princ, hon, hg, hgo]
                  simp_all [ident_inv_chosen, calls_allowed_append, calls_allowed_cons,
                    calls_allowed_nil, Source.yield, out_store_princ, call_allowed,
                    parse_calls_cons]
                · have h5a : Source.out_store.applicable env s.opts = true := by
                    simp [Source.applicable, out_store_princ, hon, hg, hgo]
                  simp_all [ident_inv_chosen, calls_allowed_append, calls_allowed_cons,
                    calls_allowed_nil, Source.yield, out_store_princ, call_allowed,
                    parse_calls_cons]
              · have h5a : Source.out_store.applicable env s.opts = false := by
                  simp [Source.applicable, out_store_princ, hon, hg]
                simp_all [ident_inv_chosen, calls_allowed_append, calls_allowed_cons,
                  calls_allowed_nil, Source.yield, out_store_princ, call_allowed, parse_calls_cons]
          · rw [if_neg ho]
            simp only [ne_eq, not_not] at ho
            by_cases hp : s.defcache_princ ≠ none
            · rw [if_pos hp]
              cases hon : s.opts.k5_out_cache_name with
              | some nm => exact absurd (h4 nm hon).2.2 hp
              | none =>
                have h5b := (h5 hon).2
                have h5a : Source.out_store.applicable env s.opts = false := by
                  simp [Source.applicable, out_store_princ, hon]
                by_cases hg : (env.krb5_cc_get_principal env.krb5_cc_default.out).ret = 0
                · have hd : Source.default_store.applicable env s.opts = true := by
                    simp_all [Source.applicable, call_allowed, parse_calls_cons]
                  simp_all [ident_inv_chosen, Source.yield, call_allowed, parse_calls_cons]
                · simp_all
            · rw [if_neg hp]
              simp only [ne_eq, not_not] at hp
              have h5a : Source.out_store.applicable env s.opts = false := by
                cases hon : s.opts.k5_out_cache_name with
                | none => simp [Source.applicable, out_store_princ, hon]
                | some nm =>
                  obtain ⟨hr, hoc, hdp⟩ := h4 nm hon
                  exact absurd (hoc.symm.trans ho) (hn.resolve nm hr)
              have hd : Source.default_store.applicable env s.opts = false := by
                cases hon : s.opts.k5_out_cache_name with
                | some nm => simp [Source.applicable, hon]
                | none =>
                  have h5b := (h5 hon).2
                  by_cases hg : (env.krb5_cc_get_principal env.krb5_cc_default.out).ret = 0
                  · simp_all [Source.applicable, call_allowed, parse_calls_cons]
                  · simp [Source.applicable, hg]
              simp_all [ident_inv_chosen, call_allowed, parse_calls_cons]


theorem begin_local_user_ident (env : Krb5) (pn : Option String) (opts : k_opts)
    (s : begin_state) (h : ident_inv_chosen env opts s) :
    (begin_local_user env pn s).post (ident_inv_done env opts) (ident_post env opts) := by
  obtain ⟨rfl, h1, h2, h3, h4, h6, h7⟩ := h
  unfold begin_local_user
  dsimp only
  by_cases hm : s.k5.me = none
  · rw [if_pos hm]
    have hc := h3 hm
    split
    · simp_all [ident_post, calls_allowed_append, calls_allowed_cons, calls_allowed_nil,
        call_allowed, parse_calls_cons, parse_calls_say_cache]
    · split_ifs with hr
      · simp_all [ident_post, calls_allowed_append, calls_allowed_cons, calls_allowed_nil,
          call_allowed, parse_calls_cons, parse_calls_say_cache]
      · simp_all [ident_inv_done, calls_allowed_append, calls_allowed_cons,
          calls_allowed_nil, Source.yield, call_allowed, parse_calls_cons]
  · rw [if_neg hm]
    exact ⟨h1, h2, h4 hm, h7⟩

theorem begin_select_cache_ident (env : Krb5) (pn : Option String) (opts : k_opts)
    (s : begin_state) (h : ident_inv_done env opts s) :
    (begin_select_cache env pn s).post (ident_inv_done env opts) (ident_post env opts) := by
  obtain ⟨h1, h2, h3⟩ := h
  unfold begin_select_cache ident_inv_done ident_post
  dsimp only
  split_ifs <;>
    simp_all [calls_allowed_append, calls_allowed_cons, calls_allowed_nil,
      calls_allowed_say_cache, call_allowed, parse_calls_cons, parse_calls_say_cache]

theorem begin_default_cache_ident (env : Krb5) (opts : k_opts)
    (s : begin_state) (h : ident_inv_done env opts s) :
    (begin_default_cache s).post (ident_inv_done env opts) (ident_post env opts) := by
  obtain ⟨h1, h2, h3⟩ := h
  unfold begin_default_cache ident_inv_done
  dsimp only
  split_ifs <;>
    simp_all [calls_allowed_append, calls_allowed_cons, calls_allowed_nil,
      calls_allowed_say_cache, call_allowed, parse_calls_cons, parse_calls_say_cache]

theorem begin_in_cache_ident (env : Krb5) (pn : Option String) (opts : k_opts)
    (s : begin_state) (h : ident_inv_done env opts s) :
    (begin_in_cache env pn s).post (ident_inv_done env opts) (ident_post env opts) := by
  obtain ⟨h1, h2, h3⟩ := h
  unfold begin_in_cache ident_inv_done ident_post
  dsimp only
  split <;> (try split_ifs) <;>
    simp_all [calls_allowed_append, calls_allowed_cons, calls_allowed_nil,
      call_allowed, parse_calls_cons, parse_calls_say_cache]

theorem begin_unparse_ident (env : Krb5) (pn : Option String) (opts : k_opts)
    (s : begin_state) (h : ident_inv_done env opts s) :
    (begin_unparse env pn s).post (ident_post env opts) (ident_post env opts) := by
  obtain ⟨h1, h2, h3⟩ := h
  unfold begin_unparse ident_post
  dsimp only
  split_ifs <;>
    simp_all [calls_allowed_append, calls_allowed_cons, calls_allowed_nil,
      call_allowed, parse_calls_cons, parse_calls_say_cache]

theorem begin_cleanup_ident (env : Krb5) (opts : k_opts) (s : begin_state)
    (h : ident_post env opts s) : ident_post env opts (begin_cleanup s) := by
  unfold begin_cleanup ident_post at *
  dsimp only
  split_ifs <;>
    simp_all [calls_allowed_append, calls_allowed_cons, calls_allowed_nil,
      call_allowed, parse_calls_cons, parse_calls_say_cache]

theorem ident_inv_done_post {env : Krb5} {opts : k_opts} {s : begin_state}
    (h : ident_inv_done env opts s) : ident_post env opts s :=
  ⟨h.2.1, fun _ => h.2.2.1, h.2.2.2⟩

theorem begin_body_ident (env : Krb5) (pn : Option String) (hn : yields_nonnull env)
    (s : begin_state)
    (h0 : calls_allowed env s.opts s.trace) (h1 : s.defcache_princ = none)
    (h2 : s.defcache = none) (h3 : s.success = 0) (h4 : s.k5.me = none)
    (h5 : s.k5.out_cc = none) (h6 : parse_calls s.trace = []) :
    (begin_body env pn s).post (ident_post env s.opts) (ident_post env s.opts) := by
  unfold begin_body
  refine Flow.post_bind (I := ident_inv_done env s.opts) ?_
    (fun t ht => Flow.post_bind (begin_in_cache_ident env pn s.opts t ht)
      (fun u hu => begin_unparse_ident env pn s.opts u hu))
  refine Flow.post_bind (I := ident_inv_done env s.opts) ?_
    (fun t ht => begin_default_cache_ident env s.opts t ht)
  refine Flow.post_bind (I := ident_inv_done env s.opts) ?_
    (fun t ht => begin_select_cache_ident env pn s.opts t ht)
  refine Flow.post_bind (I := ident_inv_chosen env s.opts) ?_
    (fun t ht => begin_local_user_ident env pn s.opts t ht)
  refine Flow.post_bind (I := ident_inv_start env s.opts) ?_
    (fun t ht => begin_choose_princ_ident env pn s.opts hn t ht)
  exact begin_out_cache_ident env pn s h0 h1 h2 h3 h4 h5 h6

theorem k5_begin_ident_post (env : Krb5) (pn : Option String) (opts : k_opts)
    (k5 : k5_data) (hme : k5.me = none) (hout : k5.out_cc = none)
    (hn : yields_nonnull env) : ident_post env opts (k5_begin env pn opts k5) := by
  unfold k5_begin
  dsimp only
  split_ifs with hr
  · simp [ident_post, calls_allowed_append, calls_allowed_cons, calls_allowed_nil,
      call_allowed, parse_calls_cons]
  · exact begin_cleanup_ident env opts _
      (Flow.post_state (Flow.post_mono
        (begin_body_ident env pn hn
          { opts := opts, k5 := { k5 with ctx := env.krb5_init_context.assign k5.ctx },
            trace := [{ fn := Fn.krb5_init_context, ret := env.krb5_init_context.ret,
                        out := Val.ptr env.krb5_init_context.out }] }
          (by simp [calls_allowed_cons, calls_allowed_nil, call_allowed]) rfl rfl rfl
          hme hout (by simp [parse_calls_cons]))
        (fun _ h => h) (fun _ h => h)))

theorem env_same_nonnull : success_nonnull env_same := by
  constructor <;> intros <;> simp_all [env_same]

theorem env_same_yields : yields_nonnull env_same := by
  constructor <;> intros <;> simp_all [env_same]

/-- C2 (amended): in a run of `k5_begin` on a session state that holds no
principal and no output cache at entry, with collaborators whose successful
steps yield non-null results, every logged call of a collaborator of identity
resolution serves the earliest applicable source: the default-realm lookup
and the building of the anonymous principal are called only when the
anonymous flag is that source, the calls on the default client keytab only
when it is, the host principal only when it is, `get_name_from_os` only when
the fallback is; a call of `krb5_parse_name_flags` parses the explicit name
when that is the source and the OS user name when the fallback is, and there
is at most one such call; a call of `krb5_cc_get_principal` on the named
output store is made only when no earlier source applies.  The one call that
serves a later source is `krb5_cc_get_principal` on the default store, made
whenever no output store is named.  On success the client principal is the
one the earliest applicable source yields. -/
theorem k5_begin_priority (env : Krb5) (pn : Option String) (opts : k_opts)
    (k5 : k5_data) (hme : k5.me = none) (hout : k5.out_cc = none)
    (hn : yields_nonnull env) :
    (∀ c ∈ (k5_begin env pn opts k5).trace,
      (c.fn = Fn.krb5_get_default_realm ∨ c.fn = Fn.krb5_build_principal_ext →
        chosen env opts = Source.anonymous) ∧
      (c.fn = Fn.krb5_kt_client_default ∨ c.fn = Fn.k5_kt_get_principal →
        chosen env opts = Source.client_keytab) ∧
      (c.fn = Fn.krb5_sname_to_principal → chosen env opts = Source.host) ∧
      (c.fn = Fn.get_name_from_os → chosen env opts = Source.os_user) ∧
      (c.fn = Fn.krb5_parse_name_flags →
        (chosen env opts = Source.explicit ∧
          c.args = [Val.str opts.principal_name, Val.int (parse_flags env opts)]) ∨
        (chosen env opts = Source.os_user ∧
          c.args = [Val.str env.get_name_from_os, Val.int (parse_flags env opts)])) ∧
      (c.fn = Fn.krb5_cc_get_principal →
        (opts.k5_out_cache_name = none ∧ c.args = [Val.ptr env.krb5_cc_default.out]) ∨
        (∃ nm, opts.k5_out_cache_name = some nm ∧
          c.args = [Val.ptr (env.krb5_cc_resolve nm).out] ∧
          (chosen env opts = Source.out_store ∨ chosen env opts = Source.os_user)))) ∧
    (calls_of Fn.krb5_parse_name_flags (k5_begin env pn opts k5).trace).length ≤ 1 ∧
    ((k5_begin env pn opts k5).success ≠ 0 →
      (k5_begin env pn opts k5).k5.me = (chosen env opts).yield env opts) := by
  have h := k5_begin_ident_post env pn opts k5 hme hout hn
  exact ⟨fun c hc => h.1 c hc, h.2.2, h.2.1⟩

/-- C2 (witness): with an explicit principal name and the anonymous flag both
set, the default-realm lookup is not called and the principal is the parsed
name. -/
theorem k5_begin_priority_witness :
    yields_nonnull env_same ∧
    Source.explicit.applicable env_same opts_both = true ∧
    Source.anonymous.applicable env_same opts_both = true ∧
    ¬ called Fn.krb5_get_default_realm (k5_begin env_same none opts_both {}).trace ∧
    (k5_begin env_same none opts_both {}).k5.me = some 7 :=
  ⟨env_same_yields, by decide, by decide,
    fun ⟨c, hc, hf⟩ =>
      absurd (((k5_begin_priority env_same none opts_both {} rfl rfl env_same_yields).1
        c hc).1 (Or.inl hf)) (by decide),
    ((k5_begin_priority env_same none opts_both {} rfl rfl env_same_yields).2.2
      (by decide)).trans (by decide)⟩

/-- C2 (counterexample): runs in which the claim fails.  With an explicit
principal name and an initialized default store, the explicit name is the
earliest applicable source and `krb5_cc_get_principal` is called on the
default store all the same.  With a step that reports success without a
result (the parser, the builder of the anonymous principal, the client
keytab, the host principal, the resolution of the named output store), that
step is the earliest applicable source and `get_name_from_os` is called all
the same.  On a session state that holds a principal at entry, with no source
but the fallback applicable and no OS user name, `k5_begin` succeeds with that
principal, which no source yields; on one that holds an output cache at
entry, with no output store named, `krb5_cc_get_principal` is called on that
cache, which is neither the named nor the default store. -/
theorem k5_begin_default_store_consulted :
    (Source.explicit.applicable env_same opts_alice = true ∧
      Source.default_store.applicable env_same opts_alice = true ∧
      chosen env_same opts_alice = Source.explicit ∧
      { fn := Fn.krb5_cc_get_principal, args := [Val.ptr (some 1)], ret := 0,
        out := Val.ptr (some 7) } ∈ (k5_begin env_same none opts_alice {}).trace) ∧
    (chosen env_null_parse opts_alice = Source.explicit ∧
      called Fn.get_name_from_os (k5_begin env_null_parse none opts_alice {}).trace) ∧
    (chosen env_null_build opts_anonymous = Source.anonymous ∧
      called Fn.get_name_from_os (k5_begin env_null_build none opts_anonymous {}).trace) ∧
    (chosen env_null_keytab opts_client_keytab = Source.client_keytab ∧
      called Fn.get_name_from_os
        (k5_begin env_null_keytab none opts_client_keytab {}).trace) ∧
    (chosen env_null_host opts_host = Source.host ∧
      called Fn.get_name_from_os (k5_begin env_null_host none opts_host {}).trace) ∧
    (chosen env_null_resolve opts_out_store = Source.out_store ∧
      called Fn.get_name_from_os (k5_begin env_null_resolve none opts_out_store {}).trace) ∧
    (chosen env_nouser {} = Source.os_user ∧
      (k5_begin env_nouser none {} k5_stale).success ≠ 0 ∧
      (k5_begin env_nouser none {} k5_stale).k5.me = some 5 ∧
      (chosen env_nouser {}).yield env_nouser {} = none) ∧
    ({ fn := Fn.krb5_cc_get_principal, args := [Val.ptr (some 9)], ret := 0,
       out := Val.ptr (some 7) } ∈ (k5_begin env_same none {} k5_stale_out).trace ∧
      ({} : k_opts).k5_out_cache_name = none ∧ env_same.krb5_cc_default.out = some 1) := by
  refine ⟨⟨by decide, by decide, by decide, by decide⟩, ⟨by decide, by decide⟩,
    ⟨by decide, by decide⟩, ⟨by decide, by decide⟩, ⟨by decide, by decide⟩,
    ⟨by decide, by decide⟩, ⟨by decide, by decide, by decide, by decide⟩,
    ⟨by decide, rfl, rfl⟩⟩
/-! ## C5: the session state invariant -/

theorem begin_out_cache_ready (env : Krb5) (pn : Option String) (hn : success_nonnull env)
    (s : begin_state) (h : s.success = 0) :
    (begin_out_cache env pn s).post cache_inv ready_post := by
  have h1 := hn.default
  unfold begin_out_cache cache_inv ready_post
  dsimp only
  split
  · rename_i nm hnm
    have h2 := hn.resolve nm
    split_ifs <;> simp_all
  · split_ifs <;> simp_all

theorem begin_choose_princ_ready (env : Krb5) (pn : Option String)
    (s : begin_state) (h : cache_inv s) :
    (begin_choose_princ env pn s).post cache_inv ready_post := by
  obtain ⟨h1, h2⟩ := h
  unfold begin_choose_princ cache_inv ready_post
  dsimp only
  split <;> split_ifs <;> simp_all

theorem begin_local_user_ready (env : Krb5) (pn : Option String) (hn : success_nonnull env)
    (s : begin_state) (h : cache_inv s) :
    (begin_local_user env pn s).post princ_inv ready_post := by
  obtain ⟨h1, h2⟩ := h
  unfold begin_local_user princ_inv ready_post
  dsimp only
  split_ifs with hm
  · split
    · simp_all
    · rename_i nm hnm
      have h3 := hn.parse nm (parse_flags env s.opts)
      split_ifs <;> simp_all
  · simp_all

theorem begin_select_cache_ready (env : Krb5) (pn : Option String)
    (hn : success_nonnull env) (s : begin_state) (h : princ_inv s) :
    (begin_select_cache env pn s).post princ_inv ready_post := by
  obtain ⟨h1, h2, h3⟩ := h
  have h4 := hn.cache_match s.k5.me
  have h5 := hn.new_unique s.deftype
  unfold begin_select_cache princ_inv ready_post
  dsimp only
  split_ifs <;> simp_all

theorem begin_default_cache_ready (s : begin_state) (h : princ_inv s) :
    (begin_default_cache s).post ready_inv ready_post := by
  obtain ⟨h1, h2, h3⟩ := h
  unfold begin_default_cache ready_inv
  dsimp only
  split_ifs <;> simp_all

theorem begin_in_cache_ready (env : Krb5) (pn : Option String)
    (s : begin_state) (h : ready_inv s) :
    (begin_in_cache env pn s).post ready_inv ready_post := by
  obtain ⟨h1, h2, h3⟩ := h
  unfold begin_in_cache ready_inv ready_post
  dsimp only
  split <;> (try split_ifs) <;> simp_all

theorem begin_unparse_ready (env : Krb5) (pn : Option String)
    (s : begin_state) (h : ready_inv s) :
    (begin_unparse env pn s).post ready_post ready_post := by
  obtain ⟨h1, h2, h3⟩ := h
  unfold begin_unparse ready_post
  dsimp only
  split_ifs <;> simp_all

theorem begin_cleanup_ready (s : begin_state) (h : ready_post s) :
    ready_post (begin_cleanup s) := by
  unfold begin_cleanup ready_post at *
  dsimp only
  split_ifs <;> simp_all

theorem begin_body_ready (env : Krb5) (pn : Option String) (hn : success_nonnull env)
    (s : begin_state) (h : s.success = 0) :
    (begin_body env pn s).post ready_post ready_post := by
  unfold begin_body
  refine Flow.post_bind (I := ready_inv) ?_
    (fun t ht => Flow.post_bind (begin_in_cache_ready env pn t ht)
      (fun u hu => begin_unparse_ready env pn u hu))
  refine Flow.post_bind (I := princ_inv) ?_ (fun t ht => begin_default_cache_ready t ht)
  refine Flow.post_bind (I := princ_inv) ?_
    (fun t ht => begin_select_cache_ready env pn hn t ht)
  refine Flow.post_bind (I := cache_inv) ?_
    (fun t ht => begin_local_user_ready env pn hn t ht)
  refine Flow.post_bind (I := cache_inv) ?_
    (fun t ht => begin_choose_princ_ready env pn t ht)
  exact begin_out_cache_ready env pn hn s h

/-- C5: when `k5_begin` returns success, the client principal `k5->me` and the
output cache handle `k5->out_cc` are both non-null, provided every
collaborator call that reports success yields a non-null result. -/
theorem k5_begin_success_nonnull (env : Krb5) (pn : Option String) (opts : k_opts)
    (k5 : k5_data) (hn : success_nonnull env)
    (h : (k5_begin env pn opts k5).success ≠ 0) :
    (k5_begin env pn opts k5).k5.me ≠ none ∧ (k5_begin env pn opts k5).k5.out_cc ≠ none := by
  revert h
  unfold k5_begin
  dsimp only
  split_ifs with hr
  · intro h
    simp at h
  · exact begin_cleanup_ready _ (Flow.post_state (begin_body_ready env pn hn _ rfl))

/-- C5 (witness): a successful run with an explicit principal name. -/
theorem k5_begin_success_nonnull_witness :
    success_nonnull env_same ∧ (k5_begin env_same none opts_alice {}).success ≠ 0 ∧
    (k5_begin env_same none opts_alice {}).k5.me ≠ none ∧
    (k5_begin env_same none opts_alice {}).k5.out_cc ≠ none :=
  ⟨env_same_nonnull, by decide,
    k5_begin_success_nonnull env_same none opts_alice {} env_same_nonnull (by decide)⟩

/-! ## C7: failure of identity resolution -/

theorem no_reject_nil : no_reject [] ↔ True := by
  simp [no_reject]

theorem no_reject_cons (c : Call) (l : List Call) :
    no_reject (c :: l) ↔ ¬ c.rejects ∧ no_reject l := by
  simp [no_reject]

theorem no_reject_append (a b : List Call) :
    no_reject (a ++ b) ↔ no_reject a ∧ no_reject b := by
  simp only [no_reject, List.mem_append]
  constructor
  · intro h
    exact ⟨fun c hc => h c (Or.inl hc), fun c hc => h c (Or.inr hc)⟩
  · rintro ⟨ha, hb⟩ c (hc | hc)
    · exact ha c hc
    · exact hb c hc

theorem no_reject_say_cache (s : begin_state) (fmt : String) :
    no_reject (s.say_cache fmt).trace ↔ no_reject s.trace := by
  unfold begin_state.say_cache
  split_ifs <;> simp [no_reject_append, no_reject_cons, no_reject_nil, Call.rejects]

theorem begin_out_cache_reject (env : Krb5) (pn : Option String) (s : begin_state)
    (h : reject_inv_start s.opts s) :
    (begin_out_cache env pn s).post (reject_inv_start s.opts) (reject_post env s.opts) := by
  obtain ⟨-, h1, h2⟩ := h
  unfold begin_out_cache reject_inv_start reject_post
  dsimp only
  split <;> split_ifs <;> simp_all [no_reject_append, no_reject_cons, no_reject_nil, Call.rejects]

theorem begin_choose_princ_reject (env : Krb5) (pn : Option String) (opts : k_opts)
    (s : begin_state) (h : reject_inv_start opts s) :
    (begin_choose_princ env pn s).post (reject_inv env opts) (reject_post env opts) := by
  obtain ⟨rfl, h1, h2⟩ := h
  unfold begin_choose_princ reject_inv reject_post explicit_rejected
  dsimp only
  split <;> split_ifs <;> simp_all [no_reject_append, no_reject_cons, no_reject_nil, Call.rejects]

theorem begin_local_user_reject (env : Krb5) (pn : Option String) (opts : k_opts)
    (s : begin_state) (h : reject_inv env opts s) :
    (begin_local_user env pn s).post (reject_inv env opts) (reject_post env opts) := by
  obtain ⟨h1, h2, h3⟩ := h
  unfold begin_local_user reject_inv reject_post
  dsimp only
  split_ifs
  · split
    · simp_all [no_reject_append, no_reject_cons, no_reject_nil, Call.rejects]
    · split_ifs <;> simp_all [no_reject_append, no_reject_cons, no_reject_nil, Call.rejects]
  · simp_all

theorem begin_select_cache_reject (env : Krb5) (pn : Option String) (opts : k_opts)
    (s : begin_state) (h : reject_inv env opts s) :
    (begin_select_cache env pn s).post (reject_inv env opts) (reject_post env opts) := by
  obtain ⟨h1, h2, h3⟩ := h
  unfold begin_select_cache reject_inv reject_post
  dsimp only
  split_ifs <;> simp_all [no_reject_append, no_reject_cons, no_reject_nil, no_reject_say_cache, Call.rejects]

theorem begin_default_cache_reject (env : Krb5) (opts : k_opts)
    (s : begin_state) (h : reject_inv env opts s) :
    (begin_default_cache s).post (reject_inv env opts) (reject_post env opts) := by
  obtain ⟨h1, h2, h3⟩ := h
  unfold begin_default_cache reject_inv
  dsimp only
  split_ifs <;> simp_all [no_reject_append, no_reject_cons, no_reject_nil, no_reject_say_cache, Call.rejects]

theorem begin_in_cache_reject (env : Krb5) (pn : Option String) (opts : k_opts)
    (s : begin_state) (h : reject_inv env opts s) :
    (begin_in_cache env pn s).post (reject_inv env opts) (reject_post env opts) := by
  obtain ⟨h1, h2, h3⟩ := h
  unfold begin_in_cache reject_inv reject_post
  dsimp only
  split <;> (try split_ifs) <;> simp_all [no_reject_append, no_reject_cons, no_reject_nil, Call.rejects]

theorem begin_unparse_reject (env : Krb5) (pn : Option String) (opts : k_opts)
    (s : begin_state) (h : reject_inv env opts s) :
    (begin_unparse env pn s).post (reject_post env opts) (reject_post env opts) := by
  obtain ⟨h1, h2, h3⟩ := h
  unfold begin_unparse reject_post
  dsimp only
  split_ifs <;> simp_all [no_reject_append, no_reject_cons, no_reject_nil, Call.rejects]

theorem begin_cleanup_reject (env : Krb5) (opts : k_opts) (s : begin_state)
    (h : reject_post env opts s) : reject_post env opts (begin_cleanup s) := by
  unfold begin_cleanup reject_post at *
  dsimp only
  split_ifs <;> simp_all [no_reject_append, no_reject_cons, no_reject_nil, Call.rejects]

theorem begin_body_reject (env : Krb5) (pn : Option String) (s : begin_state)
    (h : reject_inv_start s.opts s) :
    (begin_body env pn s).post (reject_post env s.opts) (reject_post env s.opts) := by
  unfold begin_body
  refine Flow.post_bind (I := reject_inv env s.opts) ?_
    (fun t ht => Flow.post_bind (begin_in_cache_reject env pn s.opts t ht)
      (fun u hu => begin_unparse_reject env pn s.opts u hu))
  refine Flow.post_bind (I := reject_inv env s.opts) ?_
    (fun t ht => begin_default_cache_reject env s.opts t ht)
  refine Flow.post_bind (I := reject_inv env s.opts) ?_
    (fun t ht => begin_select_cache_reject env pn s.opts t ht)
  refine Flow.post_bind (I := reject_inv env s.opts) ?_
    (fun t ht => begin_local_user_reject env pn s.opts t ht)
  refine Flow.post_bind (I := reject_inv_start s.opts) ?_
    (fun t ht => begin_choose_princ_reject env pn s.opts t ht)
  exact begin_out_cache_reject env pn s h

theorem k5_begin_reject_post (env : Krb5) (pn : Option String) (opts : k_opts)
    (k5 : k5_data) : reject_post env opts (k5_begin env pn opts k5) := by
  unfold k5_begin
  dsimp only
  split_ifs with hr
  · intro _
    rfl
  · exact begin_cleanup_reject env opts _
      (Flow.post_state (begin_body_reject env pn _
        ⟨rfl, rfl, by simp [no_reject_cons, no_reject_nil, Call.rejects]⟩))

theorem kinit_attempt_failed (env : Krb5) (pn : Option String) (opts : k_opts)
    (pass : List Nat) (h : (k5_begin env pn opts {}).success = 0) :
    kinit_attempt env pn opts pass =
      (0, (k5_begin env pn opts {}).opts, (k5_begin env pn opts {}).k5,
        (k5_begin env pn opts {}).trace) := by
  simp [kinit_attempt, h]

theorem begin_out_cache_fb (env : Krb5) (pn : Option String) (s : begin_state)
    (h1 : s.success = 0) (h2 : s.k5.me = none) (h3 : s.k5.out_cc = none)
    (h4 : s.defcache_princ = none) :
    (begin_out_cache env pn s).post (fb_start env s.opts) (fun t => t.success = 0) := by
  unfold begin_out_cache fb_start
  dsimp only
  split <;> split_ifs <;> simp_all

theorem begin_choose_princ_fb (env : Krb5) (pn : Option String) (opts : k_opts)
    (s : begin_state) (h : fb_start env opts s) :
    (begin_choose_princ env pn s).post (fb_chosen env opts) (fun t => t.success = 0) := by
  obtain ⟨rfl, h1, h2, h4, h5⟩ := h
  unfold begin_choose_princ
  dsimp only
  split
  · rename_i nm hnm
    have hc := chosen_explicit env s.opts (by simp [hnm])
    split_ifs with hr
    · simp_all
    · simp_all [fb_chosen, no_step_yields, Source.yield]
  · rename_i hnm
    by_cases ha : s.opts.anonymous ≠ 0
    · rw [if_pos ha]
      have hc := chosen_anonymous env s.opts hnm ha
      split_ifs with hd hb
      · simp_all
      · simp_all
      · simp_all [fb_chosen, no_step_yields, Source.yield]
    · rw [if_neg ha]
      simp only [ne_eq, not_not] at ha
      by_cases hk : s.opts.action = action_type.INIT_KT ∧ s.opts.use_client_keytab ≠ 0
      · rw [if_pos hk]
        have hc := chosen_client_keytab env s.opts hnm ha hk.1 hk.2
        split_ifs with hd hb
        · simp_all
        · simp_all
        · simp_all [fb_chosen, no_step_yields, Source.yield]
      · rw [if_neg hk]
        by_cases ht : s.opts.action = action_type.INIT_KT
        · rw [if_pos ht]
          have hu : s.opts.use_client_keytab = 0 := by
            by_contra hu
            exact hk ⟨ht, hu⟩
          have hc := chosen_host env s.opts hnm ha ht hu
          split_ifs with hd
          · simp_all
          · simp_all [fb_chosen, no_step_yields, Source.yield]
        · rw [if_neg ht]
          have hc := chosen_stores env s.opts hnm ha ht
          by_cases ho : s.k5.out_cc ≠ none
          · rw [if_pos ho]
            cases hon : s.opts.k5_out_cache_name with
            | none => exact absurd (h5 hon).1 ho
            | some nm =>
              obtain ⟨hoc, hdp⟩ := h4 nm hon
              have hd : Source.default_store.applicable env s.opts = false := by
                simp [Source.applicable, hon]
              by_cases hg : (env.krb5_cc_get_principal (env.krb5_cc_resolve nm).out).ret = 0
              · by_cases hgo : (env.krb5_cc_get_principal (env.krb5_cc_resolve nm).out).out
                    = none
                · simp_all [fb_chosen]
                · have h5a : Source.out_store.applicable env s.opts = true := by
                    simp [Source.applicable, out_store_princ, hon, hg, hgo]
                  simp_all [fb_chosen, no_step_yields, Source.yield, out_store_princ]
              · simp_all [fb_chosen]
          · rw [if_neg ho]
            simp only [ne_eq, not_not] at ho
            by_cases hp : s.defcache_princ ≠ none
            · rw [if_pos hp]
              cases hon : s.opts.k5_out_cache_name with
              | some nm => exact absurd (h4 nm hon).2 hp
              | none =>
                have h5b := (h5 hon).2
                have h5a : Source.out_store.applicable env s.opts = false := by
                  simp [Source.applicable, out_store_princ, hon]
                by_cases hg : (env.krb5_cc_get_principal env.krb5_cc_default.out).ret = 0
                · have hd : Source.default_store.applicable env s.opts = true := by
                    simp_all [Source.applicable]
                  simp_all [fb_chosen, no_step_yields, Source.yield]
                · simp_all
            · rw [if_neg hp]
              simp_all [fb_chosen]

theorem begin_local_user_fb (env : Krb5) (pn : Option String) (opts : k_opts)
    (s : begin_state) (h : fb_chosen env opts s) (hy : no_step_yields env opts)
    (hf : os_user_fails env opts) :
    (begin_local_user env pn s).post (fun _ => False) (fun t => t.success = 0) := by
  obtain ⟨rfl, h1, h2⟩ := h
  have hm := h2 hy
  unfold begin_local_user
  dsimp only
  rw [if_pos hm]
  rcases hf with hf | ⟨nm, hf, hr⟩
  · rw [hf]
    exact h1
  · rw [hf]
    simp only [begin_state.log]
    rw [if_pos hr]
    exact h1

theorem begin_cleanup_success (s : begin_state) :
    (begin_cleanup s).success = s.success := by
  unfold begin_cleanup
  dsimp only
  split_ifs <;> rfl

theorem begin_body_fb (env : Krb5) (pn : Option String) (s : begin_state)
    (h1 : s.success = 0) (h2 : s.k5.me = none) (h3 : s.k5.out_cc = none)
    (h4 : s.defcache_princ = none) (hy : no_step_yields env s.opts)
    (hf : os_user_fails env s.opts) :
    (begin_body env pn s).post (fun _ => False) (fun t => t.success = 0) := by
  unfold begin_body
  refine Flow.post_bind (I := fun _ => False) ?_ (fun t ht => False.elim ht)
  refine Flow.post_bind (I := fun _ => False) ?_ (fun t ht => False.elim ht)
  refine Flow.post_bind (I := fun _ => False) ?_ (fun t ht => False.elim ht)
  refine Flow.post_bind (I := fb_chosen env s.opts) ?_
    (fun t ht => begin_local_user_fb env pn s.opts t ht hy hf)
  refine Flow.post_bind (I := fb_start env s.opts) ?_
    (fun t ht => begin_choose_princ_fb env pn s.opts t ht)
  exact begin_out_cache_fb env pn s h1 h2 h3 h4

theorem k5_begin_fb (env : Krb5) (pn : Option String) (opts : k_opts) (k5 : k5_data)
    (h2 : k5.me = none) (h3 : k5.out_cc = none) (hy : no_step_yields env opts)
    (hf : os_user_fails env opts) : (k5_begin env pn opts k5).success = 0 := by
  unfold k5_begin
  dsimp only
  split_ifs with hr
  · rfl
  · rw [begin_cleanup_success]
    exact Flow.post_state (Flow.post_mono
      (begin_body_fb env pn
        { opts := opts, k5 := { k5 with ctx := env.krb5_init_context.assign k5.ctx },
          trace := [{ fn := Fn.krb5_init_context, ret := env.krb5_init_context.ret,
                      out := Val.ptr env.krb5_init_context.out }] }
        rfl h2 h3 rfl hy hf)
      (fun _ h => False.elim h) (fun _ h => h))

theorem no_step_yields_plain (env : Krb5) (opts : k_opts)
    (h1 : opts.principal_name = none) (h2 : opts.anonymous = 0)
    (h3 : opts.action ≠ action_type.INIT_KT)
    (h4 : ∀ nm, opts.k5_out_cache_name = some nm →
      ¬ ((env.krb5_cc_get_principal (env.krb5_cc_resolve nm).out).ret = 0 ∧
        (env.krb5_cc_get_principal (env.krb5_cc_resolve nm).out).out ≠ none))
    (h5 : opts.k5_out_cache_name = none →
      ¬ ((env.krb5_cc_get_principal env.krb5_cc_default.out).ret = 0 ∧
        (env.krb5_cc_get_principal env.krb5_cc_default.out).out ≠ none)) :
    no_step_yields env opts := by
  left
  rw [chosen_stores env opts h1 h2 h3]
  have a1 : Source.out_store.applicable env opts = false := by
    cases hon : opts.k5_out_cache_name with
    | none => simp [Source.applicable, out_store_princ, hon]
    | some nm =>
      have := h4 nm hon
      simp only [Source.applicable, out_store_princ, hon, Option.map_some']
      simpa using this
  have a2 : Source.default_store.applicable env opts = false := by
    cases hon : opts.k5_out_cache_name with
    | some nm => simp [Source.applicable, hon]
    | none =>
      have := h5 hon
      simp only [Source.applicable, hon]
      simpa using this
  simp [a1, a2]

theorem kinit_session_failed (env : Krb5) (pn : Option String) (opts : k_opts)
    (udata : userdata) (h : (k5_begin env pn opts {}).success = 0) :
    (kinit_session env pn opts udata).authed_k5 = 0 ∧
    (kinit_session env pn opts udata).status = 1 := by
  unfold kinit_session
  dsimp only
  rw [kinit_attempt_failed env pn opts udata.pass h]
  exact ⟨rfl, rfl⟩

/-- C7: `k5_begin` returns 0, for every session state that holds no principal
and no output cache at entry, whenever no step of the priority list before
the fallback yields a principal (`no_step_yields`: none of them applies, or
the earliest that applies yields `NULL`) and `get_name_from_os` returns `NULL`;
in particular when no principal name is given, the anonymous flag is not set,
the mode is not the keytab one, and the named output store, or else the
default store, holds no principal.  It returns 0, for every session state,
whenever the explicit principal name is rejected by `krb5_parse_name_flags`,
and, for a session state as above, whenever no step yields a principal and the
OS user name is rejected; and in every run whose log holds `get_name_from_os`
returning `NULL` or a rejecting `krb5_parse_name_flags`.  When `k5_begin`
returns 0, `k5_kinit` is not run: the attempt yields 0 with the log of
`k5_begin` alone, and a run of `my_kinit_main` whose principal name is
rejected ends with `authed_k5 = 0` and exit status 1. -/
theorem k5_begin_identity_failure (env : Krb5) (pn : Option String) (opts : k_opts)
    (pass : List Nat) :
    (∀ k5 : k5_data, k5.me = none → k5.out_cc = none → no_step_yields env opts →
      env.get_name_from_os = none → (k5_begin env pn opts k5).success = 0) ∧
    (∀ k5 : k5_data, k5.me = none → k5.out_cc = none →
      opts.principal_name = none → opts.anonymous = 0 →
      opts.action ≠ action_type.INIT_KT →
      (∀ nm, opts.k5_out_cache_name = some nm →
        ¬ ((env.krb5_cc_get_principal (env.krb5_cc_resolve nm).out).ret = 0 ∧
          (env.krb5_cc_get_principal (env.krb5_cc_resolve nm).out).out ≠ none)) →
      (opts.k5_out_cache_name = none →
        ¬ ((env.krb5_cc_get_principal env.krb5_cc_default.out).ret = 0 ∧
          (env.krb5_cc_get_principal env.krb5_cc_default.out).out ≠ none)) →
      env.get_name_from_os = none → (k5_begin env pn opts k5).success = 0) ∧
    (∀ (k5 : k5_data) (nm : String), opts.principal_name = some nm →
      (env.krb5_parse_name_flags nm (parse_flags env opts)).ret ≠ 0 →
      (k5_begin env pn opts k5).success = 0) ∧
    (∀ (k5 : k5_data) (nm : String), k5.me = none → k5.out_cc = none →
      no_step_yields env opts → env.get_name_from_os = some nm →
      (env.krb5_parse_name_flags nm (parse_flags env opts)).ret ≠ 0 →
      (k5_begin env pn opts k5).success = 0) ∧
    (∀ k5 : k5_data,
      ((∃ c ∈ (k5_begin env pn opts k5).trace,
          c.fn = Fn.get_name_from_os ∧ c.out = Val.str none) ∨
        (∃ c ∈ (k5_begin env pn opts k5).trace,
          c.fn = Fn.krb5_parse_name_flags ∧ c.ret ≠ 0)) →
      (k5_begin env pn opts k5).success = 0) ∧
    ((k5_begin env pn opts {}).success = 0 →
      kinit_attempt env pn opts pass =
        (0, (k5_begin env pn opts {}).opts, (k5_begin env pn opts {}).k5,
          (k5_begin env pn opts {}).trace)) ∧
    (∀ (a0 a1 a2 : String) (rest : List String) (udata : userdata) (m : main_result),
      my_kinit_main env (a0 :: a1 :: a2 :: rest) udata = some m →
      (env.krb5_parse_name_flags a1 0).ret ≠ 0 → m.authed_k5 = 0 ∧ m.status = 1) := by
  refine ⟨fun k5 h1 h2 hy ho => k5_begin_fb env pn opts k5 h1 h2 hy (Or.inl ho),
    fun k5 h1 h2 a1 a2 a3 a4 a5 ho => k5_begin_fb env pn opts k5 h1 h2
      (no_step_yields_plain env opts a1 a2 a3 a4 a5) (Or.inl ho),
    fun k5 nm hn hr => k5_begin_reject_post env pn opts k5 (Or.inr ⟨nm, hn, hr⟩),
    fun k5 nm h1 h2 hy ho hr => k5_begin_fb env pn opts k5 h1 h2 hy (Or.inr ⟨nm, ho, hr⟩),
    fun k5 h => ?_, fun h => kinit_attempt_failed env pn opts pass h, ?_⟩
  · apply k5_begin_reject_post env pn opts k5
    rcases h with ⟨c, hc, h1⟩ | ⟨c, hc, h1⟩
    · exact Or.inl (fun hn => hn c hc (Or.inl h1))
    · exact Or.inl (fun hn => hn c hc (Or.inr h1))
  · intro a0 a1 a2 rest udata m hm hr
    unfold my_kinit_main at hm
    dsimp only at hm
    split_ifs at hm
    rw [← Option.some.inj hm]
    exact kinit_session_failed env _ _ _
      (k5_begin_reject_post env _ _ {} (Or.inr ⟨a1, rfl, by simpa [parse_flags] using hr⟩))

/-- C7 (witness): no principal name, an uninitialized default cache and no
user name: `k5_begin` returns 0 and `k5_kinit` is not run. -/
theorem k5_begin_identity_failure_witness :
    (k5_begin env_nouser none {} {}).success = 0 ∧
    kinit_attempt env_nouser none {} [] =
      (0, (k5_begin env_nouser none {} {}).opts, (k5_begin env_nouser none {} {}).k5,
        (k5_begin env_nouser none {} {}).trace) ∧
    (k5_begin env_os_rejected none {} {}).success = 0 :=
  ⟨(k5_begin_identity_failure env_nouser none {} []).2.1 {} rfl rfl rfl rfl (by decide)
      (by decide) (by decide) rfl,
    (k5_begin_identity_failure env_nouser none {} []).2.2.2.2.2.1
      ((k5_begin_identity_failure env_nouser none {} []).1 {} rfl rfl
        (Or.inl (by decide)) rfl),
    (k5_begin_identity_failure env_os_rejected none {} []).2.2.2.1 {} "root" rfl rfl
      (Or.inl (by decide)) (by decide) (by decide)⟩
/-! ## C10: store selection and a missing match -/

theorem notfound_logged_nil (env : Krb5) : notfound_logged env [] ↔ False := by
  simp [notfound_logged]

theorem notfound_logged_cons (env : Krb5) (c : Call) (l : List Call) :
    notfound_logged env (c :: l) ↔
      (c.fn = Fn.krb5_cc_cache_match ∧ c.ret = env.KRB5_CC_NOTFOUND) ∨
        notfound_logged env l := by
  simp [notfound_logged]

theorem notfound_logged_append (env : Krb5) (a b : List Call) :
    notfound_logged env (a ++ b) ↔ notfound_logged env a ∨ notfound_logged env b := by
  simp only [notfound_logged, List.mem_append]
  constructor
  · rintro ⟨c, h | h, e⟩
    · exact Or.inl ⟨c, h, e⟩
    · exact Or.inr ⟨c, h, e⟩
  · rintro (⟨c, h, e⟩ | ⟨c, h, e⟩)
    · exact ⟨c, Or.inl h, e⟩
    · exact ⟨c, Or.inr h, e⟩

theorem notfound_logged_of_not_called (env : Krb5) (tr : List Call)
    (h : ¬ called Fn.krb5_cc_cache_match tr) : ¬ notfound_logged env tr := by
  rintro ⟨c, hc, hf, -⟩
  exact h ⟨c, hc, hf⟩

theorem notfound_logged_say_cache (env : Krb5) (s : begin_state) (fmt : String) :
    notfound_logged env (s.say_cache fmt).trace ↔ notfound_logged env s.trace := by
  unfold begin_state.say_cache
  split_ifs <;>
    simp [notfound_logged_append, notfound_logged_cons, notfound_logged_nil]

theorem sel_post_of_not_called (env : Krb5) (s : begin_state)
    (h : ¬ called Fn.krb5_cc_cache_match s.trace) : sel_post env s :=
  fun hn => absurd hn (notfound_logged_of_not_called env s.trace h)

theorem begin_out_cache_sel (env : Krb5) (pn : Option String) (s : begin_state)
    (hout : s.opts.k5_out_cache_name = none)
    (h0 : ¬ called Fn.krb5_cc_cache_match s.trace)
    (h1 : ¬ called Fn.krb5_cc_new_unique s.trace) (h2 : s.success = 0)
    (h3 : s.k5.out_cc = none) (h4 : s.defcache = none) (h5 : s.defcache_princ = none) :
    (begin_out_cache env pn s).post (sel_inv_start env s.opts) (sel_post env) := by
  unfold begin_out_cache
  rw [hout]
  dsimp only
  split_ifs <;>
    first
    | exact sel_post_of_not_called env _ (by simp [h0])
    | simp_all [sel_inv_start]

theorem begin_choose_princ_sel (env : Krb5) (pn : Option String) (opts : k_opts)
    (s : begin_state) (h : sel_inv_start env opts s) :
    (begin_choose_princ env pn s).post (sel_inv env opts) (sel_post env) := by
  obtain ⟨rfl, h1, h2, h3, h4, h5, h6⟩ := h
  unfold begin_choose_princ
  dsimp only
  split <;> split_ifs <;>
    first
    | exact sel_post_of_not_called env _ (by simp [h2])
    | simp_all [sel_inv]

theorem begin_local_user_sel (env : Krb5) (pn : Option String) (opts : k_opts)
    (s : begin_state) (h : sel_inv env opts s) :
    (begin_local_user env pn s).post (sel_inv env opts) (sel_post env) := by
  obtain ⟨rfl, h1, h2, h3, h4⟩ := h
  unfold begin_local_user
  dsimp only
  split_ifs
  · split
    · exact sel_post_of_not_called env _ (by simp [h2])
    · split_ifs
      · exact sel_post_of_not_called env _ (by simp [h2])
      · simp_all [sel_inv]
  · simp_all [sel_inv]

theorem begin_select_cache_sel (env : Krb5) (pn : Option String) (opts : k_opts)
    (hne : env.KRB5_CC_NOTFOUND ≠ 0) (hrest : rest_succeeds env opts)
    (s : begin_state) (h : sel_inv env opts s) :
    (begin_select_cache env pn s).post (sel_inv_searched env opts) (sel_post env) := by
  obtain ⟨rfl, h1, h2, h3, h4⟩ := h
  have hnu := hrest.1 s.deftype
  unfold begin_select_cache
  dsimp only
  by_cases ho : s.k5.out_cc ≠ none
  · rw [if_pos ho]
    exact ⟨rfl, h1, fun hn => absurd hn (notfound_logged_of_not_called env _ h2)⟩
  · rw [if_neg ho]
    simp only [ne_eq, not_not] at ho
    obtain ⟨h5, h6⟩ := h4 ho
    by_cases hsw : env.krb5_cc_support_switch s.deftype = false
    · rw [if_pos hsw]
      exact ⟨rfl, h1, fun hn => absurd hn
        (notfound_logged_of_not_called env _ (by simp [h2]))⟩
    · rw [if_neg hsw]
      by_cases he : (env.krb5_cc_cache_match s.k5.me).ret ≠ 0 ∧
          (env.krb5_cc_cache_match s.k5.me).ret ≠ env.KRB5_CC_NOTFOUND
      · simp only [begin_state.log]
        rw [if_pos he]
        intro hn
        simp [notfound_logged_append, notfound_logged_cons, notfound_logged_nil,
          notfound_logged_of_not_called env _ h2, he.2] at hn
      · simp only [begin_state.log]
        rw [if_neg he]
        by_cases hz : (env.krb5_cc_cache_match s.k5.me).ret = 0
        · rw [if_pos hz]
          refine ⟨by simp, by simp [h1], ?_⟩
          intro hn
          simp [notfound_logged_append, notfound_logged_cons, notfound_logged_nil,
            notfound_logged_say_cache, notfound_logged_of_not_called env _ h2, hz,
            Ne.symm hne] at hn
        · rw [if_neg hz]
          by_cases hp : s.defcache_princ ≠ none
          · rw [if_pos hp, if_neg (by simpa using hnu)]
            refine ⟨by simp, by simp [h1], fun hx => ?_⟩
            clear hx
            simp [sel_found, called_say_cache]
            rcases h6 with h6 | h6
            · unfold default_held
              by_cases hg : (env.krb5_cc_get_principal env.krb5_cc_default.out).ret = 0
              · simp_all
              · simp_all
            · exact absurd h6.1 hp
          · rw [if_neg hp]
            simp only [ne_eq, not_not] at hp
            refine ⟨rfl, h1, fun _ => ?_⟩
            simp [sel_found, h3, Res.assign, hz, ho, h5]
            rcases h6 with h6 | h6
            · simp_all [default_held]
            · simp [h6.2]


theorem begin_default_cache_sel (env : Krb5) (opts : k_opts)
    (s : begin_state) (h : sel_inv_searched env opts s) :
    (begin_default_cache s).post (sel_inv_done env opts) (sel_post env) := by
  obtain ⟨rfl, h1, h2⟩ := h
  unfold begin_default_cache
  dsimp only
  split_ifs with ho
  · refine ⟨by simp, by simp [h1], fun hn => ?_⟩
    rw [notfound_logged_say_cache] at hn
    have h3 := h2 hn
    simp only [sel_found, sel_done, called_say_cache, say_cache_k5] at h3 ⊢
    refine ⟨?_, fun hh => Or.inl (h3.2.1 hh), fun hh => ?_⟩
    · rcases h3.1 with h4 | h4
      · exact Or.inl (Or.inl h4)
      · exact Or.inr h4.2
    · have h5 := h3.2.2 hh
      simp [h5.1, h5.2.2]
  · refine ⟨rfl, h1, fun hn => ?_⟩
    have h3 := h2 hn
    simp only [sel_found, sel_done] at h3 ⊢
    refine ⟨?_, h3.2.1, fun hh => ?_⟩
    · rcases h3.1 with h4 | h4
      · exact Or.inl h4
      · exact absurd h4.1 ho
    · exact absurd (h3.2.2 hh).2.1 ho

theorem begin_in_cache_sel (env : Krb5) (pn : Option String) (opts : k_opts)
    (hrest : rest_succeeds env opts) (s : begin_state) (h : sel_inv_done env opts s) :
    (begin_in_cache env pn s).post (sel_inv_done env opts) (sel_post env) := by
  obtain ⟨rfl, h1, h2⟩ := h
  unfold begin_in_cache
  dsimp only
  split
  · rename_i nm hnm
    have hr := hrest.2.1 nm hnm
    simp only [begin_state.log]
    rw [if_neg (by simpa using hr)]
    split_ifs <;>
    · refine ⟨rfl, h1, fun hn => ?_⟩
      simp only [notfound_logged_append, notfound_logged_cons, notfound_logged_nil,
        fprintf_stderr] at hn
      have h3 := h2 (by simpa using hn)
      simp only [sel_done, called_append, called_cons, called_nil, fprintf_stderr] at h3 ⊢
      simpa using h3
  · exact ⟨rfl, h1, h2⟩

theorem begin_unparse_sel (env : Krb5) (pn : Option String) (opts : k_opts)
    (hrest : rest_succeeds env opts) (s : begin_state) (h : sel_inv_done env opts s) :
    (begin_unparse env pn s).post (sel_post env) (sel_post env) := by
  obtain ⟨rfl, h1, h2⟩ := h
  have hr := hrest.2.2 s.k5.me
  unfold begin_unparse
  dsimp only
  rw [if_neg (by simpa using hr)]
  split_ifs <;>
  · intro hn
    simp only [begin_state.log, notfound_logged_append, notfound_logged_cons,
      notfound_logged_nil, fprintf_stderr] at hn
    have h3 := h2 (by simpa using hn)
    simp only [sel_done, begin_state.log, called_append, called_cons, called_nil,
      fprintf_stderr] at h3 ⊢
    simpa using h3

theorem begin_cleanup_sel (env : Krb5) (s : begin_state)
    (h : sel_post env s) : sel_post env (begin_cleanup s) := by
  unfold begin_cleanup sel_post at *
  dsimp only
  split_ifs <;>
  · intro hn
    simp only [begin_state.log, notfound_logged_append, notfound_logged_cons,
      notfound_logged_nil] at hn
    have h3 := h (by simpa using hn)
    simp only [sel_done, begin_state.log, called_append, called_cons, called_nil] at h3 ⊢
    simpa using h3


theorem begin_body_sel (env : Krb5) (pn : Option String)
    (hne : env.KRB5_CC_NOTFOUND ≠ 0) (s : begin_state)
    (hrest : rest_succeeds env s.opts)
    (hout : s.opts.k5_out_cache_name = none)
    (h0 : ¬ called Fn.krb5_cc_cache_match s.trace)
    (h1 : ¬ called Fn.krb5_cc_new_unique s.trace) (h2 : s.success = 0)
    (h3 : s.k5.out_cc = none) (h4 : s.defcache = none) (h5 : s.defcache_princ = none) :
    (begin_body env pn s).post (sel_post env) (sel_post env) := by
  unfold begin_body
  refine Flow.post_bind (I := sel_inv_done env s.opts) ?_
    (fun t ht => Flow.post_bind (begin_in_cache_sel env pn s.opts hrest t ht)
      (fun u hu => begin_unparse_sel env pn s.opts hrest u hu))
  refine Flow.post_bind (I := sel_inv_searched env s.opts) ?_
    (fun t ht => begin_default_cache_sel env s.opts t ht)
  refine Flow.post_bind (I := sel_inv env s.opts) ?_
    (fun t ht => begin_select_cache_sel env pn s.opts hne hrest t ht)
  refine Flow.post_bind (I := sel_inv env s.opts) ?_
    (fun t ht => begin_local_user_sel env pn s.opts t ht)
  refine Flow.post_bind (I := sel_inv_start env s.opts) ?_
    (fun t ht => begin_choose_princ_sel env pn s.opts t ht)
  exact begin_out_cache_sel env pn s hout h0 h1 h2 h3 h4 h5

theorem k5_begin_sel_post (env : Krb5) (pn : Option String) (opts : k_opts)
    (hne : env.KRB5_CC_NOTFOUND ≠ 0) (hrest : rest_succeeds env opts)
    (hout : opts.k5_out_cache_name = none) :
    sel_post env (k5_begin env pn opts {}) := by
  unfold k5_begin
  dsimp only
  split_ifs with hr
  · exact sel_post_of_not_called env _ (by simp)
  · exact begin_cleanup_sel env _
      (Flow.post_state (begin_body_sel env pn hne _ hrest hout (by simp) (by simp)
        rfl rfl rfl rfl))

theorem resolve_post_of_failed (env : Krb5) (opts : k_opts) (s : begin_state)
    (h : s.success = 0) : resolve_post env opts s :=
  fun _ => h

theorem begin_out_cache_resolve (env : Krb5) (pn : Option String) (s : begin_state)
    (h : s.success = 0) :
    (begin_out_cache env pn s).post (resolve_inv env s.opts) (resolve_post env s.opts) := by
  unfold begin_out_cache
  dsimp only
  split <;> split_ifs <;>
    first
    | exact resolve_post_of_failed env _ _ (by simp [h])
    | simp_all [resolve_inv]

theorem begin_choose_princ_resolve (env : Krb5) (pn : Option String) (opts : k_opts)
    (s : begin_state) (h : resolve_inv env opts s) :
    (begin_choose_princ env pn s).post (resolve_inv env opts) (resolve_post env opts) := by
  obtain ⟨rfl, h1, h2⟩ := h
  unfold begin_choose_princ
  dsimp only
  split <;> split_ifs <;>
    first
    | exact resolve_post_of_failed env _ _ (by simp [h1])
    | exact ⟨rfl, by simp [h1], h2⟩

theorem begin_local_user_resolve (env : Krb5) (pn : Option String) (opts : k_opts)
    (s : begin_state) (h : resolve_inv env opts s) :
    (begin_local_user env pn s).post (resolve_inv env opts) (resolve_post env opts) := by
  obtain ⟨rfl, h1, h2⟩ := h
  unfold begin_local_user
  dsimp only
  split_ifs
  · split
    · exact resolve_post_of_failed env _ _ (by simp [h1])
    · split_ifs
      · exact resolve_post_of_failed env _ _ (by simp [h1])
      · exact ⟨rfl, by simp [h1], h2⟩
  · exact ⟨rfl, h1, h2⟩

theorem begin_select_cache_resolve (env : Krb5) (pn : Option String) (opts : k_opts)
    (s : begin_state) (h : resolve_inv env opts s) :
    (begin_select_cache env pn s).post (resolve_inv env opts) (resolve_post env opts) := by
  obtain ⟨rfl, h1, h2⟩ := h
  unfold begin_select_cache
  dsimp only
  split_ifs <;>
    first
    | exact resolve_post_of_failed env _ _ (by simp [h1])
    | exact ⟨by simp, by simp [h1], h2⟩

theorem begin_default_cache_resolve (env : Krb5) (opts : k_opts)
    (s : begin_state) (h : resolve_inv env opts s) :
    (begin_default_cache s).post (resolve_inv env opts) (resolve_post env opts) := by
  obtain ⟨rfl, h1, h2⟩ := h
  unfold begin_default_cache
  dsimp only
  split_ifs <;> exact ⟨by simp, by simp [h1], h2⟩

theorem begin_in_cache_resolve (env : Krb5) (pn : Option String) (opts : k_opts)
    (s : begin_state) (h : resolve_inv env opts s) :
    (begin_in_cache env pn s).post (resolve_inv_done env opts) (resolve_post env opts) := by
  obtain ⟨rfl, h1, h2⟩ := h
  unfold begin_in_cache
  dsimp only
  split
  · split_ifs <;>
      first
      | exact resolve_post_of_failed env _ _ (by simp [h1])
      | simp_all [resolve_inv_done, resolve_fails]
  · simp_all [resolve_inv_done, resolve_fails]

theorem begin_unparse_resolve (env : Krb5) (pn : Option String) (opts : k_opts)
    (s : begin_state) (h : resolve_inv_done env opts s) :
    (begin_unparse env pn s).post (resolve_post env opts) (resolve_post env opts) := by
  unfold begin_unparse
  dsimp only
  split_ifs <;> exact fun hf => absurd hf h.2

theorem begin_cleanup_resolve (env : Krb5) (opts : k_opts) (s : begin_state)
    (h : resolve_post env opts s) : resolve_post env opts (begin_cleanup s) := by
  unfold begin_cleanup resolve_post at *
  dsimp only
  split_ifs <;> simpa using h

theorem k5_begin_resolve_post (env : Krb5) (pn : Option String) (opts : k_opts)
    (k5 : k5_data) : resolve_post env opts (k5_begin env pn opts k5) := by
  unfold k5_begin
  dsimp only
  split_ifs with hr
  · exact fun _ => rfl
  · refine begin_cleanup_resolve env opts _ (Flow.post_state ?_)
    unfold begin_body
    refine Flow.post_bind (I := resolve_inv env opts) ?_
      (fun t ht => Flow.post_bind (begin_in_cache_resolve env pn opts t ht)
        (fun u hu => begin_unparse_resolve env pn opts u hu))
    refine Flow.post_bind (I := resolve_inv env opts) ?_
      (fun t ht => begin_default_cache_resolve env opts t ht)
    refine Flow.post_bind (I := resolve_inv env opts) ?_
      (fun t ht => begin_select_cache_resolve env pn opts t ht)
    refine Flow.post_bind (I := resolve_inv env opts) ?_
      (fun t ht => begin_local_user_resolve env pn opts t ht)
    refine Flow.post_bind (I := resolve_inv env opts) ?_
      (fun t ht => begin_choose_princ_resolve env pn opts t ht)
    exact begin_out_cache_resolve env pn _ rfl


/-- C10: with no output store named, a `krb5_cc_cache_match` answer of
`KRB5_CC_NOTFOUND` (made only when the default type is switchable) does not
make `k5_begin` fail: when the creation of the new store, the resolution of
a named input store and the unparsing succeed, `k5_begin` returns success,
having created a new unique store (which it does when the default store
holds an initialized principal) or taken the default store as output store.
A named output store or input store that does not resolve makes `k5_begin`
return failure. -/
theorem k5_begin_notfound_not_fatal (env : Krb5) (pn : Option String) (opts : k_opts) :
    (opts.k5_out_cache_name = none → env.KRB5_CC_NOTFOUND ≠ 0 →
      (∃ c ∈ (k5_begin env pn opts {}).trace,
        c.fn = Fn.krb5_cc_cache_match ∧ c.ret = env.KRB5_CC_NOTFOUND) →
      (∀ t, (env.krb5_cc_new_unique t).ret = 0) →
      (∀ nm, opts.k5_in_cache_name = some nm → (env.krb5_cc_resolve nm).ret = 0) →
      (∀ p, (env.krb5_unparse_name p).ret = 0) →
      (k5_begin env pn opts {}).success ≠ 0 ∧
      (called Fn.krb5_cc_new_unique (k5_begin env pn opts {}).trace ∨
        (k5_begin env pn opts {}).k5.out_cc = env.krb5_cc_default.out) ∧
      (((env.krb5_cc_get_principal env.krb5_cc_default.out).ret = 0 ∧
        (env.krb5_cc_get_principal env.krb5_cc_default.out).out ≠ none) ∧
        env.krb5_cc_default.out ≠ none →
        called Fn.krb5_cc_new_unique (k5_begin env pn opts {}).trace) ∧
      (¬ ((env.krb5_cc_get_principal env.krb5_cc_default.out).ret = 0 ∧
        (env.krb5_cc_get_principal env.krb5_cc_default.out).out ≠ none) →
        ¬ called Fn.krb5_cc_new_unique (k5_begin env pn opts {}).trace ∧
        (k5_begin env pn opts {}).k5.out_cc = env.krb5_cc_default.out)) ∧
    (∀ k5 nm, opts.k5_out_cache_name = some nm → (env.krb5_cc_resolve nm).ret ≠ 0 →
      (k5_begin env pn opts k5).success = 0) ∧
    (∀ k5 nm, opts.k5_in_cache_name = some nm → (env.krb5_cc_resolve nm).ret ≠ 0 →
      (k5_begin env pn opts k5).success = 0) := by
  refine ⟨fun hout hne hnf h1 h2 h3 => ?_, fun k5 nm h1 h2 => ?_, fun k5 nm h1 h2 => ?_⟩
  · exact k5_begin_sel_post env pn opts hne ⟨h1, h2, h3⟩ hout hnf
  · exact k5_begin_resolve_post env pn opts k5 (Or.inl ⟨nm, h1, h2⟩)
  · exact k5_begin_resolve_post env pn opts k5 (Or.inr ⟨nm, h1, h2⟩)

/-- C10 (witness): a run in which the search finds nothing and a new store
is created. -/
theorem k5_begin_notfound_not_fatal_witness :
    (∃ c ∈ (k5_begin env_same none opts_alice {}).trace,
      c.fn = Fn.krb5_cc_cache_match ∧ c.ret = env_same.KRB5_CC_NOTFOUND) ∧
    (k5_begin env_same none opts_alice {}).success ≠ 0 ∧
    called Fn.krb5_cc_new_unique (k5_begin env_same none opts_alice {}).trace :=
  ⟨by decide,
    ((k5_begin_notfound_not_fatal env_same none opts_alice).1 rfl (by decide) (by decide)
      (fun _ => rfl) (fun _ _ => rfl) (fun _ => rfl)).1,
    ((k5_begin_notfound_not_fatal env_same none opts_alice).1 rfl (by decide) (by decide)
      (fun _ => rfl) (fun _ _ => rfl) (fun _ => rfl)).2.2.1 ⟨⟨rfl, by decide⟩, by decide⟩⟩

/-! ## General facts about the blocks of k5_kinit -/

@[simp] theorem setopt_opts (s : kinit_state) (cond : Prop) [Decidable cond] (c : Call)
    (f : krb5_get_init_creds_opt → krb5_get_init_creds_opt) :
    (s.setopt cond c f).opts = s.opts := by
  unfold kinit_state.setopt; split_ifs <;> rfl

@[simp] theorem setopt_k5 (s : kinit_state) (cond : Prop) [Decidable cond] (c : Call)
    (f : krb5_get_init_creds_opt → krb5_get_init_creds_opt) :
    (s.setopt cond c f).k5 = s.k5 := by
  unfold kinit_state.setopt; split_ifs <;> rfl

@[simp] theorem setopt_notix (s : kinit_state) (cond : Prop) [Decidable cond] (c : Call)
    (f : krb5_get_init_creds_opt → krb5_get_init_creds_opt) :
    (s.setopt cond c f).notix = s.notix := by
  unfold kinit_state.setopt; split_ifs <;> rfl

@[simp] theorem setopt_keytab (s : kinit_state) (cond : Prop) [Decidable cond] (c : Call)
    (f : krb5_get_init_creds_opt → krb5_get_init_creds_opt) :
    (s.setopt cond c f).keytab = s.keytab := by
  unfold kinit_state.setopt; split_ifs <;> rfl

@[simp] theorem setopt_my_creds (s : kinit_state) (cond : Prop) [Decidable cond] (c : Call)
    (f : krb5_get_init_creds_opt → krb5_get_init_creds_opt) :
    (s.setopt cond c f).my_creds = s.my_creds := by
  unfold kinit_state.setopt; split_ifs <;> rfl

@[simp] theorem setopt_options_alloc (s : kinit_state) (cond : Prop) [Decidable cond]
    (c : Call) (f : krb5_get_init_creds_opt → krb5_get_init_creds_opt) :
    (s.setopt cond c f).options_alloc = s.options_alloc := by
  unfold kinit_state.setopt; split_ifs <;> rfl

@[simp] theorem setopt_pwprompt (s : kinit_state) (cond : Prop) [Decidable cond] (c : Call)
    (f : krb5_get_init_creds_opt → krb5_get_init_creds_opt) :
    (s.setopt cond c f).pwprompt = s.pwprompt := by
  unfold kinit_state.setopt; split_ifs <;> rfl

@[simp] theorem setopt_addresses (s : kinit_state) (cond : Prop) [Decidable cond] (c : Call)
    (f : krb5_get_init_creds_opt → krb5_get_init_creds_opt) :
    (s.setopt cond c f).addresses = s.addresses := by
  unfold kinit_state.setopt; split_ifs <;> rfl

@[simp] theorem setopt_mcc (s : kinit_state) (cond : Prop) [Decidable cond] (c : Call)
    (f : krb5_get_init_creds_opt → krb5_get_init_creds_opt) :
    (s.setopt cond c f).mcc = s.mcc := by
  unfold kinit_state.setopt; split_ifs <;> rfl

theorem setopt_options (s : kinit_state) (cond : Prop) [Decidable cond] (c : Call)
    (f : krb5_get_init_creds_opt → krb5_get_init_creds_opt) :
    (s.setopt cond c f).options = if cond then f s.options else s.options := by
  unfold kinit_state.setopt; split_ifs <;> rfl

theorem setopt_trace (s : kinit_state) (cond : Prop) [Decidable cond] (c : Call)
    (f : krb5_get_init_creds_opt → krb5_get_init_creds_opt) :
    (s.setopt cond c f).trace = s.trace ++ (if cond then [c] else []) := by
  unfold kinit_state.setopt; split_ifs <;> simp

@[simp] theorem say_opts (s : kinit_state) (fmt : String) (args : List Val) :
    (s.say fmt args).opts = s.opts := by
  unfold kinit_state.say; split_ifs <;> rfl

@[simp] theorem say_k5 (s : kinit_state) (fmt : String) (args : List Val) :
    (s.say fmt args).k5 = s.k5 := by
  unfold kinit_state.say; split_ifs <;> rfl

@[simp] theorem say_notix (s : kinit_state) (fmt : String) (args : List Val) :
    (s.say fmt args).notix = s.notix := by
  unfold kinit_state.say; split_ifs <;> rfl

@[simp] theorem say_keytab (s : kinit_state) (fmt : String) (args : List Val) :
    (s.say fmt args).keytab = s.keytab := by
  unfold kinit_state.say; split_ifs <;> rfl

@[simp] theorem say_my_creds (s : kinit_state) (fmt : String) (args : List Val) :
    (s.say fmt args).my_creds = s.my_creds := by
  unfold kinit_state.say; split_ifs <;> rfl

@[simp] theorem say_options_alloc (s : kinit_state) (fmt : String) (args : List Val) :
    (s.say fmt args).options_alloc = s.options_alloc := by
  unfold kinit_state.say; split_ifs <;> rfl

@[simp] theorem say_options (s : kinit_state) (fmt : String) (args : List Val) :
    (s.say fmt args).options = s.options := by
  unfold kinit_state.say; split_ifs <;> rfl

@[simp] theorem say_pwprompt (s : kinit_state) (fmt : String) (args : List Val) :
    (s.say fmt args).pwprompt = s.pwprompt := by
  unfold kinit_state.say; split_ifs <;> rfl

@[simp] theorem say_addresses (s : kinit_state) (fmt : String) (args : List Val) :
    (s.say fmt args).addresses = s.addresses := by
  unfold kinit_state.say; split_ifs <;> rfl

@[simp] theorem say_mcc (s : kinit_state) (fmt : String) (args : List Val) :
    (s.say fmt args).mcc = s.mcc := by
  unfold kinit_state.say; split_ifs <;> rfl

theorem say_trace (s : kinit_state) (fmt : String) (args : List Val) :
    (s.say fmt args).trace =
      s.trace ++ (if s.opts.verbose ≠ 0 then [fprintf_stderr fmt args] else []) := by
  unfold kinit_state.say; split_ifs <;> simp

theorem extends_by_refl (fs : List Fn) (s : List Call) : extends_by fs s s :=
  ⟨[], by simp, by simp⟩

theorem extends_by_trans {fs : List Fn} {s t u : List Call}
    (h1 : extends_by fs s t) (h2 : extends_by fs t u) : extends_by fs s u := by
  obtain ⟨l1, rfl, h1⟩ := h1
  obtain ⟨l2, rfl, h2⟩ := h2
  refine ⟨l1 ++ l2, by simp, ?_⟩
  intro c hc
  rcases List.mem_append.1 hc with h | h
  · exact h1 c h
  · exact h2 c h

theorem extends_by_mono {fs g : List Fn} {s t : List Call}
    (h : extends_by fs s t) (hs : ∀ f ∈ fs, f ∈ g) : extends_by g s t := by
  obtain ⟨l, rfl, h⟩ := h
  exact ⟨l, rfl, fun c hc => hs _ (h c hc)⟩

theorem extends_by_one (fs : List Fn) (s : List Call) (c : Call) (h : c.fn ∈ fs) :
    extends_by fs s (s ++ [c]) :=
  ⟨[c], rfl, by simpa using h⟩

theorem extends_by_called {fs : List Fn} {s t : List Call} (h : extends_by fs s t)
    (f : Fn) (hf : f ∉ fs) : called f t ↔ called f s := by
  obtain ⟨l, rfl, h⟩ := h
  rw [called_append]
  constructor
  · rintro (h1 | ⟨c, hc, rfl⟩)
    · exact h1
    · exact absurd (h c hc) hf
  · exact Or.inl

theorem extends_by_snoc {fs : List Fn} {s t : List Call} (c : Call)
    (h : extends_by fs s t) (hc : c.fn ∈ fs) : extends_by fs s (t ++ [c]) :=
  extends_by_trans h (extends_by_one fs t c hc)

theorem extends_by_snoc_if {fs : List Fn} {s t : List Call} (c : Call) (p : Prop)
    [Decidable p] (h : extends_by fs s t) (hc : c.fn ∈ fs) :
    extends_by fs s (t ++ if p then [c] else []) := by
  split_ifs
  · exact extends_by_snoc c h hc
  · simpa using h

theorem extends_by_setopt {fs : List Fn} {l : List Call} (s : kinit_state) (cond : Prop)
    [Decidable cond] (c : Call) (f : krb5_get_init_creds_opt → krb5_get_init_creds_opt)
    (h : extends_by fs l s.trace) (hc : cond → c.fn ∈ fs) :
    extends_by fs l (s.setopt cond c f).trace := by
  rw [setopt_trace]
  split_ifs with hcond
  · exact extends_by_snoc c h (hc hcond)
  · simpa using h

theorem extends_by_say {fs : List Fn} {l : List Call} (s : kinit_state) (fmt : String)
    (args : List Val) (h : extends_by fs l s.trace) (hc : Fn.fprintf_stderr ∈ fs) :
    extends_by fs l (s.say fmt args).trace := by
  rw [say_trace]
  exact extends_by_snoc_if _ _ h (by simpa [fprintf_stderr] using hc)

theorem same_frame_refl (s : kinit_state) : same_frame s s :=
  ⟨rfl, rfl, rfl, rfl, rfl, rfl, rfl⟩

theorem same_frame_trans {s t u : kinit_state} (h1 : same_frame s t) (h2 : same_frame t u) :
    same_frame s u := by
  obtain ⟨a1, a2, a3, a4, a5, a6, a7⟩ := h1
  obtain ⟨b1, b2, b3, b4, b5, b6, b7⟩ := h2
  exact ⟨b1.trans a1, b2.trans a2, b3.trans a3, b4.trans a4, b5.trans a5, b6.trans a6,
    b7.trans a7⟩

theorem kinit_alloc_extends (env : Krb5) (s : kinit_state) :
    extends_by [Fn.krb5_get_init_creds_opt_alloc] s.trace (kinit_alloc env s).state.trace := by
  unfold kinit_alloc
  dsimp only
  split_ifs <;> exact extends_by_one _ _ _ (by simp)

theorem kinit_alloc_frame (env : Krb5) (s : kinit_state) :
    same_frame s (kinit_alloc env s).state := by
  unfold kinit_alloc
  dsimp only
  split_ifs <;> simp [same_frame]

theorem kinit_flags_extends (s : kinit_state) :
    extends_by (flags_fns s.opts) s.trace (kinit_flags s).trace := by
  unfold kinit_flags
  dsimp only
  (repeat' (first
    | exact extends_by_refl _ _
    | refine extends_by_setopt _ _ _ _ ?_ ?_)) <;>
  (intro h; simp [flags_fns, h])

theorem kinit_flags_frame (s : kinit_state) : same_frame s (kinit_flags s) := by
  unfold kinit_flags
  simp [same_frame]

theorem kinit_addresses_extends (env : Krb5) (pn : Option String) (s : kinit_state) :
    extends_by addresses_fns s.trace (kinit_addresses env pn s).state.trace := by
  unfold kinit_addresses
  dsimp only
  split_ifs
  · exact extends_by_snoc _ (extends_by_one _ _ _ (by simp [addresses_fns]))
      (by simp [addresses_fns])
  · simp only [Flow.state]
    exact extends_by_setopt _ _ _ _ (extends_by_one _ _ _ (by simp [addresses_fns]))
      (by simp [addresses_fns])
  · exact extends_by_refl _ _

theorem kinit_addresses_frame (env : Krb5) (pn : Option String) (s : kinit_state) :
    same_frame s (kinit_addresses env pn s).state := by
  unfold kinit_addresses
  dsimp only
  split_ifs <;> simp [same_frame]

theorem kinit_flags_pac_extends (s : kinit_state) :
    extends_by (flags_pac_fns s.opts) s.trace (kinit_flags_pac s).trace := by
  unfold kinit_flags_pac
  dsimp only
  (repeat' (first
    | exact extends_by_refl _ _
    | refine extends_by_setopt _ _ _ _ ?_ ?_)) <;>
  (intro h; simp [flags_pac_fns, h])

theorem kinit_flags_pac_frame (s : kinit_state) : same_frame s (kinit_flags_pac s) := by
  unfold kinit_flags_pac
  simp [same_frame]

theorem kinit_keytab_named_extends (env : Krb5) (pn : Option String) (nm : String)
    (s : kinit_state) :
    extends_by keytab_fns s.trace (kinit_keytab_named env pn nm s).state.trace := by
  unfold kinit_keytab_named
  dsimp only
  split_ifs <;> (try simp only [Flow.bind, Flow.state, kinit_state.log]) <;>
    (repeat' (first
      | exact extends_by_refl _ _
      | refine extends_by_say _ _ _ ?_ ?_
      | refine extends_by_snoc _ ?_ ?_)) <;>
    simp [keytab_fns, com_err]

theorem kinit_keytab_named_frame (env : Krb5) (pn : Option String) (nm : String)
    (s : kinit_state) : same_frame s (kinit_keytab_named env pn nm s).state := by
  unfold kinit_keytab_named
  dsimp only
  split_ifs <;> (try simp only [Flow.bind, Flow.state, kinit_state.log]) <;>
    simp [same_frame]

theorem kinit_keytab_extends (env : Krb5) (pn : Option String) (s : kinit_state) :
    extends_by keytab_fns s.trace (kinit_keytab env pn s).state.trace := by
  unfold kinit_keytab
  dsimp only
  split
  · split_ifs
    · exact kinit_keytab_named_extends env pn _ s
    · exact extends_by_refl _ _
  · split_ifs <;> (try simp only [Flow.state, kinit_state.log]) <;>
      (repeat' (first
        | exact extends_by_refl _ _
        | refine extends_by_snoc _ ?_ ?_)) <;>
      simp [keytab_fns, com_err]

theorem kinit_keytab_frame (env : Krb5) (pn : Option String) (s : kinit_state) :
    same_frame s (kinit_keytab env pn s).state := by
  unfold kinit_keytab
  dsimp only
  split
  · split_ifs
    · exact kinit_keytab_named_frame env pn _ s
    · exact same_frame_refl _
  · split_ifs <;> simp [same_frame]

theorem kinit_setup_spec (env : Krb5) (pn : Option String) (s : kinit_state) :
    extends_by (setup_fns s.opts) s.trace (kinit_setup env pn s).state.trace ∧
    same_frame s (kinit_setup env pn s).state := by
  unfold kinit_setup
  have h1 := extends_by_mono (kinit_alloc_extends env s)
    (g := setup_fns s.opts) (fun f hf => by simp_all [setup_fns])
  have f1 := kinit_alloc_frame env s
  cases ha : kinit_alloc env s with
  | cleanup t =>
    rw [ha] at h1 f1
    exact ⟨h1, f1⟩
  | next t =>
    rw [ha] at h1 f1
    simp only [Flow.bind, Flow.state] at h1 f1 ⊢
    have e1 : t.opts = s.opts := f1.1
    have h2 := extends_by_mono (kinit_flags_extends t)
      (g := setup_fns s.opts) (fun f hf => by simp_all [setup_fns])
    have f2 := kinit_flags_frame t
    have h3 := extends_by_mono (kinit_addresses_extends env pn (kinit_flags t))
      (g := setup_fns s.opts) (fun f hf => by simp_all [setup_fns])
    have f3 := kinit_addresses_frame env pn (kinit_flags t)
    have h123 := extends_by_trans (extends_by_trans h1 h2) h3
    have f123 := same_frame_trans (same_frame_trans f1 f2) f3
    cases hb : kinit_addresses env pn (kinit_flags t) with
    | cleanup u =>
      rw [hb] at h123 f123
      exact ⟨h123, f123⟩
    | next u =>
      rw [hb] at h123 f123
      simp only [Flow.state] at h123 f123 ⊢
      have e2 : u.opts = s.opts := f123.1
      have h4 := extends_by_mono (kinit_flags_pac_extends u)
        (g := setup_fns s.opts) (fun f hf => by simp_all [setup_fns])
      have f4 := kinit_flags_pac_frame u
      have h5 := extends_by_mono (kinit_keytab_extends env pn (kinit_flags_pac u))
        (g := setup_fns s.opts) (fun f hf => by simp_all [setup_fns])
      have f5 := kinit_keytab_frame env pn (kinit_flags_pac u)
      exact ⟨extends_by_trans (extends_by_trans h123 h4) h5,
        same_frame_trans (same_frame_trans f123 f4) f5⟩

theorem kinit_pa_loop_extends (env : Krb5) (pn : Option String)
    (ps : List krb5_gic_opt_pa_data) (s : kinit_state) :
    extends_by pa_fns s.trace (kinit_pa_loop env pn ps s).state.trace := by
  induction ps generalizing s with
  | nil => exact extends_by_refl _ _
  | cons p ps ih =>
    unfold kinit_pa_loop
    dsimp only
    split_ifs
    · exact extends_by_snoc _ (extends_by_one _ _ _ (by simp [pa_fns]))
        (by simp [pa_fns])
    · refine extends_by_trans ?_ (ih _)
      exact extends_by_say _ _ _ (extends_by_one _ _ _ (by simp [pa_fns]))
        (by simp [pa_fns])

theorem kinit_ccaches_extends (env : Krb5) (s : kinit_state) :
    extends_by ccaches_fns s.trace (kinit_ccaches env s).state.trace := by
  unfold kinit_ccaches
  dsimp only
  split_ifs <;> (try simp only [Flow.bind, Flow.state, kinit_state.log]) <;>
    (try split_ifs) <;> (try simp only [Flow.state, kinit_state.log]) <;>
    (repeat' (first
      | exact extends_by_refl _ _
      | refine extends_by_snoc _ ?_ ?_)) <;>
    simp [ccaches_fns]

theorem kinit_prompts_extends (env : Krb5) (pass : List Nat) (pcs : List prompt_call)
    (s : kinit_state) :
    extends_by [Fn.kinit_prompter] s.trace (kinit_prompts env pass pcs s).trace := by
  induction pcs generalizing s with
  | nil => exact extends_by_refl _ _
  | cons pc pcs ih =>
    unfold kinit_prompts
    exact extends_by_trans (extends_by_one _ _ _ (by simp)) (ih _)

@[simp] theorem kinit_prompts_opts (env : Krb5) (pass : List Nat) (pcs : List prompt_call)
    (s : kinit_state) : (kinit_prompts env pass pcs s).opts = s.opts := by
  induction pcs generalizing s with
  | nil => rfl
  | cons pc pcs ih => unfold kinit_prompts; rw [ih]; rfl

@[simp] theorem kinit_prompts_k5 (env : Krb5) (pass : List Nat) (pcs : List prompt_call)
    (s : kinit_state) : (kinit_prompts env pass pcs s).k5 = s.k5 := by
  induction pcs generalizing s with
  | nil => rfl
  | cons pc pcs ih => unfold kinit_prompts; rw [ih]; rfl

@[simp] theorem kinit_prompts_notix (env : Krb5) (pass : List Nat) (pcs : List prompt_call)
    (s : kinit_state) : (kinit_prompts env pass pcs s).notix = s.notix := by
  induction pcs generalizing s with
  | nil => rfl
  | cons pc pcs ih => unfold kinit_prompts; rw [ih]; rfl

@[simp] theorem kinit_prompts_mcc (env : Krb5) (pass : List Nat) (pcs : List prompt_call)
    (s : kinit_state) : (kinit_prompts env pass pcs s).mcc = s.mcc := by
  induction pcs generalizing s with
  | nil => rfl
  | cons pc pcs ih => unfold kinit_prompts; rw [ih]; rfl

@[simp] theorem kinit_prompts_options (env : Krb5) (pass : List Nat)
    (pcs : List prompt_call) (s : kinit_state) :
    (kinit_prompts env pass pcs s).options = s.options := by
  induction pcs generalizing s with
  | nil => rfl
  | cons pc pcs ih => unfold kinit_prompts; rw [ih]; rfl

theorem kinit_pa_loop_frame (env : Krb5) (pn : Option String)
    (ps : List krb5_gic_opt_pa_data) (s : kinit_state) :
    same_frame s (kinit_pa_loop env pn ps s).state := by
  induction ps generalizing s with
  | nil => exact same_frame_refl _
  | cons p ps ih =>
    unfold kinit_pa_loop
    dsimp only
    split_ifs
    · simp [same_frame]
    · refine same_frame_trans ?_ (ih _)
      simp [same_frame]

theorem kinit_ccaches_frame (env : Krb5) (s : kinit_state) :
    same_frame s (kinit_ccaches env s).state := by
  unfold kinit_ccaches
  dsimp only
  split_ifs <;> (try simp only [Flow.bind, Flow.state, kinit_state.log]) <;>
    (try split_ifs) <;> simp [same_frame]

theorem kinit_dispatch_extends (env : Krb5) (pass : List Nat) (s : kinit_state) :
    extends_by (acquire_fns s.opts.action) s.trace (kinit_dispatch env pass s).1.trace := by
  unfold kinit_dispatch
  have hp := kinit_prompts_extends env pass
    (env.password_prompts s.k5.me s.opts.starttime s.opts.service_name s.options) s
  split <;> rename_i ha
  · exact extends_by_snoc _ (extends_by_mono hp (by simp [acquire_fns, ha]))
      (by simp [acquire_fns, acquisition_fn, ha])
  · exact extends_by_one _ _ _ (by simp [acquire_fns, acquisition_fn, ha])
  · exact extends_by_one _ _ _ (by simp [acquire_fns, acquisition_fn, ha])
  · exact extends_by_one _ _ _ (by simp [acquire_fns, acquisition_fn, ha])

@[simp] theorem kinit_dispatch_opts (env : Krb5) (pass : List Nat) (s : kinit_state) :
    (kinit_dispatch env pass s).1.opts = s.opts := by
  unfold kinit_dispatch; split <;> simp

@[simp] theorem kinit_dispatch_k5 (env : Krb5) (pass : List Nat) (s : kinit_state) :
    (kinit_dispatch env pass s).1.k5 = s.k5 := by
  unfold kinit_dispatch; split <;> simp

@[simp] theorem kinit_dispatch_notix (env : Krb5) (pass : List Nat) (s : kinit_state) :
    (kinit_dispatch env pass s).1.notix = s.notix := by
  unfold kinit_dispatch; split <;> simp

@[simp] theorem kinit_dispatch_mcc (env : Krb5) (pass : List Nat) (s : kinit_state) :
    (kinit_dispatch env pass s).1.mcc = s.mcc := by
  unfold kinit_dispatch; split <;> simp

@[simp] theorem kinit_dispatch_options (env : Krb5) (pass : List Nat) (s : kinit_state) :
    (kinit_dispatch env pass s).1.options = s.options := by
  unfold kinit_dispatch; split <;> simp

theorem kinit_report_extends (env : Krb5) (pn : Option String) (s : kinit_state)
    (ret : krb5_error_code) :
    extends_by (acquire_fns s.opts.action) s.trace
      (kinit_report env pn s ret).state.trace := by
  unfold kinit_report
  split_ifs
  · exact extends_by_one _ _ _ (by simp [acquire_fns, password_incorrect])
  · exact extends_by_one _ _ _ (by simp [acquire_fns, while_doing])
  · exact extends_by_refl _ _

theorem kinit_report_frame (env : Krb5) (pn : Option String) (s : kinit_state)
    (ret : krb5_error_code) : same_frame s (kinit_report env pn s ret).state := by
  unfold kinit_report
  split_ifs <;> simp [same_frame]

theorem kinit_acquire_extends (env : Krb5) (pn : Option String) (pass : List Nat)
    (s : kinit_state) :
    extends_by (acquire_fns s.opts.action) s.trace
      (kinit_acquire env pn pass s).state.trace := by
  unfold kinit_acquire
  have h := kinit_report_extends env pn (kinit_dispatch env pass s).1
    (kinit_dispatch env pass s).2
  rw [kinit_dispatch_opts] at h
  exact extends_by_trans (kinit_dispatch_extends env pass s) h

theorem kinit_acquire_frame (env : Krb5) (pn : Option String) (pass : List Nat)
    (s : kinit_state) : same_frame s (kinit_acquire env pn pass s).state := by
  unfold kinit_acquire
  refine same_frame_trans ?_ (kinit_report_frame env pn _ _)
  simp [same_frame]

theorem kinit_commit_extends (env : Krb5) (pn : Option String) (s : kinit_state) :
    extends_by (commit_fns s.opts.action) s.trace (kinit_commit env pn s).state.trace := by
  unfold kinit_commit
  dsimp only
  split_ifs with h <;> (try simp only [Flow.state, kinit_state.log]) <;>
    (repeat' (first
      | exact extends_by_refl _ _
      | refine extends_by_say _ _ _ ?_ ?_
      | refine extends_by_snoc _ ?_ ?_)) <;>
    simp [commit_fns, com_err, h]

theorem kinit_switch_extends (env : Krb5) (pn : Option String) (s : kinit_state) :
    extends_by (switch_fns s.k5.switch_to_cache) s.trace
      (kinit_switch env pn s).state.trace := by
  unfold kinit_switch
  dsimp only
  split_ifs with h <;> (try simp only [Flow.state, kinit_state.log]) <;>
    (repeat' (first
      | exact extends_by_refl _ _
      | refine extends_by_snoc _ ?_ ?_)) <;>
    simp [switch_fns, com_err, h]

theorem kinit_cleanup_extends (s : kinit_state) :
    extends_by cleanup_fns s.trace (kinit_cleanup s).trace := by
  unfold kinit_cleanup
  dsimp only
  split_ifs <;> (try simp only [kinit_state.log]) <;>
    (repeat' (first
      | exact extends_by_refl _ _
      | refine extends_by_snoc _ ?_ ?_)) <;>
    simp [cleanup_fns]

/-! ## C9: the pre-authentication pairs -/

theorem Flow.state_next {σ : Type} (s : σ) : (Flow.next s).state = s := rfl

theorem Flow.state_cleanup {σ : Type} (s : σ) : (Flow.cleanup s).state = s := rfl

theorem Flow.bind_rest (env : Krb5) (pn : Option String) (pass : List Nat)
    (x : Flow kinit_state) :
    ((((x.bind (kinit_ccaches env)).bind (kinit_acquire env pn pass)).bind
      (kinit_commit env pn)).bind (kinit_switch env pn)) =
    x.bind (kinit_rest env pn pass) := by
  cases x <;> rfl

theorem kinit_body_eq (env : Krb5) (pn : Option String) (pass : List Nat)
    (s : kinit_state) :
    kinit_body env pn pass s =
      ((kinit_setup env pn s).bind (fun t => kinit_pa_loop env pn t.opts.pa_opts t)).bind
        (kinit_rest env pn pass) := by
  unfold kinit_body
  exact Flow.bind_rest env pn pass _

theorem calls_of_append (f : Fn) (a b : List Call) :
    calls_of f (a ++ b) = calls_of f a ++ calls_of f b := by
  simp [calls_of]

theorem calls_of_extends {fs : List Fn} {s t : List Call} (h : extends_by fs s t)
    (f : Fn) (hf : f ∉ fs) : calls_of f t = calls_of f s := by
  obtain ⟨l, rfl, h⟩ := h
  rw [calls_of_append]
  have : calls_of f l = [] := by
    simp only [calls_of, List.filter_eq_nil_iff, decide_eq_true_eq]
    intro c hc hfn
    exact hf (hfn ▸ h c hc)
  simp [this]

theorem not_called_extends {fs : List Fn} {s t : List Call} (h : extends_by fs s t)
    (f : Fn) (hf : f ∉ fs) (hs : ¬ called f s) : ¬ called f t := by
  rw [extends_by_called h f hf]
  exact hs

theorem kinit_commit_keeps (env : Krb5) (pn : Option String) (s : kinit_state) :
    (kinit_commit env pn s).state.opts = s.opts ∧
    (kinit_commit env pn s).state.k5 = s.k5 ∧
    (kinit_commit env pn s).state.notix = s.notix := by
  unfold kinit_commit
  dsimp only
  split_ifs <;> simp

theorem kinit_rest_spec (env : Krb5) (pn : Option String) (pass : List Nat)
    (s : kinit_state) :
    extends_by (ccaches_fns ++ acquire_fns s.opts.action ++ commit_fns s.opts.action ++
      switch_fns s.k5.switch_to_cache) s.trace (kinit_rest env pn pass s).state.trace := by
  unfold kinit_rest
  have h1 := kinit_ccaches_extends env s
  have f1 := kinit_ccaches_frame env s
  cases ha : kinit_ccaches env s with
  | cleanup t =>
    rw [ha] at h1
    exact extends_by_mono h1 (fun f hf => by simp_all)
  | next t =>
    rw [ha] at h1 f1
    simp only [Flow.bind, Flow.state] at h1 f1 ⊢
    have h2 := kinit_acquire_extends env pn pass t
    have f2 := kinit_acquire_frame env pn pass t
    rw [f1.1] at h2
    cases hb : kinit_acquire env pn pass t with
    | cleanup u =>
      rw [hb] at h2
      exact extends_by_trans (extends_by_mono h1 (fun f hf => by simp_all))
        (extends_by_mono h2 (fun f hf => by simp_all))
    | next u =>
      rw [hb] at h2 f2
      simp only [Flow.state] at h2 f2 ⊢
      have h3 := kinit_commit_extends env pn u
      rw [f2.1, f1.1] at h3
      have h123 := extends_by_trans
        (extends_by_trans (extends_by_mono h1 (g := ccaches_fns ++
          acquire_fns s.opts.action ++ commit_fns s.opts.action ++
          switch_fns s.k5.switch_to_cache) (fun f hf => by simp_all))
          (extends_by_mono h2 (fun f hf => by simp_all)))
        (extends_by_mono h3 (fun f hf => by simp_all))
      cases hc : kinit_commit env pn u with
      | cleanup v =>
        rw [hc] at h123
        exact h123
      | next v =>
        rw [hc] at h123
        simp only [Flow.state] at h123 ⊢
        have h4 := kinit_switch_extends env pn v
        have e4 : v.k5.switch_to_cache = s.k5.switch_to_cache := by
          have h5 := (kinit_commit_keeps env pn u).2.1
          rw [hc] at h5
          simp only [Flow.state] at h5
          rw [h5, f2.2.2.2.2.2.2, f1.2.2.2.2.2.2]
        rw [e4] at h4
        exact extends_by_trans h123 (extends_by_mono h4 (fun f hf => by simp_all))


theorem pa_calls_append (a b : List Call) : pa_calls (a ++ b) = pa_calls a ++ pa_calls b :=
  calls_of_append _ a b

theorem pa_applied_nil (ps : List krb5_gic_opt_pa_data) : pa_applied ps [] := by
  simp [pa_applied]

theorem pa_applied_cons (p : krb5_gic_opt_pa_data) (ps : List krb5_gic_opt_pa_data)
    (c : Call) (A : List Call) (hc : c.args = pa_args p) (h : pa_applied ps A)
    (hr : c.ret ≠ 0 → A = []) : pa_applied (p :: ps) (c :: A) := by
  obtain ⟨h1, h2⟩ := h
  refine ⟨by simp [hc, h1], ?_⟩
  intro i d hi hd
  cases i with
  | zero =>
    simp only [List.getElem?_cons_zero, Option.some.injEq] at hi
    subst hi
    simp [hr hd]
  | succ j =>
    simp only [List.getElem?_cons_succ] at hi
    simp [h2 j d hi hd]

theorem kinit_pa_loop_calls (env : Krb5) (pn : Option String)
    (ps : List krb5_gic_opt_pa_data) (s : kinit_state) :
    ∃ A, pa_calls (kinit_pa_loop env pn ps s).state.trace = pa_calls s.trace ++ A ∧
      pa_applied ps A ∧
      (kinit_pa_loop env pn ps s).post
        (fun _ => A.length = ps.length ∧ ∀ c ∈ A, c.ret = 0)
        (fun _ => ∃ c ∈ A, c.ret ≠ 0) := by
  induction ps generalizing s with
  | nil =>
    refine ⟨[], by simp [kinit_pa_loop], pa_applied_nil _, ?_⟩
    simp [kinit_pa_loop]
  | cons p ps ih =>
    unfold kinit_pa_loop
    dsimp only
    split_ifs with hr
    · refine ⟨[{ fn := Fn.krb5_get_init_creds_opt_set_pa, args := pa_args p,
                 ret := env.krb5_get_init_creds_opt_set_pa s.options p.attr p.value }],
        ?_, ?_, ?_⟩
      · simp [pa_calls, calls_of, pa_args, com_err]
      · exact pa_applied_cons p ps _ [] rfl (pa_applied_nil _) (fun _ => rfl)
      · simpa using hr
    · obtain ⟨A, h1, h2, h3⟩ := ih
        ({ s.log { fn := Fn.krb5_get_init_creds_opt_set_pa,
                   args := [Val.str (some p.attr), Val.str (some p.value)],
                   ret := env.krb5_get_init_creds_opt_set_pa s.options p.attr p.value } with
            options := { s.options with pa := s.options.pa ++ [p] } }.say
          "PA Option %s = %s\n" [Val.str (some p.attr), Val.str (some p.value)])
      refine ⟨{ fn := Fn.krb5_get_init_creds_opt_set_pa, args := pa_args p,
                ret := env.krb5_get_init_creds_opt_set_pa s.options p.attr p.value } :: A,
        ?_, ?_, ?_⟩
      · simp only [kinit_state.log] at h1 ⊢
        rw [h1, say_trace]
        simp only [pa_calls_append]
        have e1 : pa_calls (if s.opts.verbose ≠ 0 then
            [fprintf_stderr "PA Option %s = %s\n"
              [Val.str (some p.attr), Val.str (some p.value)]] else []) = [] := by
          split_ifs <;> simp [pa_calls, calls_of, fprintf_stderr]
        simp [e1, pa_calls, calls_of, pa_args]
      · exact pa_applied_cons p ps _ A rfl h2 (fun h => absurd h (by simpa using hr))
      · simp only [kinit_state.log] at h3 ⊢
        refine Flow.post_mono h3 (fun _ h => ?_) (fun _ h => ?_)
        · simp only [ne_eq, not_not] at hr
          refine ⟨by simp [h.1], ?_⟩
          intro c hc
          rcases List.mem_cons.1 hc with rfl | hc
          · exact hr
          · exact h.2 c hc
        · obtain ⟨c, hc, hc2⟩ := h
          exact ⟨c, List.mem_cons_of_mem _ hc, hc2⟩

theorem extends_by_forall {fs : List Fn} {t : List Call} (h : extends_by fs [] t)
    (P : Fn → Prop) (hP : ∀ f ∈ fs, P f) : ∀ c ∈ t, P c.fn := by
  obtain ⟨l, rfl, h⟩ := h
  intro c hc
  exact hP _ (h c (by simpa using hc))

@[simp] theorem kinit_cleanup_notix (s : kinit_state) :
    (kinit_cleanup s).notix = s.notix := by
  unfold kinit_cleanup
  dsimp only
  split_ifs <;> simp

@[simp] theorem kinit_cleanup_pwprompt (s : kinit_state) :
    (kinit_cleanup s).pwprompt = s.pwprompt := by
  unfold kinit_cleanup
  dsimp only
  split_ifs <;> simp

theorem setup_fns_sub (o : k_opts) : ∀ f ∈ setup_fns o, f ∈ setup_all := by
  intro f hf
  simp only [setup_fns, flags_fns, addresses_fns, flags_pac_fns, keytab_fns,
    List.mem_append, List.mem_cons, List.mem_singleton, List.not_mem_nil, or_false,
    List.mem_ite_nil_right] at hf
  simp only [setup_all, List.mem_cons, List.mem_singleton, List.not_mem_nil, or_false]
  tauto

theorem rest_fns_sub (o : k_opts) (sw : Int) :
    ∀ f ∈ ccaches_fns ++ acquire_fns o.action ++ commit_fns o.action ++ switch_fns sw,
      f ∈ rest_all := by
  intro f hf
  simp only [ccaches_fns, acquire_fns, commit_fns, switch_fns,
    List.mem_append, List.mem_cons, List.mem_singleton, List.not_mem_nil, or_false,
    List.mem_ite_nil_right] at hf
  simp only [rest_all, List.mem_cons, List.mem_singleton, List.not_mem_nil, or_false]
  cases ha : o.action <;> simp only [ha, acquisition_fn] at hf <;> tauto

theorem k5_kinit_pa_aux (env : Krb5) (pn : Option String) (pass : List Nat)
    (opts : k_opts) (k5 : k5_data) :
    pa_applied opts.pa_opts (pa_calls (k5_kinit env pn pass opts k5).trace) ∧
    ((∃ c ∈ pa_calls (k5_kinit env pn pass opts k5).trace, c.ret ≠ 0) →
      (∀ c ∈ (k5_kinit env pn pass opts k5).trace, c.fn.is_acquisition = false) ∧
      (k5_kinit env pn pass opts k5).retval = 0) ∧
    (∀ t, kinit_setup env pn { opts := opts, k5 := k5 } = Flow.next t →
      (∀ c ∈ pa_calls (k5_kinit env pn pass opts k5).trace, c.ret = 0) →
      (pa_calls (k5_kinit env pn pass opts k5).trace).length = opts.pa_opts.length) := by
  unfold k5_kinit
  rw [kinit_body_eq]
  obtain ⟨hs1, hs2⟩ := kinit_setup_spec env pn { opts := opts, k5 := k5 }
  have hset : ∀ f ∈ setup_all, f ≠ Fn.krb5_get_init_creds_opt_set_pa := by decide
  have hrest : ∀ f ∈ rest_all, f ≠ Fn.krb5_get_init_creds_opt_set_pa := by decide
  have hcl : Fn.krb5_get_init_creds_opt_set_pa ∉ cleanup_fns := by decide
  cases hs : kinit_setup env pn { opts := opts, k5 := k5 } with
  | cleanup t =>
    rw [hs] at hs1 hs2
    simp only [Flow.bind, Flow.state_next, Flow.state_cleanup] at hs1 hs2 ⊢
    have e1 : pa_calls (kinit_cleanup t).trace = [] := by
      unfold pa_calls
      rw [calls_of_extends (kinit_cleanup_extends t) _ hcl,
        calls_of_extends hs1 _ (fun h => hset _ (setup_fns_sub _ _ h) rfl)]
      rfl
    rw [e1]
    refine ⟨pa_applied_nil _, ?_, ?_⟩
    · simp
    · intro t ht
      cases ht
  | next t =>
    rw [hs] at hs1 hs2
    simp only [Flow.bind, Flow.state_next, Flow.state_cleanup] at hs1 hs2 ⊢
    have e0 : pa_calls t.trace = [] := by
      unfold pa_calls
      rw [calls_of_extends hs1 _ (fun h => hset _ (setup_fns_sub _ _ h) rfl)]
      rfl
    have eo : t.opts = opts := hs2.1
    obtain ⟨A, hA1, hA2, hA3⟩ := kinit_pa_loop_calls env pn t.opts.pa_opts t
    have hl1 := kinit_pa_loop_extends env pn t.opts.pa_opts t
    have hl2 := kinit_pa_loop_frame env pn t.opts.pa_opts t
    rw [e0, List.nil_append] at hA1
    rw [eo] at hA2
    cases hl : kinit_pa_loop env pn t.opts.pa_opts t with
    | cleanup u =>
      rw [hl] at hA1 hA3 hl1 hl2
      simp only [Flow.bind, Flow.state_next, Flow.state_cleanup, Flow.post] at hA1 hA3 hl1 hl2 ⊢
      have e1 : pa_calls (kinit_cleanup u).trace = A := by
        unfold pa_calls
        rw [calls_of_extends (kinit_cleanup_extends u) _ hcl]
        exact hA1
      rw [e1]
      refine ⟨hA2, fun _ => ⟨?_, ?_⟩, fun t2 _ hall => ?_⟩
      · have hx : extends_by (setup_all ++ pa_fns ++ cleanup_fns) []
            (kinit_cleanup u).trace :=
          extends_by_trans
            (extends_by_trans
              (extends_by_mono hs1 (fun f hf => by
                simp [setup_fns_sub _ f hf]))
              (extends_by_mono hl1 (fun f hf => by simp [hf])))
            (extends_by_mono (kinit_cleanup_extends u) (fun f hf => by simp [hf]))
        exact extends_by_forall hx (fun f => f.is_acquisition = false) (by decide)
      · simp [kinit_state.retval, hl2.2.1, hs2.2.1]
      · obtain ⟨c, hc, hc2⟩ := hA3
        exact absurd (hall c hc) hc2
    | next u =>
      rw [hl] at hA1 hA3 hl1 hl2
      simp only [Flow.bind, Flow.state_next, Flow.state_cleanup, Flow.post] at hA1 hA3 hl1 hl2 ⊢
      have hr := kinit_rest_spec env pn pass u
      have e1 : pa_calls (kinit_cleanup (kinit_rest env pn pass u).state).trace = A := by
        unfold pa_calls
        rw [calls_of_extends (kinit_cleanup_extends _) _ hcl,
          calls_of_extends hr _ (fun h => hrest _ (rest_fns_sub _ _ _ h) rfl)]
        exact hA1
      rw [e1]
      refine ⟨hA2, fun hex => ?_, fun _ _ _ => eo ▸ hA3.1⟩
      obtain ⟨c, hc, hc2⟩ := hex
      exact absurd (hA3.2 c hc) hc2


/-- C9: the calls of `krb5_get_init_creds_opt_set_pa` that `k5_kinit` makes
are attempts on a prefix of the caller's list of pairs, in the caller's
order, one call per pair; if the call for the pair at index `i` fails, it is
the last one (exactly the pairs at indices `0..i` were attempted), no
acquisition call is made and `k5_kinit` returns `0`; and when the loop is
reached and no call fails, every pair is applied. -/
theorem k5_kinit_pa_order (env : Krb5) (pn : Option String) (pass : List Nat)
    (opts : k_opts) (k5 : k5_data) :
    (pa_calls (k5_kinit env pn pass opts k5).trace).map (fun c => c.args) =
      (opts.pa_opts.take (pa_calls (k5_kinit env pn pass opts k5).trace).length).map
        pa_args ∧
    (∀ i c, (pa_calls (k5_kinit env pn pass opts k5).trace)[i]? = some c → c.ret ≠ 0 →
      (pa_calls (k5_kinit env pn pass opts k5).trace).length = i + 1 ∧
      (∀ d ∈ (k5_kinit env pn pass opts k5).trace, d.fn.is_acquisition = false) ∧
      (k5_kinit env pn pass opts k5).retval = 0) ∧
    (∀ t, kinit_setup env pn { opts := opts, k5 := k5 } = Flow.next t →
      (∀ c ∈ pa_calls (k5_kinit env pn pass opts k5).trace, c.ret = 0) →
      (pa_calls (k5_kinit env pn pass opts k5).trace).map (fun c => c.args) =
        opts.pa_opts.map pa_args) := by
  obtain ⟨⟨h1, h2⟩, h3, h4⟩ := k5_kinit_pa_aux env pn pass opts k5
  refine ⟨h1, fun i c hi hc => ⟨h2 i c hi hc, h3 ⟨c, List.getElem?_mem hi, hc⟩⟩,
    fun t ht hall => ?_⟩
  rw [h1, h4 t ht hall, List.take_length]

/-- C9 (witness): of three pairs the second is rejected; two calls are made,
no acquisition follows and `k5_kinit` returns `0`. -/
theorem k5_kinit_pa_order_witness :
    (pa_calls (k5_kinit env_pa none [] opts_pa k5_ready).trace).length = 1 + 1 ∧
    (∀ d ∈ (k5_kinit env_pa none [] opts_pa k5_ready).trace, d.fn.is_acquisition = false) ∧
    (k5_kinit env_pa none [] opts_pa k5_ready).retval = 0 :=
  (k5_kinit_pa_order env_pa none [] opts_pa k5_ready).2.1 1
    { fn := Fn.krb5_get_init_creds_opt_set_pa, args := pa_args ⟨"bad", "2"⟩, ret := 7 }
    (by decide) (by decide)

/-! ## C8: the request option builder -/

theorem setopt_tkt_life (s : kinit_state) (cond : Prop) [Decidable cond] (c : Call)
    (f : krb5_get_init_creds_opt → krb5_get_init_creds_opt) :
    (s.setopt cond c f).options.tkt_life =
      if cond then (f s.options).tkt_life else s.options.tkt_life := by
  unfold kinit_state.setopt; split_ifs <;> rfl

theorem setopt_renew_life (s : kinit_state) (cond : Prop) [Decidable cond] (c : Call)
    (f : krb5_get_init_creds_opt → krb5_get_init_creds_opt) :
    (s.setopt cond c f).options.renew_life =
      if cond then (f s.options).renew_life else s.options.renew_life := by
  unfold kinit_state.setopt; split_ifs <;> rfl

theorem setopt_forwardable (s : kinit_state) (cond : Prop) [Decidable cond] (c : Call)
    (f : krb5_get_init_creds_opt → krb5_get_init_creds_opt) :
    (s.setopt cond c f).options.forwardable =
      if cond then (f s.options).forwardable else s.options.forwardable := by
  unfold kinit_state.setopt; split_ifs <;> rfl

theorem setopt_proxiable (s : kinit_state) (cond : Prop) [Decidable cond] (c : Call)
    (f : krb5_get_init_creds_opt → krb5_get_init_creds_opt) :
    (s.setopt cond c f).options.proxiable =
      if cond then (f s.options).proxiable else s.options.proxiable := by
  unfold kinit_state.setopt; split_ifs <;> rfl

theorem setopt_pac_request (s : kinit_state) (cond : Prop) [Decidable cond] (c : Call)
    (f : krb5_get_init_creds_opt → krb5_get_init_creds_opt) :
    (s.setopt cond c f).options.pac_request =
      if cond then (f s.options).pac_request else s.options.pac_request := by
  unfold kinit_state.setopt; split_ifs <;> rfl

theorem kinit_flags_fields (s : kinit_state) :
    opt_fields (kinit_flags s).options =
      (if s.opts.lifetime ≠ 0 then some s.opts.lifetime else s.options.tkt_life,
       if s.opts.rlife ≠ 0 then some s.opts.rlife else s.options.renew_life,
       if s.opts.not_forwardable ≠ 0 then some 0
         else if s.opts.forwardable ≠ 0 then some 1 else s.options.forwardable,
       if s.opts.not_proxiable ≠ 0 then some 0
         else if s.opts.proxiable ≠ 0 then some 1 else s.options.proxiable,
       s.options.pac_request) := by
  unfold kinit_flags opt_fields
  simp only [setopt_tkt_life, setopt_renew_life, setopt_forwardable, setopt_proxiable,
    setopt_pac_request, ite_self]

theorem kinit_flags_pac_fields (s : kinit_state) :
    opt_fields (kinit_flags_pac s).options =
      (s.options.tkt_life, s.options.renew_life, s.options.forwardable,
       s.options.proxiable,
       if s.opts.not_request_pac ≠ 0 then some false
         else if s.opts.request_pac ≠ 0 then some true else s.options.pac_request) := by
  unfold kinit_flags_pac opt_fields
  simp only [setopt_tkt_life, setopt_renew_life, setopt_forwardable, setopt_proxiable,
    setopt_pac_request, ite_self]

theorem kinit_addresses_fields (env : Krb5) (pn : Option String) (s : kinit_state) :
    opt_fields (kinit_addresses env pn s).state.options = opt_fields s.options := by
  unfold kinit_addresses opt_fields
  dsimp only
  split_ifs <;>
    simp [setopt_tkt_life, setopt_renew_life, setopt_forwardable, setopt_proxiable,
      setopt_pac_request]

theorem kinit_keytab_named_options (env : Krb5) (pn : Option String) (nm : String)
    (s : kinit_state) : (kinit_keytab_named env pn nm s).state.options = s.options := by
  unfold kinit_keytab_named
  dsimp only
  split_ifs <;> (try simp only [Flow.bind, kinit_state.log]) <;> simp

theorem kinit_keytab_options (env : Krb5) (pn : Option String) (s : kinit_state) :
    (kinit_keytab env pn s).state.options = s.options := by
  unfold kinit_keytab
  dsimp only
  split
  · split_ifs
    · exact kinit_keytab_named_options env pn _ s
    · rfl
  · split_ifs <;> simp

theorem kinit_pa_loop_fields (env : Krb5) (pn : Option String)
    (ps : List krb5_gic_opt_pa_data) (s : kinit_state) :
    opt_fields (kinit_pa_loop env pn ps s).state.options = opt_fields s.options := by
  induction ps generalizing s with
  | nil => rfl
  | cons p ps ih =>
    unfold kinit_pa_loop
    dsimp only
    split_ifs
    · rfl
    · rw [ih]
      simp [opt_fields]

theorem kinit_ccaches_fields (env : Krb5) (s : kinit_state) :
    opt_fields (kinit_ccaches env s).state.options = opt_fields s.options := by
  unfold kinit_ccaches opt_fields
  dsimp only
  split_ifs <;> (try simp only [Flow.bind, kinit_state.log]) <;>
    (try split_ifs) <;> simp

theorem options_built_iff (o : k_opts) (r : krb5_get_init_creds_opt) :
    options_built o r ↔
      opt_fields r =
        (if o.lifetime ≠ 0 then some o.lifetime else none,
         if o.rlife ≠ 0 then some o.rlife else none,
         if o.not_forwardable ≠ 0 then some 0
           else if o.forwardable ≠ 0 then some 1 else none,
         if o.not_proxiable ≠ 0 then some 0 else if o.proxiable ≠ 0 then some 1 else none,
         if o.not_request_pac ≠ 0 then some false
           else if o.request_pac ≠ 0 then some true else none) := by
  simp only [options_built, opt_fields, Prod.mk.injEq]

theorem kinit_setup_options (env : Krb5) (pn : Option String) (s t : kinit_state)
    (h : kinit_setup env pn s = Flow.next t) : options_built s.opts t.options := by
  unfold kinit_setup at h
  cases ha : kinit_alloc env s with
  | cleanup t1 => rw [ha] at h; cases h
  | next t1 =>
    rw [ha] at h
    simp only [Flow.bind] at h
    have e1 : t1.options = {} ∧ t1.opts = s.opts := by
      unfold kinit_alloc at ha
      dsimp only at ha
      split_ifs at ha
      cases ha
      exact ⟨rfl, rfl⟩
    cases hb : kinit_addresses env pn (kinit_flags t1) with
    | cleanup t2 => rw [hb] at h; cases h
    | next t2 =>
      rw [hb] at h
      simp only at h
      have f2 := kinit_addresses_fields env pn (kinit_flags t1)
      have g2 := (kinit_addresses_frame env pn (kinit_flags t1)).1
      rw [hb] at f2 g2
      simp only [Flow.state_next] at f2 g2
      have f3 := kinit_keytab_options env pn (kinit_flags_pac t2)
      rw [h] at f3
      simp only [Flow.state_next] at f3
      rw [options_built_iff, f3, kinit_flags_pac_fields]
      have f4 := kinit_flags_fields t1
      rw [← f2] at f4
      simp only [opt_fields, Prod.mk.injEq] at f4
      obtain ⟨a1, a2, a3, a4, a5⟩ := f4
      have eo : t2.opts = s.opts := by
        rw [g2, (kinit_flags_frame t1).1, e1.2]
      rw [a1, a2, a3, a4, a5, eo, e1.2, e1.1]


theorem Flow.post_of_state {σ : Type} {f : Flow σ} {I Q : σ → Prop}
    (h1 : ∀ t, f = Flow.next t → I t) (h2 : Q f.state) :
    f.post I Q := by
  cases f with
  | next t => exact h1 t rfl
  | cleanup t => exact h2

theorem acq_opts_ok_nil (P : krb5_get_init_creds_opt → Prop) : acq_opts_ok P [] := by
  simp [acq_opts_ok]

theorem acq_opts_ok_extends {P : krb5_get_init_creds_opt → Prop} {fs : List Fn}
    {s t : List Call} (h : extends_by fs s t)
    (h1 : Fn.krb5_get_init_creds_password ∉ fs) (h2 : Fn.krb5_get_init_creds_keytab ∉ fs)
    (hs : acq_opts_ok P s) : acq_opts_ok P t := by
  obtain ⟨l, rfl, h⟩ := h
  intro c hc hf o ho
  rcases List.mem_append.1 hc with hc | hc
  · exact hs c hc hf o ho
  · rcases hf with hf | hf
    · exact absurd (hf ▸ h c hc) h1
    · exact absurd (hf ▸ h c hc) h2

theorem acq_opts_ok_snoc {P : krb5_get_init_creds_opt → Prop} {s : List Call} (c : Call)
    (hs : acq_opts_ok P s) (hc : ∀ o, Val.options o ∈ c.args → P o) :
    acq_opts_ok P (s ++ [c]) := by
  intro d hd hf o ho
  rcases List.mem_append.1 hd with hd | hd
  · exact hs d hd hf o ho
  · simp only [List.mem_singleton] at hd
    subst hd
    exact hc o ho

theorem kinit_dispatch_acq_opts (env : Krb5) (pass : List Nat)
    (P : krb5_get_init_creds_opt → Prop) (s : kinit_state)
    (h1 : acq_opts_ok P s.trace) (h2 : P s.options) :
    acq_opts_ok P (kinit_dispatch env pass s).1.trace := by
  unfold kinit_dispatch
  have hp := kinit_prompts_extends env pass
    (env.password_prompts s.k5.me s.opts.starttime s.opts.service_name s.options) s
  split
  · refine acq_opts_ok_snoc _ (acq_opts_ok_extends hp (by decide) (by decide) h1) ?_
    intro o ho
    simp at ho
    exact ho ▸ h2
  · refine acq_opts_ok_snoc _ h1 ?_
    intro o ho
    simp at ho
    exact ho ▸ h2
  · refine acq_opts_ok_snoc _ h1 ?_
    intro o ho
    simp at ho
  · refine acq_opts_ok_snoc _ h1 ?_
    intro o ho
    simp at ho

theorem kinit_report_acq_opts (env : Krb5) (pn : Option String)
    (P : krb5_get_init_creds_opt → Prop) (s : kinit_state) (ret : krb5_error_code)
    (h1 : acq_opts_ok P s.trace) :
    acq_opts_ok P (kinit_report env pn s ret).state.trace := by
  unfold kinit_report
  split_ifs
  · exact acq_opts_ok_snoc _ h1 (by simp [password_incorrect])
  · exact acq_opts_ok_snoc _ h1 (by simp [while_doing])
  · exact h1

/-- Before the acquisition call: the options are built and no initial
acquisition call was made. -/
theorem kinit_front_acq_opts (env : Krb5) (pn : Option String) (pass : List Nat)
    (opts : k_opts) (k5 : k5_data) :
    acq_opts_ok (options_built opts) (k5_kinit env pn pass opts k5).trace := by
  have hset1 : ∀ f ∈ setup_all, f ≠ Fn.krb5_get_init_creds_password := by decide
  have hset2 : ∀ f ∈ setup_all, f ≠ Fn.krb5_get_init_creds_keytab := by decide
  unfold k5_kinit
  refine acq_opts_ok_extends (kinit_cleanup_extends _) (by decide) (by decide) ?_
  suffices h : (kinit_body env pn pass { opts := opts, k5 := k5 }).post
      (fun s => acq_opts_ok (options_built opts) s.trace)
      (fun s => acq_opts_ok (options_built opts) s.trace) from Flow.post_state h
  unfold kinit_body
  obtain ⟨hs1, hs2⟩ := kinit_setup_spec env pn { opts := opts, k5 := k5 }
  have hs3 : acq_opts_ok (options_built opts)
      (kinit_setup env pn { opts := opts, k5 := k5 }).state.trace :=
    acq_opts_ok_extends hs1 (fun h => hset1 _ (setup_fns_sub _ _ h) rfl)
      (fun h => hset2 _ (setup_fns_sub _ _ h) rfl) (acq_opts_ok_nil _)
  refine Flow.post_bind (I := fun s => acq_opts_ok (options_built opts) s.trace) ?_
    (fun t ht => ?_)
  refine Flow.post_bind (I := fun s => acq_opts_ok (options_built opts) s.trace) ?_
    (fun t ht => ?_)
  refine Flow.post_bind (I := fun t => t.opts = opts ∧ options_built opts t.options ∧
      acq_opts_ok (options_built opts) t.trace) ?_ (fun t ht => ?_)
  refine Flow.post_bind (I := fun t => t.opts = opts ∧ options_built opts t.options ∧
      acq_opts_ok (options_built opts) t.trace) ?_ (fun t ht => ?_)
  refine Flow.post_bind (I := fun t => t.opts = opts ∧ options_built opts t.options ∧
      acq_opts_ok (options_built opts) t.trace) ?_ (fun t ht => ?_)
  · refine Flow.post_of_state (fun t ht => ?_) hs3
    rw [ht] at hs2 hs3
    exact ⟨hs2.1, kinit_setup_options env pn _ t ht, hs3⟩
  · obtain ⟨h1, h2, h3⟩ := ht
    have e1 := kinit_pa_loop_extends env pn t.opts.pa_opts t
    have e2 := kinit_pa_loop_frame env pn t.opts.pa_opts t
    have e3 := kinit_pa_loop_fields env pn t.opts.pa_opts t
    have e4 := acq_opts_ok_extends e1 (by decide) (by decide) h3
    refine Flow.post_of_state (fun u hu => ?_) e4
    rw [hu] at e2 e3 e4
    simp only [Flow.state_next] at e2 e3 e4
    exact ⟨e2.1.trans h1, (options_built_iff _ _).2
      (e3.trans ((options_built_iff _ _).1 h2)), e4⟩
  · obtain ⟨h1, h2, h3⟩ := ht
    have e1 := kinit_ccaches_extends env t
    have e2 := kinit_ccaches_frame env t
    have e3 := kinit_ccaches_fields env t
    have e4 := acq_opts_ok_extends e1 (by decide) (by decide) h3
    refine Flow.post_of_state (fun u hu => ?_) e4
    rw [hu] at e2 e3 e4
    simp only [Flow.state_next] at e2 e3 e4
    exact ⟨e2.1.trans h1, (options_built_iff _ _).2
      (e3.trans ((options_built_iff _ _).1 h2)), e4⟩
  · obtain ⟨h1, h2, h3⟩ := ht
    have e1 : acq_opts_ok (options_built opts) (kinit_acquire env pn pass t).state.trace := by
      unfold kinit_acquire
      exact kinit_report_acq_opts env pn _ _ _ (kinit_dispatch_acq_opts env pass _ t h3 h2)
    exact Flow.post_of_state (fun u hu => by rw [hu] at e1; exact e1) e1
  · have e1 := kinit_commit_extends env pn t
    have e2 : acq_opts_ok (options_built opts) (kinit_commit env pn t).state.trace := by
      refine acq_opts_ok_extends e1 ?_ ?_ ht <;>
        (unfold commit_fns; split_ifs <;> decide)
    exact Flow.post_of_state (fun u hu => by rw [hu] at e2; exact e2) e2
  · have e1 := kinit_switch_extends env pn t
    have e2 : acq_opts_ok (options_built opts) (kinit_switch env pn t).state.trace := by
      refine acq_opts_ok_extends e1 ?_ ?_ ht <;>
        (unfold switch_fns; split_ifs <;> decide)
    exact Flow.post_of_state (fun u hu => by rw [hu] at e2; exact e2) e2


theorem k5_kinit_extends (env : Krb5) (pn : Option String) (pass : List Nat)
    (opts : k_opts) (k5 : k5_data) :
    extends_by (kinit_fns opts k5) [] (k5_kinit env pn pass opts k5).trace := by
  unfold k5_kinit
  refine extends_by_trans ?_
    (extends_by_mono (kinit_cleanup_extends _) (fun f hf => by simp [kinit_fns, hf]))
  rw [kinit_body_eq]
  obtain ⟨hs1, hs2⟩ := kinit_setup_spec env pn { opts := opts, k5 := k5 }
  have hs1m := extends_by_mono hs1 (g := kinit_fns opts k5)
    (fun f hf => by simp only [kinit_fns, front_fns, List.mem_append]; tauto)
  cases hs : kinit_setup env pn { opts := opts, k5 := k5 } with
  | cleanup t =>
    rw [hs] at hs1m
    exact hs1m
  | next t =>
    rw [hs] at hs1m hs2
    simp only [Flow.bind, Flow.state_next] at hs1m hs2 ⊢
    have hl1 := extends_by_mono (kinit_pa_loop_extends env pn t.opts.pa_opts t)
      (g := kinit_fns opts k5)
      (fun f hf => by simp only [kinit_fns, front_fns, List.mem_append]; tauto)
    have hl2 := kinit_pa_loop_frame env pn t.opts.pa_opts t
    cases hl : kinit_pa_loop env pn t.opts.pa_opts t with
    | cleanup u =>
      rw [hl] at hl1
      exact extends_by_trans hs1m hl1
    | next u =>
      rw [hl] at hl1 hl2
      simp only [Flow.bind, Flow.state_next] at hl1 hl2 ⊢
      have hr := kinit_rest_spec env pn pass u
      have eo : u.opts = opts := hl2.1.trans hs2.1
      have ek : u.k5.switch_to_cache = k5.switch_to_cache :=
        hl2.2.2.2.2.2.2.trans hs2.2.2.2.2.2.2
      rw [eo, ek] at hr
      exact extends_by_trans (extends_by_trans hs1m hl1)
        (extends_by_mono hr
          (fun f hf => by
            simp only [kinit_fns, front_fns, List.mem_append] at hf ⊢; tauto))

theorem k5_kinit_not_called (env : Krb5) (pn : Option String) (pass : List Nat)
    (opts : k_opts) (k5 : k5_data) (f : Fn) (hf : f ∉ kinit_fns opts k5) :
    ¬ called f (k5_kinit env pn pass opts k5).trace :=
  not_called_extends (k5_kinit_extends env pn pass opts k5) f hf (by simp)

theorem kinit_fns_flag (o : k_opts) (k5 : k5_data) (f : Fn)
    (h1 : f ∉ flags_fns o ++ flags_pac_fns o)
    (h2 : f ∈ [Fn.krb5_get_init_creds_opt_set_tkt_life,
      Fn.krb5_get_init_creds_opt_set_renew_life, Fn.krb5_get_init_creds_opt_set_forwardable,
      Fn.krb5_get_init_creds_opt_set_proxiable, Fn.krb5_get_init_creds_opt_set_pac_request]) :
    f ∉ kinit_fns o k5 := by
  intro h
  simp only [kinit_fns, front_fns, setup_fns, List.mem_append, List.mem_cons] at h
  have hr : ∀ g ∈ rest_all, g ∉ [Fn.krb5_get_init_creds_opt_set_tkt_life,
      Fn.krb5_get_init_creds_opt_set_renew_life, Fn.krb5_get_init_creds_opt_set_forwardable,
      Fn.krb5_get_init_creds_opt_set_proxiable,
      Fn.krb5_get_init_creds_opt_set_pac_request] := by decide
  have hrest := rest_fns_sub o k5.switch_to_cache f
  simp only [List.mem_append] at hrest h1
  have ho : ∀ g ∈ [Fn.krb5_get_init_creds_opt_alloc] ++ addresses_fns ++ keytab_fns ++
      pa_fns ++ cleanup_fns, g ∉ [Fn.krb5_get_init_creds_opt_set_tkt_life,
      Fn.krb5_get_init_creds_opt_set_renew_life, Fn.krb5_get_init_creds_opt_set_forwardable,
      Fn.krb5_get_init_creds_opt_set_proxiable,
      Fn.krb5_get_init_creds_opt_set_pac_request] := by decide
  have ho2 := ho f
  simp only [List.mem_append, List.mem_singleton] at ho2
  have hr2 := hr f
  tauto

/-- C8: the request options `k5_kinit` passes to an initial acquisition call
have each lifetime set exactly when it is non-zero and, for each of the pairs
forwardable, proxiable and request-pac, the field false when the negative
flag is set (also when both flags are set), true when only the positive flag
is set, and not written when neither is set; in a run with neither flag of a
pair set, or with a zero lifetime, the setter is never called. -/
theorem k5_kinit_option_mapping (env : Krb5) (pn : Option String) (pass : List Nat)
    (opts : k_opts) (k5 : k5_data) :
    (∀ c ∈ (k5_kinit env pn pass opts k5).trace,
      c.fn = Fn.krb5_get_init_creds_password ∨ c.fn = Fn.krb5_get_init_creds_keytab →
      ∀ o, Val.options o ∈ c.args → options_built opts o) ∧
    (opts.forwardable = 0 → opts.not_forwardable = 0 →
      ¬ called Fn.krb5_get_init_creds_opt_set_forwardable
        (k5_kinit env pn pass opts k5).trace) ∧
    (opts.proxiable = 0 → opts.not_proxiable = 0 →
      ¬ called Fn.krb5_get_init_creds_opt_set_proxiable
        (k5_kinit env pn pass opts k5).trace) ∧
    (opts.request_pac = 0 → opts.not_request_pac = 0 →
      ¬ called Fn.krb5_get_init_creds_opt_set_pac_request
        (k5_kinit env pn pass opts k5).trace) ∧
    (opts.lifetime = 0 →
      ¬ called Fn.krb5_get_init_creds_opt_set_tkt_life
        (k5_kinit env pn pass opts k5).trace) ∧
    (opts.rlife = 0 →
      ¬ called Fn.krb5_get_init_creds_opt_set_renew_life
        (k5_kinit env pn pass opts k5).trace) := by
  refine ⟨kinit_front_acq_opts env pn pass opts k5, fun h1 h2 => ?_, fun h1 h2 => ?_,
    fun h1 h2 => ?_, fun h1 => ?_, fun h1 => ?_⟩ <;>
  · refine k5_kinit_not_called env pn pass opts k5 _
      (kinit_fns_flag opts k5 _ ?_ (by decide))
    simp only [flags_fns, flags_pac_fns, List.mem_append, List.mem_cons,
      List.mem_singleton, List.mem_ite_nil_right, List.not_mem_nil]
    simp_all

/-- C8 (witness): with both the forwardable and the not-forwardable flag set,
the password acquisition call is passed options with forwardable false. -/
theorem k5_kinit_option_mapping_witness :
    options_built opts_fwd { forwardable := some 0, out_ccache := some (some 1) } :=
  (k5_kinit_option_mapping env_same none [] opts_fwd k5_ready).1
    { fn := Fn.krb5_get_init_creds_password,
      args := [Val.ptr (some 7), Val.int 0, Val.int 0, Val.str none,
               Val.options { forwardable := some 0, out_ccache := some (some 1) }],
      ret := 0, out := Val.creds ⟨some 7, 1⟩ }
    (by decide) (Or.inl rfl) _ (by decide)

/-! ## C4: the message for a likely wrong password -/

theorem Flow.bind_tail (env : Krb5) (pn : Option String) (pass : List Nat)
    (x : Flow kinit_state) :
    (((x.bind (kinit_acquire env pn pass)).bind (kinit_commit env pn)).bind
      (kinit_switch env pn)) =
    x.bind (fun v => ((kinit_acquire env pn pass v).bind (kinit_commit env pn)).bind
      (kinit_switch env pn)) := by
  cases x <;> rfl

theorem kinit_body_pre (env : Krb5) (pn : Option String) (pass : List Nat)
    (s : kinit_state) :
    kinit_body env pn pass s =
      (kinit_pre env pn s).bind
        (fun v => ((kinit_acquire env pn pass v).bind (kinit_commit env pn)).bind
          (kinit_switch env pn)) := by
  unfold kinit_body kinit_pre
  exact Flow.bind_tail env pn pass _

theorem kinit_pre_spec (env : Krb5) (pn : Option String) (s : kinit_state) :
    extends_by pre_all s.trace (kinit_pre env pn s).state.trace ∧
    same_frame s (kinit_pre env pn s).state := by
  unfold kinit_pre
  obtain ⟨hs1, hs2⟩ := kinit_setup_spec env pn s
  have hs1m := extends_by_mono hs1 (g := pre_all)
    (fun f hf => by simp [pre_all, setup_fns_sub _ f hf])
  cases hs : kinit_setup env pn s with
  | cleanup t =>
    rw [hs] at hs1m hs2
    exact ⟨hs1m, hs2⟩
  | next t =>
    rw [hs] at hs1m hs2
    simp only [Flow.bind, Flow.state_next] at hs1m hs2 ⊢
    have hl1 := extends_by_mono (kinit_pa_loop_extends env pn t.opts.pa_opts t)
      (g := pre_all) (fun f hf => by simp [pre_all, hf])
    have hl2 := kinit_pa_loop_frame env pn t.opts.pa_opts t
    cases hl : kinit_pa_loop env pn t.opts.pa_opts t with
    | cleanup u =>
      rw [hl] at hl1 hl2
      exact ⟨extends_by_trans hs1m hl1, same_frame_trans hs2 hl2⟩
    | next u =>
      rw [hl] at hl1 hl2
      simp only [Flow.bind, Flow.state_next] at hl1 hl2 ⊢
      have hc1 := extends_by_mono (kinit_ccaches_extends env u)
        (g := pre_all) (fun f hf => by simp [pre_all, hf])
      have hc2 := kinit_ccaches_frame env u
      exact ⟨extends_by_trans (extends_by_trans hs1m hl1) hc1,
        same_frame_trans (same_frame_trans hs2 hl2) hc2⟩

theorem kinit_dispatch_trace (env : Krb5) (pass : List Nat) (s : kinit_state) :
    ∃ P c, (kinit_dispatch env pass s).1.trace = (s.trace ++ P) ++ [c] ∧
      (∀ d ∈ P, d.fn = Fn.kinit_prompter) ∧ c.fn.is_acquisition = true ∧
      c.ret = (kinit_dispatch env pass s).2 := by
  unfold kinit_dispatch
  obtain ⟨P, hP1, hP2⟩ := kinit_prompts_extends env pass
    (env.password_prompts s.k5.me s.opts.starttime s.opts.service_name s.options) s
  split
  · exact ⟨P, ⟨Fn.krb5_get_init_creds_password, _, _, _⟩, by dsimp only; rw [hP1],
      fun d hd => by simpa using hP2 d hd, rfl, rfl⟩
  · exact ⟨[], ⟨Fn.krb5_get_init_creds_keytab, _, _, _⟩, by rw [List.append_nil],
      by simp, rfl, rfl⟩
  · exact ⟨[], ⟨Fn.krb5_get_validated_creds, _, _, _⟩, by rw [List.append_nil],
      by simp, rfl, rfl⟩
  · exact ⟨[], ⟨Fn.krb5_get_renewed_creds, _, _, _⟩, by rw [List.append_nil],
      by simp, rfl, rfl⟩

@[simp] theorem kinit_report_pwprompt (env : Krb5) (pn : Option String) (s : kinit_state)
    (ret : krb5_error_code) : (kinit_report env pn s ret).state.pwprompt = s.pwprompt := by
  unfold kinit_report
  split_ifs <;> rfl


theorem kinit_report_trace (env : Krb5) (pn : Option String) (s : kinit_state)
    (ret : krb5_error_code) (h : ret ≠ 0) :
    ∃ msg, kinit_report env pn s ret = Flow.cleanup (s.log msg) ∧
      (wrong_secret env ret s.pwprompt → msg = password_incorrect pn s.opts.action) ∧
      (¬ wrong_secret env ret s.pwprompt → msg = while_doing pn ret s.opts.action) := by
  unfold kinit_report wrong_secret
  rw [if_pos h]
  by_cases hc : ret = env.KRB5KRB_AP_ERR_BAD_INTEGRITY ∨
      (s.pwprompt = true ∧ ret = env.KRB5KDC_ERR_PREAUTH_FAILED)
  · exact ⟨_, by rw [if_pos hc], fun _ => rfl, fun h => absurd hc h⟩
  · exact ⟨_, by rw [if_neg hc], fun h => absurd h hc, fun _ => rfl⟩

theorem kinit_report_ok (env : Krb5) (pn : Option String) (s : kinit_state) :
    kinit_report env pn s 0 = Flow.next s := by
  unfold kinit_report
  simp

theorem kinit_cleanup_trace (s : kinit_state) :
    ∃ post, (kinit_cleanup s).trace = s.trace ++ post ∧
      ∀ d ∈ post, d.fn ∈ cleanup_fns :=
  kinit_cleanup_extends s

theorem extends_by_not_acq {fs : List Fn} {s t : List Call} (h : extends_by fs s t)
    (hfs : ∀ f ∈ fs, f.is_acquisition = false)
    (hs : ∀ c ∈ s, c.fn.is_acquisition = false) :
    ∀ c ∈ t, c.fn.is_acquisition = false := by
  obtain ⟨l, rfl, hl⟩ := h
  intro c hc
  rcases List.mem_append.1 hc with hc | hc
  · exact hs c hc
  · exact hfs _ (hl c hc)

theorem pre_all_not_acq : ∀ f ∈ pre_all, f.is_acquisition = false := by decide

theorem commit_fns_not_acq (a : action_type) :
    ∀ f ∈ commit_fns a, f.is_acquisition = false := by
  cases a <;> decide

theorem switch_fns_not_acq (sw : Int) : ∀ f ∈ switch_fns sw, f.is_acquisition = false := by
  unfold switch_fns
  split_ifs <;> decide

theorem cleanup_fns_not_acq : ∀ f ∈ cleanup_fns, f.is_acquisition = false := by decide

theorem kinit_alloc_pwprompt (env : Krb5) (s : kinit_state) :
    (kinit_alloc env s).state.pwprompt = s.pwprompt := by
  unfold kinit_alloc
  dsimp only
  split_ifs <;> rfl

theorem kinit_flags_pwprompt (s : kinit_state) : (kinit_flags s).pwprompt = s.pwprompt := by
  unfold kinit_flags
  simp

theorem kinit_addresses_pwprompt (env : Krb5) (pn : Option String) (s : kinit_state) :
    (kinit_addresses env pn s).state.pwprompt = s.pwprompt := by
  unfold kinit_addresses
  dsimp only
  split_ifs <;> simp

theorem kinit_flags_pac_pwprompt (s : kinit_state) :
    (kinit_flags_pac s).pwprompt = s.pwprompt := by
  unfold kinit_flags_pac
  simp

theorem kinit_keytab_named_pwprompt (env : Krb5) (pn : Option String) (nm : String)
    (s : kinit_state) : (kinit_keytab_named env pn nm s).state.pwprompt = s.pwprompt := by
  unfold kinit_keytab_named
  dsimp only
  split_ifs <;> simp

theorem kinit_keytab_pwprompt (env : Krb5) (pn : Option String) (s : kinit_state) :
    (kinit_keytab env pn s).state.pwprompt = s.pwprompt := by
  unfold kinit_keytab
  split
  · split_ifs
    · exact kinit_keytab_named_pwprompt env pn _ s
    · rfl
  · dsimp only
    split_ifs <;> simp

theorem kinit_setup_pwprompt (env : Krb5) (pn : Option String) (s : kinit_state) :
    (kinit_setup env pn s).state.pwprompt = s.pwprompt := by
  unfold kinit_setup
  have h1 := kinit_alloc_pwprompt env s
  cases ha : kinit_alloc env s with
  | cleanup t => rw [ha] at h1; exact h1
  | next t =>
    rw [ha] at h1
    simp only [Flow.bind, Flow.state_next] at h1 ⊢
    have h2 := kinit_addresses_pwprompt env pn (kinit_flags t)
    rw [kinit_flags_pwprompt, h1] at h2
    cases hb : kinit_addresses env pn (kinit_flags t) with
    | cleanup u => rw [hb] at h2; exact h2
    | next u =>
      rw [hb] at h2
      simp only [Flow.state_next] at h2 ⊢
      rw [kinit_keytab_pwprompt, kinit_flags_pac_pwprompt, h2]

theorem kinit_pa_loop_pwprompt (env : Krb5) (pn : Option String)
    (ps : List krb5_gic_opt_pa_data) (s : kinit_state) :
    (kinit_pa_loop env pn ps s).state.pwprompt = s.pwprompt := by
  induction ps generalizing s with
  | nil => rfl
  | cons p ps ih =>
    unfold kinit_pa_loop
    dsimp only
    split_ifs
    · rfl
    · rw [ih]; simp

theorem kinit_ccaches_pwprompt (env : Krb5) (s : kinit_state) :
    (kinit_ccaches env s).state.pwprompt = s.pwprompt := by
  unfold kinit_ccaches
  dsimp only
  split_ifs <;> (try simp only [Flow.bind, Flow.state, kinit_state.log]) <;>
    (try split_ifs) <;> rfl

theorem kinit_pre_pwprompt (env : Krb5) (pn : Option String) (s : kinit_state) :
    (kinit_pre env pn s).state.pwprompt = s.pwprompt := by
  unfold kinit_pre
  have h1 := kinit_setup_pwprompt env pn s
  cases ha : kinit_setup env pn s with
  | cleanup t => rw [ha] at h1; exact h1
  | next t =>
    rw [ha] at h1
    simp only [Flow.bind, Flow.state_next] at h1 ⊢
    have h2 := kinit_pa_loop_pwprompt env pn t.opts.pa_opts t
    rw [h1] at h2
    cases hb : kinit_pa_loop env pn t.opts.pa_opts t with
    | cleanup u => rw [hb] at h2; exact h2
    | next u =>
      rw [hb] at h2
      simp only [Flow.state_next] at h2 ⊢
      rw [kinit_ccaches_pwprompt, h2]

theorem kinit_prompter_pwprompt (env : Krb5) (pass : List Nat) (pc : prompt_call)
    (b : Bool) :
    (kinit_prompter env pass pc b).pwprompt = true ↔ b = true ∨ password_prompt env pc := by
  unfold kinit_prompter password_prompt
  dsimp only
  generalize pc.num_prompts = n
  induction n with
  | zero => simp
  | succ n ih =>
    rw [List.range_succ, List.foldl_append]
    simp only [List.foldl_cons, List.foldl_nil]
    split_ifs with h
    · simp only [true_iff]
      right
      obtain ⟨h1, h2⟩ := h
      cases hp : pc.ptypes with
      | none => exact absurd hp h1
      | some ts =>
        rw [hp] at h2
        exact ⟨ts, rfl, n, Nat.lt_succ_self n, by simpa using h2⟩
    · rw [ih]
      constructor
      · rintro (hb | ⟨ts, hts, i, hi, hti⟩)
        · exact Or.inl hb
        · exact Or.inr ⟨ts, hts, i, Nat.lt_succ_of_lt hi, hti⟩
      · rintro (hb | ⟨ts, hts, i, hi, hti⟩)
        · exact Or.inl hb
        · rcases Nat.lt_succ_iff_lt_or_eq.1 hi with hi | rfl
          · exact Or.inr ⟨ts, hts, i, hi, hti⟩
          · exact absurd ⟨by simp [hts], by simp [hts, hti]⟩ h

theorem kinit_prompts_pwprompt (env : Krb5) (pass : List Nat) (pcs : List prompt_call)
    (s : kinit_state) :
    (kinit_prompts env pass pcs s).pwprompt = true ↔
      s.pwprompt = true ∨ ∃ pc ∈ pcs, password_prompt env pc := by
  induction pcs generalizing s with
  | nil => simp [kinit_prompts]
  | cons pc pcs ih =>
    unfold kinit_prompts
    dsimp only
    rw [ih]
    simp only [kinit_state.log, kinit_prompter_pwprompt, List.mem_cons, exists_eq_or_imp]
    tauto

theorem kinit_dispatch_pwprompt (env : Krb5) (pass : List Nat) (s : kinit_state) :
    (kinit_dispatch env pass s).1.pwprompt = true ↔
      s.pwprompt = true ∨ (s.opts.action = action_type.INIT_PW ∧
        ∃ pc ∈ env.password_prompts s.k5.me s.opts.starttime s.opts.service_name s.options,
          password_prompt env pc) := by
  unfold kinit_dispatch
  split
  · next h => simp [kinit_prompts_pwprompt, h]
  · next h => simp [h]
  · next h => simp [h]
  · next h => simp [h]

theorem extends_by_acq_ok {fs : List Fn} {s t : List Call} (h : extends_by fs s t)
    (hfs : ∀ f ∈ fs, f.is_acquisition = false)
    (hs : ∀ c ∈ s, c.fn.is_acquisition = true → c.ret = 0) :
    ∀ c ∈ t, c.fn.is_acquisition = true → c.ret = 0 := by
  obtain ⟨l, rfl, hl⟩ := h
  intro c hc ha
  rcases List.mem_append.1 hc with hc | hc
  · exact hs c hc ha
  · rw [hfs _ (hl c hc)] at ha
    exact absurd ha (by decide)

theorem kinit_report_structure (env : Krb5) (pn : Option String) (pass : List Nat)
    (opts : k_opts) (k5 : k5_data) (c : Call)
    (hc : c ∈ (k5_kinit env pn pass opts k5).trace)
    (hacq : c.fn.is_acquisition = true) (hret : c.ret ≠ 0) :
    ∃ pre msg post,
      (k5_kinit env pn pass opts k5).trace = pre ++ [c, msg] ++ post ∧
      (∀ d ∈ pre, d.fn.is_acquisition = false) ∧
      (∀ d ∈ post, d.fn ∈ cleanup_fns) ∧
      (wrong_secret env c.ret (k5_kinit env pn pass opts k5).pwprompt →
        msg = password_incorrect pn opts.action) ∧
      (¬ wrong_secret env c.ret (k5_kinit env pn pass opts k5).pwprompt →
        msg = while_doing pn c.ret opts.action) ∧
      ((k5_kinit env pn pass opts k5).pwprompt = true ↔
        opts.action = action_type.INIT_PW ∧
        ∃ pc ∈ env.password_prompts k5.me opts.starttime opts.service_name
            (kinit_pre env pn { opts := opts, k5 := k5 }).state.options,
          password_prompt env pc) := by
  have hb := kinit_body_pre env pn pass { opts := opts, k5 := k5 }
  obtain ⟨hp1, hp2⟩ := kinit_pre_spec env pn { opts := opts, k5 := k5 }
  have hpw := kinit_pre_pwprompt env pn { opts := opts, k5 := k5 }
  unfold k5_kinit at hc ⊢
  rw [hb] at hc ⊢
  cases hpre : kinit_pre env pn { opts := opts, k5 := k5 } with
  | cleanup t =>
    exfalso
    rw [hpre] at hp1 hc
    simp only [Flow.bind, Flow.state_cleanup] at hc hp1
    have h := extends_by_not_acq (kinit_cleanup_extends t) cleanup_fns_not_acq
      (extends_by_not_acq hp1 pre_all_not_acq (by simp)) c hc
    rw [hacq] at h
    exact absurd h (by decide)
  | next v =>
    rw [hpre] at hp1 hp2 hpw hc
    simp only [Flow.bind, Flow.state_next] at hc hp1 hp2 hpw ⊢
    have hv := extends_by_not_acq hp1 pre_all_not_acq (by simp)
    obtain ⟨P, c0, hd, hP, hc0, hr0⟩ := kinit_dispatch_trace env pass v
    obtain ⟨ho, -, -, -, hme, -, hsw⟩ := hp2
    by_cases h0 : (kinit_dispatch env pass v).2 = 0
    · exfalso
      have ha : kinit_acquire env pn pass v = Flow.next (kinit_dispatch env pass v).1 := by
        unfold kinit_acquire
        rw [h0]
        exact kinit_report_ok env pn _
      rw [ha] at hc
      simp only [Flow.bind] at hc
      have hu : ∀ d ∈ (kinit_dispatch env pass v).1.trace,
          d.fn.is_acquisition = true → d.ret = 0 := by
        intro d hdm hda
        rw [hd] at hdm
        simp only [List.mem_append, List.mem_singleton] at hdm
        rcases hdm with (hdm | hdm) | hdm
        · rw [hv d hdm] at hda
          exact absurd hda (by decide)
        · rw [hP d hdm] at hda
          exact absurd hda (by decide)
        · rw [hdm, hr0, h0]
      have e1 := extends_by_acq_ok (kinit_commit_extends env pn _) (commit_fns_not_acq _) hu
      have hfin : ∀ d ∈ (kinit_cleanup (((kinit_commit env pn
          (kinit_dispatch env pass v).1).bind (kinit_switch env pn)).state)).trace,
          d.fn.is_acquisition = true → d.ret = 0 := by
        refine extends_by_acq_ok (kinit_cleanup_extends _) cleanup_fns_not_acq ?_
        cases hcm : kinit_commit env pn (kinit_dispatch env pass v).1 with
        | cleanup w =>
          rw [hcm] at e1
          exact e1
        | next w =>
          rw [hcm] at e1
          exact extends_by_acq_ok (kinit_switch_extends env pn w) (switch_fns_not_acq _) e1
      exact hret (hfin c hc hacq)
    · obtain ⟨msg, hm, hm1, hm2⟩ := kinit_report_trace env pn _ _ h0
      have ha : kinit_acquire env pn pass v =
          Flow.cleanup ((kinit_dispatch env pass v).1.log msg) := by
        unfold kinit_acquire
        exact hm
      rw [ha] at hc ⊢
      simp only [Flow.bind, Flow.state_cleanup] at hc ⊢
      obtain ⟨post, hpost, hpf⟩ := kinit_cleanup_extends ((kinit_dispatch env pass v).1.log msg)
      have hmsg : msg.fn.is_acquisition = false := by
        by_cases hw : wrong_secret env (kinit_dispatch env pass v).2
            (kinit_dispatch env pass v).1.pwprompt
        · rw [hm1 hw]; rfl
        · rw [hm2 hw]; rfl
      have hcc : c = c0 := by
        rw [hpost] at hc
        simp only [kinit_state.log, hd, List.mem_append, List.mem_singleton] at hc
        rcases hc with (((hc | hc) | hc) | hc) | hc
        · rw [hv c hc] at hacq
          exact absurd hacq (by decide)
        · rw [hP c hc] at hacq
          exact absurd hacq (by decide)
        · exact hc
        · rw [hc, hmsg] at hacq
          exact absurd hacq (by decide)
        · rw [cleanup_fns_not_acq _ (hpf c hc)] at hacq
          exact absurd hacq (by decide)
      have hact : (kinit_dispatch env pass v).1.opts.action = opts.action := by
        rw [kinit_dispatch_opts, ho]
      rw [hact] at hm1 hm2
      have hvpw : v.pwprompt = false := hpw
      refine ⟨v.trace ++ P, msg, post, ?_, ?_, hpf, ?_, ?_, ?_⟩
      · rw [hpost]
        simp [hd, hcc]
      · intro d hdm
        rcases List.mem_append.1 hdm with hdm | hdm
        · exact hv d hdm
        · rw [hP d hdm]; rfl
      · rw [kinit_cleanup_pwprompt, hcc, hr0]
        exact hm1
      · rw [kinit_cleanup_pwprompt, hcc, hr0]
        exact hm2
      · rw [kinit_cleanup_pwprompt]
        simp only [kinit_state.log]
        rw [kinit_dispatch_pwprompt, hvpw, ho, hme]
        simp

/-- C4: every acquisition call of `k5_kinit` that is logged with a non-zero
return code is directly followed in the log by exactly one message, after
which only calls of the cleanup block follow, and no acquisition call comes
before it.  If the code is the bad-integrity code, or is the
pre-authentication-failure code while the prompt flag is set, the message is
the call `fprintf(stderr, "%s: Password incorrect while %s\n", progname, label)`.
In every other case it is the call `com_err(progname, code, "while %s", label)`,
and the hook that prints it writes the program name and the error message of
the code and then hands the format to `fprintf` with the `va_list` object as
its argument, so that the label does not reach the output.  The label is
"getting initial credentials" in password and keytab mode, "validating
credentials" in validate mode and "renewing credentials" in renew mode.  The
prompt flag is set exactly when the mode is the password one and the library
presented a password prompt in one of the callback invocations of this
attempt. -/
theorem k5_kinit_wrong_secret_message (env : Krb5) (pn : Option String) (pass : List Nat)
    (opts : k_opts) (k5 : k5_data) (c : Call)
    (hc : c ∈ (k5_kinit env pn pass opts k5).trace)
    (hacq : c.fn.is_acquisition = true) (hret : c.ret ≠ 0) :
    ∃ pre msg post label,
      (k5_kinit env pn pass opts k5).trace = pre ++ [c, msg] ++ post ∧
      (∀ d ∈ pre, d.fn.is_acquisition = false) ∧
      (∀ d ∈ post, d.fn ∈ cleanup_fns) ∧
      (opts.action = action_type.INIT_PW ∨ opts.action = action_type.INIT_KT →
        label = "getting initial credentials") ∧
      (opts.action = action_type.VALIDATE → label = "validating credentials") ∧
      (opts.action = action_type.RENEW → label = "renewing credentials") ∧
      (c.ret = env.KRB5KRB_AP_ERR_BAD_INTEGRITY ∨
          ((k5_kinit env pn pass opts k5).pwprompt = true ∧
            c.ret = env.KRB5KDC_ERR_PREAUTH_FAILED) →
        msg = { fn := Fn.fprintf_stderr,
                args := [Val.str (some "%s: Password incorrect while %s\n"), Val.str pn,
                         Val.str (some label)] }) ∧
      (¬ (c.ret = env.KRB5KRB_AP_ERR_BAD_INTEGRITY ∨
          ((k5_kinit env pn pass opts k5).pwprompt = true ∧
            c.ret = env.KRB5KDC_ERR_PREAUTH_FAILED)) →
        msg = { fn := Fn.com_err,
                args := [Val.str pn, Val.str (some "while %s"), Val.str (some label)],
                ret := c.ret } ∧
        ∀ errctx, com_err_hook env errctx msg =
          [{ fn := Fn.krb5_get_error_message, args := [Val.ptr errctx, Val.int c.ret],
             out := Val.str (some (env.krb5_get_error_message errctx c.ret)) },
           { fn := Fn.fprintf_stderr,
             args := [Val.str (some "%s: %s "), Val.str pn,
                      Val.str (some (env.krb5_get_error_message errctx c.ret))] },
           { fn := Fn.krb5_free_error_message,
             args := [Val.ptr errctx,
                      Val.str (some (env.krb5_get_error_message errctx c.ret))] },
           { fn := Fn.fprintf_stderr, args := [Val.str (some "while %s"), Val.va_list] },
           { fn := Fn.fprintf_stderr, args := [Val.str (some "\n")] }]) ∧
      (msg.fn = Fn.fprintf_stderr ↔
        (c.ret = env.KRB5KRB_AP_ERR_BAD_INTEGRITY ∨
          ((k5_kinit env pn pass opts k5).pwprompt = true ∧
            c.ret = env.KRB5KDC_ERR_PREAUTH_FAILED))) ∧
      ((k5_kinit env pn pass opts k5).pwprompt = true ↔
        opts.action = action_type.INIT_PW ∧
        ∃ pc ∈ env.password_prompts k5.me opts.starttime opts.service_name
            (kinit_pre env pn { opts := opts, k5 := k5 }).state.options,
          password_prompt env pc) := by
  obtain ⟨pre, msg, post, h1, h2, h3, h4, h5, h6⟩ :=
    kinit_report_structure env pn pass opts k5 c hc hacq hret
  refine ⟨pre, msg, post, doing opts.action, h1, h2, h3, ?_, ?_, ?_, ?_, ?_, ?_, h6⟩
  · rintro (h | h) <;> rw [h] <;> rfl
  · intro h
    rw [h]
    rfl
  · intro h
    rw [h]
    rfl
  · intro hw
    rw [h4 hw]
    rfl
  · intro hw
    rw [h5 hw]
    exact ⟨rfl, fun _ => rfl⟩
  · by_cases hw : wrong_secret env c.ret (k5_kinit env pn pass opts k5).pwprompt
    · rw [h4 hw]
      exact ⟨fun _ => hw, fun _ => rfl⟩
    · rw [h5 hw]
      exact ⟨fun h => Fn.noConfusion h, fun h => absurd h hw⟩

theorem k5_kinit_wrong_secret_message_witness :
    ∃ pre msg post label,
      (k5_kinit env_unknown (some "kinit") [] opts_alice k5_ready).trace =
        pre ++ [{ fn := Fn.krb5_get_init_creds_password,
                  args := [Val.ptr (some 7), Val.int 0, Val.int 0, Val.str none,
                           Val.options { out_ccache := some (some 1) }],
                  ret := -1765328378, out := Val.creds {} }, msg] ++ post ∧
      (∀ d ∈ pre, d.fn.is_acquisition = false) ∧
      (∀ d ∈ post, d.fn ∈ cleanup_fns) ∧
      (opts_alice.action = action_type.INIT_PW ∨ opts_alice.action = action_type.INIT_KT →
        label = "getting initial credentials") ∧
      (opts_alice.action = action_type.VALIDATE → label = "validating credentials") ∧
      (opts_alice.action = action_type.RENEW → label = "renewing credentials") ∧
      ((-1765328378 : Int) = env_unknown.KRB5KRB_AP_ERR_BAD_INTEGRITY ∨
          ((k5_kinit env_unknown (some "kinit") [] opts_alice k5_ready).pwprompt = true ∧
            (-1765328378 : Int) = env_unknown.KRB5KDC_ERR_PREAUTH_FAILED) →
        msg = { fn := Fn.fprintf_stderr,
                args := [Val.str (some "%s: Password incorrect while %s\n"),
                         Val.str (some "kinit"), Val.str (some label)] }) ∧
      (¬ ((-1765328378 : Int) = env_unknown.KRB5KRB_AP_ERR_BAD_INTEGRITY ∨
          ((k5_kinit env_unknown (some "kinit") [] opts_alice k5_ready).pwprompt = true ∧
            (-1765328378 : Int) = env_unknown.KRB5KDC_ERR_PREAUTH_FAILED)) →
        msg = { fn := Fn.com_err,
                args := [Val.str (some "kinit"), Val.str (some "while %s"),
                         Val.str (some label)],
                ret := -1765328378 } ∧
        ∀ errctx, com_err_hook env_unknown errctx msg =
          [{ fn := Fn.krb5_get_error_message,
             args := [Val.ptr errctx, Val.int (-1765328378)],
             out := Val.str (some (env_unknown.krb5_get_error_message errctx
               (-1765328378))) },
           { fn := Fn.fprintf_stderr,
             args := [Val.str (some "%s: %s "), Val.str (some "kinit"),
                      Val.str (some (env_unknown.krb5_get_error_message errctx
                        (-1765328378)))] },
           { fn := Fn.krb5_free_error_message,
             args := [Val.ptr errctx,
                      Val.str (some (env_unknown.krb5_get_error_message errctx
                        (-1765328378)))] },
           { fn := Fn.fprintf_stderr, args := [Val.str (some "while %s"), Val.va_list] },
           { fn := Fn.fprintf_stderr, args := [Val.str (some "\n")] }]) ∧
      (msg.fn = Fn.fprintf_stderr ↔
        ((-1765328378 : Int) = env_unknown.KRB5KRB_AP_ERR_BAD_INTEGRITY ∨
          ((k5_kinit env_unknown (some "kinit") [] opts_alice k5_ready).pwprompt = true ∧
            (-1765328378 : Int) = env_unknown.KRB5KDC_ERR_PREAUTH_FAILED))) ∧
      ((k5_kinit env_unknown (some "kinit") [] opts_alice k5_ready).pwprompt = true ↔
        opts_alice.action = action_type.INIT_PW ∧
        ∃ pc ∈ env_unknown.password_prompts k5_ready.me opts_alice.starttime
            opts_alice.service_name
            (kinit_pre env_unknown (some "kinit")
              { opts := opts_alice, k5 := k5_ready }).state.options,
          password_prompt env_unknown pc) :=
  k5_kinit_wrong_secret_message env_unknown (some "kinit") [] opts_alice k5_ready _
    (by decide) rfl (by decide)
/-! ## C3: a failed move leaves the output store as it was -/

theorem effect_not_store (c : Call) (h : c.fn ∉ store_fns) (w : stores) :
    c.effect w = w := by
  simp only [store_fns, List.mem_cons, List.mem_singleton, List.not_mem_nil, or_false,
    not_or] at h
  obtain ⟨h1, h2, h3, h4, h5, h6, h7⟩ := h
  unfold Call.effect
  simp [h1, h2, h3, h4, h5, h6, h7]

@[simp] theorem harmless_nil (o : Nat) : harmless o [] := by
  simp [harmless]

@[simp] theorem harmless_append (o : Nat) (a b : List Call) :
    harmless o (a ++ b) ↔ harmless o a ∧ harmless o b := by
  simp only [harmless, List.mem_append]
  constructor
  · exact fun h => ⟨fun c hc => h c (Or.inl hc), fun c hc => h c (Or.inr hc)⟩
  · rintro ⟨h1, h2⟩ c (hc | hc)
    · exact h1 c hc
    · exact h2 c hc

@[simp] theorem harmless_cons (o : Nat) (c : Call) (tr : List Call) :
    harmless o (c :: tr) ↔ (∀ w : stores, c.effect w o = w o) ∧ harmless o tr := by
  simp [harmless]

theorem harmless_extends {fs : List Fn} {s t : List Call} (o : Nat)
    (h : extends_by fs s t) (hfs : ∀ f ∈ fs, f ∉ store_fns) (hs : harmless o s) :
    harmless o t := by
  obtain ⟨l, rfl, hl⟩ := h
  rw [harmless_append]
  refine ⟨hs, fun c hc w => ?_⟩
  rw [effect_not_store c (hfs _ (hl c hc))]

theorem run_effects_harmless (o : Nat) (tr : List Call) (h : harmless o tr) (w : stores) :
    run_effects tr w o = w o := by
  induction tr generalizing w with
  | nil => rfl
  | cons c tr ih =>
    rw [harmless_cons] at h
    show run_effects tr (c.effect w) o = w o
    rw [ih h.2, h.1]

@[simp] theorem move_failed_nil : move_failed [] ↔ False := by
  simp [move_failed]

@[simp] theorem move_failed_append (a b : List Call) :
    move_failed (a ++ b) ↔ move_failed a ∨ move_failed b := by
  simp only [move_failed, List.mem_append]
  constructor
  · rintro ⟨c, h | h, e⟩
    · exact Or.inl ⟨c, h, e⟩
    · exact Or.inr ⟨c, h, e⟩
  · rintro (⟨c, h, e⟩ | ⟨c, h, e⟩)
    · exact ⟨c, Or.inl h, e⟩
    · exact ⟨c, Or.inr h, e⟩

@[simp] theorem move_failed_cons (c : Call) (tr : List Call) :
    move_failed (c :: tr) ↔ (c.fn = Fn.krb5_cc_move ∧ c.ret ≠ 0) ∨ move_failed tr := by
  simp [move_failed]

theorem move_failed_extends {fs : List Fn} {s t : List Call} (h : extends_by fs s t)
    (hfs : Fn.krb5_cc_move ∉ fs) : move_failed t ↔ move_failed s := by
  obtain ⟨l, rfl, hl⟩ := h
  rw [move_failed_append]
  constructor
  · rintro (h | ⟨c, hc, e, -⟩)
    · exact h
    · exact absurd (e ▸ hl c hc) hfs
  · exact Or.inl

theorem acquire_fns_not_store (a : action_type) (h1 : a ≠ action_type.INIT_PW)
    (h2 : a ≠ action_type.INIT_KT) : ∀ f ∈ acquire_fns a, f ∉ store_fns := by
  cases a
  · exact absurd rfl h1
  · exact absurd rfl h2
  · decide
  · decide

theorem pre_all_not_store : ∀ f ∈ pre_all, f ∉ store_fns := by decide

theorem cleanup_fns_move : Fn.krb5_cc_move ∉ cleanup_fns := by decide

theorem acquire_fns_move (a : action_type) : Fn.krb5_cc_move ∉ acquire_fns a := by
  cases a <;> decide

theorem acquire_fns_switch (a : action_type) : Fn.krb5_cc_switch ∉ acquire_fns a := by
  cases a <;> decide

theorem switch_fns_move (sw : Int) : Fn.krb5_cc_move ∉ switch_fns sw := by
  unfold switch_fns
  split_ifs <;> decide

theorem harmless_say (o : Nat) (s : kinit_state) (fmt : String) (args : List Val) :
    harmless o (s.say fmt args).trace ↔ harmless o s.trace := by
  rw [say_trace]
  split_ifs
  · simp [fprintf_stderr, Call.effect]
  · simp

theorem move_failed_say (s : kinit_state) (fmt : String) (args : List Val) :
    move_failed (s.say fmt args).trace ↔ move_failed s.trace := by
  rw [say_trace]
  split_ifs <;> simp [fprintf_stderr]

theorem called_say_switch (s : kinit_state) (fmt : String) (args : List Val) :
    called Fn.krb5_cc_switch (s.say fmt args).trace ↔ called Fn.krb5_cc_switch s.trace := by
  rw [say_trace]
  split_ifs <;> simp [fprintf_stderr]

theorem kinit_commit_atomic (env : Krb5) (pn : Option String) (u : kinit_state)
    (o m : Nat) (h1 : u.mcc = none) (h2 : u.k5.out_cc = some o)
    (hm : (env.krb5_cc_new_unique (some "MEMORY")).out = some m) (hne : m ≠ o)
    (h3 : ¬ move_failed u.trace) (h4 : ¬ called Fn.krb5_cc_switch u.trace)
    (h5 : u.notix = 1)
    (h6 : u.opts.action ≠ action_type.INIT_PW → u.opts.action ≠ action_type.INIT_KT →
      harmless o u.trace) :
    (kinit_commit env pn u).post
      (fun w => ¬ move_failed w.trace)
      (fun w => move_failed w.trace →
        w.notix = 1 ∧ w.mcc = some m ∧ harmless o w.trace ∧
        ¬ called Fn.krb5_cc_switch w.trace ∧
        u.opts.action ≠ action_type.INIT_PW ∧ u.opts.action ≠ action_type.INIT_KT) := by
  have hom : ¬ o = m := fun e => hne e.symm
  unfold kinit_commit
  dsimp only
  split_ifs with ha hn hi hw hv
  all_goals simp only [Flow.post, kinit_state.log, move_failed_say, harmless_say,
    called_say_switch, say_notix, say_mcc, say_k5, say_my_creds, say_opts]
  all_goals simp_all [com_err, Call.effect, stores.set, move_failed_say, harmless_say,
    called_say_switch]

theorem kinit_cleanup_destroys (w : kinit_state) (o m : Nat) (h1 : w.mcc = some m)
    (hne : m ≠ o) (h2 : harmless o w.trace) :
    harmless o (kinit_cleanup w).trace ∧
    { fn := Fn.krb5_cc_destroy, args := [Val.ptr (some m)] } ∈ (kinit_cleanup w).trace := by
  have hom : ¬ o = m := fun e => hne e.symm
  unfold kinit_cleanup
  dsimp only
  split_ifs <;> simp_all [Call.effect, stores.set]

theorem kinit_body_move_failed (env : Krb5) (pn : Option String) (pass : List Nat)
    (opts : k_opts) (k5 : k5_data) (o m : Nat) (ho : k5.out_cc = some o)
    (hm : (env.krb5_cc_new_unique (some "MEMORY")).out = some m) (hne : m ≠ o)
    (hf : move_failed (kinit_body env pn pass { opts := opts, k5 := k5 }).state.trace) :
    (kinit_body env pn pass { opts := opts, k5 := k5 }).state.notix = 1 ∧
    (kinit_body env pn pass { opts := opts, k5 := k5 }).state.mcc = some m ∧
    harmless o (kinit_body env pn pass { opts := opts, k5 := k5 }).state.trace ∧
    ¬ called Fn.krb5_cc_switch
      (kinit_body env pn pass { opts := opts, k5 := k5 }).state.trace ∧
    opts.action ≠ action_type.INIT_PW ∧ opts.action ≠ action_type.INIT_KT := by
  obtain ⟨hp1, hp2⟩ := kinit_pre_spec env pn { opts := opts, k5 := k5 }
  rw [kinit_body_pre] at hf ⊢
  cases hpre : kinit_pre env pn { opts := opts, k5 := k5 } with
  | cleanup t =>
    exfalso
    rw [hpre] at hp1 hf
    simp only [Flow.bind, Flow.state_cleanup] at hf hp1
    exact absurd ((move_failed_extends hp1 (by decide)).1 hf) (by simp)
  | next v =>
    rw [hpre] at hp1 hp2 hf
    simp only [Flow.bind, Flow.state_next] at hf hp1 hp2 ⊢
    obtain ⟨vo, vn, vm, vc, -, -, -⟩ := hp2
    have a1 := kinit_acquire_extends env pn pass v
    have a2 := kinit_acquire_frame env pn pass v
    have hvm : ¬ move_failed v.trace := fun h =>
      (by simpa using (move_failed_extends hp1 (by decide)).1 h)
    have hvs : ¬ called Fn.krb5_cc_switch v.trace := fun h =>
      (by simpa using (extends_by_called hp1 Fn.krb5_cc_switch (by decide)).1 h)
    cases hac : kinit_acquire env pn pass v with
    | cleanup u =>
      exfalso
      rw [hac] at a1 hf
      simp only [Flow.bind, Flow.state_cleanup] at hf a1
      exact hvm ((move_failed_extends a1 (acquire_fns_move _)).1 hf)
    | next u =>
      rw [hac] at a1 a2 hf
      simp only [Flow.bind, Flow.state_next] at hf a1 a2 ⊢
      obtain ⟨uo, un, um, uc, -, -, -⟩ := a2
      have hum : ¬ move_failed u.trace := fun h =>
        hvm ((move_failed_extends a1 (acquire_fns_move _)).1 h)
      have hus : ¬ called Fn.krb5_cc_switch u.trace := fun h =>
        hvs ((extends_by_called a1 Fn.krb5_cc_switch (acquire_fns_switch _)).1 h)
      have huh : u.opts.action ≠ action_type.INIT_PW → u.opts.action ≠ action_type.INIT_KT →
          harmless o u.trace := by
        intro b1 b2
        rw [uo] at b1 b2
        exact harmless_extends o a1 (acquire_fns_not_store _ b1 b2)
          (harmless_extends o hp1 pre_all_not_store (by simp))
      have hc := kinit_commit_atomic env pn u o m (by rw [um, vm]) (by rw [uc, vc]; exact ho)
        hm hne hum hus (by rw [un, vn]) huh
      cases hcm : kinit_commit env pn u with
      | cleanup w =>
        rw [hcm] at hc hf
        simp only [Flow.post, Flow.bind, Flow.state_cleanup] at hc hf ⊢
        obtain ⟨c1, c2, c3, c4, c5, c6⟩ := hc hf
        rw [uo, vo] at c5 c6
        exact ⟨c1, c2, c3, c4, c5, c6⟩
      | next w =>
        exfalso
        rw [hcm] at hc hf
        simp only [Flow.post, Flow.bind] at hc hf
        exact hc ((move_failed_extends (kinit_switch_extends env pn w)
          (switch_fns_move _)).1 hf)

/-- C3: when a call of `krb5_cc_move` is logged with a non-zero return code
in a run of `k5_kinit` whose output store has handle `o` and whose temporary
store gets another handle `m`, the mode is validate or renew, `k5_kinit`
returns 0 so that the exit status is 1, the temporary store `m` is destroyed,
`krb5_cc_switch` is not called, and whatever the stores hold before the run the
output store `o` holds the same after the calls of the run. -/
theorem k5_kinit_failed_move_keeps_output (env : Krb5) (pn : Option String)
    (pass : List Nat) (opts : k_opts) (k5 : k5_data) (o m : Nat)
    (ho : k5.out_cc = some o)
    (hm : (env.krb5_cc_new_unique (some "MEMORY")).out = some m) (hne : m ≠ o)
    (hf : move_failed (k5_kinit env pn pass opts k5).trace) :
    (opts.action = action_type.VALIDATE ∨ opts.action = action_type.RENEW) ∧
    (k5_kinit env pn pass opts k5).retval = 0 ∧
    exit_status (k5_kinit env pn pass opts k5).retval = 1 ∧
    { fn := Fn.krb5_cc_destroy, args := [Val.ptr (some m)] } ∈
      (k5_kinit env pn pass opts k5).trace ∧
    ¬ called Fn.krb5_cc_switch (k5_kinit env pn pass opts k5).trace ∧
    ∀ w : stores, run_effects (k5_kinit env pn pass opts k5).trace w o = w o := by
  unfold k5_kinit at hf ⊢
  have hf2 := (move_failed_extends (kinit_cleanup_extends _) cleanup_fns_move).1 hf
  obtain ⟨b1, b2, b3, b4, b5, b6⟩ := kinit_body_move_failed env pn pass opts k5 o m ho hm hne hf2
  obtain ⟨d1, d2⟩ := kinit_cleanup_destroys _ o m b2 hne b3
  have hr : (kinit_cleanup (kinit_body env pn pass { opts := opts, k5 := k5 }).state).retval
      = 0 := by
    unfold kinit_state.retval
    rw [kinit_cleanup_notix, b1]
    rfl
  refine ⟨?_, hr, ?_, d2, ?_, fun w => run_effects_harmless o _ d1 w⟩
  · cases ha : opts.action
    · exact absurd ha b5
    · exact absurd ha b6
    · exact Or.inr rfl
    · exact Or.inl rfl
  · rw [hr]; rfl
  · exact fun h => b4 ((extends_by_called (kinit_cleanup_extends _) Fn.krb5_cc_switch
      (by decide)).1 h)

theorem k5_kinit_failed_move_keeps_output_witness :
    move_failed (k5_kinit env_move_fails none [] opts_renew k5_ready).trace ∧
    ((opts_renew.action = action_type.VALIDATE ∨ opts_renew.action = action_type.RENEW) ∧
    (k5_kinit env_move_fails none [] opts_renew k5_ready).retval = 0 ∧
    exit_status (k5_kinit env_move_fails none [] opts_renew k5_ready).retval = 1 ∧
    { fn := Fn.krb5_cc_destroy, args := [Val.ptr (some 2)] } ∈
      (k5_kinit env_move_fails none [] opts_renew k5_ready).trace ∧
    ¬ called Fn.krb5_cc_switch (k5_kinit env_move_fails none [] opts_renew k5_ready).trace ∧
    ∀ w : stores,
      run_effects (k5_kinit env_move_fails none [] opts_renew k5_ready).trace w 1 = w 1) :=
  (fun h => ⟨h, k5_kinit_failed_move_keeps_output env_move_fails none [] opts_renew
      k5_ready 1 2 rfl rfl (by decide) h⟩)
    ⟨{ fn := Fn.krb5_cc_move, args := [Val.ptr (some 2), Val.ptr (some 1)], ret := 5 },
      by decide, rfl, by decide⟩
/-! ## C6: the password buffer is overwritten on every path -/

theorem strncpy_all_length (dst : List Nat) (src : String)
    (h : (c_bytes src).length + 1 ≤ dst.length) :
    (strncpy_all dst src).length = dst.length := by
  unfold strncpy_all
  simp only [List.length_append, List.length_singleton, List.length_drop]
  omega

theorem memset_full (buf : List Nat) (v n : Nat) (h : buf.length = n) :
    memset buf v n = List.replicate n v := by
  unfold memset
  rw [h, Nat.min_self, List.drop_of_length_le (le_of_eq h), List.append_nil]

theorem utf8EncodeChar_length (c : Char) :
    (String.utf8EncodeChar c).length = c.utf8Size := by
  have h : c.utf8Size =
      if c.val ≤ 127 then 1 else if c.val ≤ 2047 then 2
      else if c.val ≤ 65535 then 3 else 4 := rfl
  rw [h]
  unfold String.utf8EncodeChar
  dsimp only
  split_ifs <;> rfl

theorem utf8ByteSize_go (l : List Char) :
    String.utf8ByteSize.go l = (l.flatMap String.utf8EncodeChar).length := by
  induction l with
  | nil => rfl
  | cons c l ih =>
    rw [String.utf8ByteSize.go, ih, List.flatMap_cons, List.length_append,
      utf8EncodeChar_length, Nat.add_comm]

theorem c_bytes_length (s : String) : (c_bytes s).length = s.utf8ByteSize := by
  unfold c_bytes
  rw [List.length_map]
  exact (utf8ByteSize_go s.data).symm

/-- C6: for every collaborator environment (so whether `k5_begin` fails,
`k5_kinit` fails or both succeed), for every program name, principal name and
password that are C strings of which the last two with their final NUL take at
most 256 bytes, and for every prior content of the 256-byte array
`udata.pass`, `my_kinit_main` returns, and at its return `udata.pass` consists
of 256 bytes which all equal 0xff; the call log ends with the calls of
`k5_end` on the session state followed by the overwrite of `udata.name` and,
last, the overwrite of `udata.pass`.  The length of a C string is its number
of bytes, `strlen`. -/
theorem my_kinit_main_overwrites_pass (env : Krb5) (a0 a1 a2 : String)
    (rest : List String) (udata : userdata) (hl : udata.pass.length = 256)
    (h0 : is_c_string a0 ∧ is_c_string a1 ∧ is_c_string a2)
    (h1 : a1.utf8ByteSize + 1 ≤ 256) (h2 : a2.utf8ByteSize + 1 ≤ 256) :
    ∃ r, my_kinit_main env (a0 :: a1 :: a2 :: rest) udata = some r ∧
      r.udata.pass = List.replicate 256 255 ∧
      r.udata.pass.length = 256 ∧ (∀ b ∈ r.udata.pass, b = 255) ∧
      r.k5 = {} ∧
      ∃ t, r.trace = t ++
        (k5_end (kinit_attempt env (some (GET_PROGNAME a0)) (main_opts a1)
          (strncpy_all udata.pass a2)).2.2.1).2 ++
        [{ fn := Fn.memset, args := [Val.str (some "udata.name"), Val.int 255] },
         { fn := Fn.memset, args := [Val.str (some "udata.pass"), Val.int 255] }] := by
  rw [← c_bytes_length] at h1 h2
  have hp : memset (strncpy_all udata.pass a2) 255 256 = List.replicate 256 255 :=
    memset_full _ _ _ (by rw [strncpy_all_length _ _ (by rw [hl]; exact h2), hl])
  refine ⟨kinit_session env (some (GET_PROGNAME a0)) (main_opts a1)
    { name := strncpy_all udata.name a1, pass := strncpy_all udata.pass a2 }, ?_,
    ?_, ?_, ?_, ?_, ?_⟩
  · unfold my_kinit_main
    dsimp only
    rw [if_pos ⟨h0.1, h0.2.1, h0.2.2, h1, h2⟩]
    rfl
  · exact hp
  · show (memset (strncpy_all udata.pass a2) 255 256).length = 256
    rw [hp, List.length_replicate]
  · show ∀ b ∈ memset (strncpy_all udata.pass a2) 255 256, b = 255
    rw [hp]
    exact fun b hb => List.eq_of_mem_replicate hb
  · rfl
  · exact ⟨_, rfl⟩

theorem my_kinit_main_overwrites_pass_witness :
    ∃ r, my_kinit_main env_same ["kinit", "alice", "sécret"] udata_zero = some r ∧
      r.udata.pass = List.replicate 256 255 ∧
      r.udata.pass.length = 256 ∧ (∀ b ∈ r.udata.pass, b = 255) ∧
      r.k5 = {} ∧
      ∃ t, r.trace = t ++
        (k5_end (kinit_attempt env_same (some (GET_PROGNAME "kinit")) (main_opts "alice")
          (strncpy_all udata_zero.pass "sécret")).2.2.1).2 ++
        [{ fn := Fn.memset, args := [Val.str (some "udata.name"), Val.int 255] },
         { fn := Fn.memset, args := [Val.str (some "udata.pass"), Val.int 255] }] :=
  my_kinit_main_overwrites_pass env_same "kinit" "alice" "sécret" [] udata_zero
    (List.length_replicate 256 0) (by decide) (by decide) (by decide)
/-! ## C11: when the staging sequence runs -/

@[simp] theorem staging_calls_nil : staging_calls [] = [] := rfl

@[simp] theorem staging_calls_append (a b : List Call) :
    staging_calls (a ++ b) = staging_calls a ++ staging_calls b := by
  simp [staging_calls]

theorem staging_calls_cons (c : Call) (l : List Call) :
    staging_calls (c :: l) =
      if c.fn.is_staging = true then c :: staging_calls l else staging_calls l := by
  simp only [staging_calls, List.filter_cons]

theorem staging_calls_eq_nil (tr : List Call) :
    staging_calls tr = [] ↔ ∀ c ∈ tr, c.fn.is_staging = false := by
  simp [staging_calls, List.filter_eq_nil_iff]

theorem staging_calls_extends {fs : List Fn} {s t : List Call} (h : extends_by fs s t)
    (hfs : ∀ f ∈ fs, f.is_staging = false) : staging_calls t = staging_calls s := by
  obtain ⟨l, rfl, hl⟩ := h
  rw [staging_calls_append, (staging_calls_eq_nil l).2 (fun c hc => hfs _ (hl c hc)),
    List.append_nil]

theorem staging_calls_say (s : kinit_state) (fmt : String) (args : List Val) :
    staging_calls (s.say fmt args).trace = staging_calls s.trace := by
  rw [say_trace]
  split_ifs <;> simp [staging_calls_cons, fprintf_stderr, Fn.is_staging]

theorem not_called_of_staging_nil {tr : List Call} (h : staging_calls tr = []) (f : Fn)
    (hf : f.is_staging = true) : ¬ called f tr := by
  rintro ⟨c, hc, e⟩
  have := (staging_calls_eq_nil tr).1 h c hc
  rw [e, hf] at this
  exact absurd this (by decide)

@[simp] theorem acquired_nil : acquired [] ↔ False := by
  simp [acquired]

@[simp] theorem acquired_append (a b : List Call) :
    acquired (a ++ b) ↔ acquired a ∨ acquired b := by
  simp only [acquired, List.mem_append]
  constructor
  · rintro ⟨c, h | h, e⟩
    · exact Or.inl ⟨c, h, e⟩
    · exact Or.inr ⟨c, h, e⟩
  · rintro (⟨c, h, e⟩ | ⟨c, h, e⟩)
    · exact ⟨c, Or.inl h, e⟩
    · exact ⟨c, Or.inr h, e⟩

@[simp] theorem acquired_cons (c : Call) (tr : List Call) :
    acquired (c :: tr) ↔ (c.fn.is_acquisition = true ∧ c.ret = 0) ∨ acquired tr := by
  simp [acquired]

theorem acquired_extends {fs : List Fn} {s t : List Call} (h : extends_by fs s t)
    (hfs : ∀ f ∈ fs, f.is_acquisition = false) : acquired t ↔ acquired s := by
  obtain ⟨l, rfl, hl⟩ := h
  rw [acquired_append]
  constructor
  · rintro (h | ⟨c, hc, e, -⟩)
    · exact h
    · rw [hfs _ (hl c hc)] at e
      exact absurd e (by decide)
  · exact Or.inl

@[simp] theorem move_done_nil : move_done [] ↔ False := by
  simp [move_done]

@[simp] theorem move_done_append (a b : List Call) :
    move_done (a ++ b) ↔ move_done a ∨ move_done b := by
  simp only [move_done, List.mem_append]
  constructor
  · rintro ⟨c, h | h, e⟩
    · exact Or.inl ⟨c, h, e⟩
    · exact Or.inr ⟨c, h, e⟩
  · rintro (⟨c, h, e⟩ | ⟨c, h, e⟩)
    · exact ⟨c, Or.inl h, e⟩
    · exact ⟨c, Or.inr h, e⟩

@[simp] theorem move_done_cons (c : Call) (tr : List Call) :
    move_done (c :: tr) ↔ (c.fn = Fn.krb5_cc_move ∧ c.ret = 0) ∨ move_done tr := by
  simp [move_done]

theorem move_done_extends {fs : List Fn} {s t : List Call} (h : extends_by fs s t)
    (hfs : Fn.krb5_cc_move ∉ fs) : move_done t ↔ move_done s := by
  obtain ⟨l, rfl, hl⟩ := h
  rw [move_done_append]
  constructor
  · rintro (h | ⟨c, hc, e, -⟩)
    · exact h
    · exact absurd (e ▸ hl c hc) hfs
  · exact Or.inl

theorem move_done_say (s : kinit_state) (fmt : String) (args : List Val) :
    move_done (s.say fmt args).trace ↔ move_done s.trace := by
  rw [say_trace]
  split_ifs <;> simp [fprintf_stderr]

theorem called_say_of_ne (f : Fn) (hf : f ≠ Fn.fprintf_stderr) (s : kinit_state)
    (fmt : String) (args : List Val) :
    called f (s.say fmt args).trace ↔ called f s.trace := by
  rw [say_trace]
  split_ifs <;> simp [fprintf_stderr, hf.symm]

theorem not_move_done_of_staging_nil {tr : List Call} (h : staging_calls tr = []) :
    ¬ move_done tr := by
  rintro ⟨c, hc, e, -⟩
  exact not_called_of_staging_nil h Fn.krb5_cc_move rfl ⟨c, hc, e⟩

theorem staging_spec_extends {fs : List Fn} {s t : List Call} (a : action_type)
    (n : Int) (h : extends_by fs s t) (h1 : ∀ f ∈ fs, f.is_staging = false)
    (h2 : ∀ f ∈ fs, f.is_acquisition = false) (hs : staging_spec a s n) :
    staging_spec a t n := by
  have e1 := staging_calls_extends h h1
  have e2 := acquired_extends h h2
  have e3 := extends_by_called h Fn.krb5_cc_new_unique
    (fun hm => absurd (h1 _ hm) (by decide))
  have e4 := move_done_extends h (fun hm => absurd (h1 _ hm) (by decide))
  unfold staging_spec at hs ⊢
  rw [e1, e2, e3, e4]
  exact hs

theorem staging_spec_of_nil (a : action_type) (tr : List Call)
    (h1 : staging_calls tr = []) (h2 : ¬ acquired tr) : staging_spec a tr 1 := by
  unfold staging_spec
  rw [h1]
  refine ⟨by simp, by simp, by simp, ?_, fun _ => rfl, fun _ => ?_,
    fun h => absurd h (by decide), fun _ h => absurd h h2⟩
  · constructor
    · exact fun h => absurd h (not_called_of_staging_nil h1 _ rfl)
    · exact fun h => absurd h.2 h2
  · constructor
    · exact fun h => absurd h (by decide)
    · exact fun h => absurd h (not_move_done_of_staging_nil h1)

theorem acquire_fns_not_staging (a : action_type) :
    ∀ f ∈ acquire_fns a, f.is_staging = false := by
  cases a <;> decide

theorem switch_fns_inert (sw : Int) :
    (∀ f ∈ switch_fns sw, f.is_staging = false) ∧
    (∀ f ∈ switch_fns sw, f.is_acquisition = false) := by
  unfold switch_fns
  split_ifs <;> decide

theorem cleanup_fns_inert :
    (∀ f ∈ cleanup_fns, f.is_staging = false) ∧
    (∀ f ∈ cleanup_fns, f.is_acquisition = false) := by
  decide

theorem pre_all_inert :
    (∀ f ∈ pre_all, f.is_staging = false) ∧
    (∀ f ∈ pre_all, f.is_acquisition = false) := by
  decide

theorem kinit_acquire_acquired (env : Krb5) (pn : Option String) (pass : List Nat)
    (v : kinit_state) (h1 : staging_calls v.trace = []) (h2 : ¬ acquired v.trace) :
    (kinit_acquire env pn pass v).post
      (fun u => staging_calls u.trace = [] ∧ acquired u.trace)
      (fun u => staging_calls u.trace = [] ∧ ¬ acquired u.trace) := by
  have hs := staging_calls_extends (kinit_acquire_extends env pn pass v)
    (acquire_fns_not_staging _)
  rw [h1] at hs
  obtain ⟨P, c0, hd, hP, hc0, hr0⟩ := kinit_dispatch_trace env pass v
  have hPa : ¬ acquired P := by
    rintro ⟨c, hc, e, -⟩
    rw [hP c hc] at e
    exact absurd e (by decide)
  by_cases h0 : (kinit_dispatch env pass v).2 = 0
  · have ha : kinit_acquire env pn pass v = Flow.next (kinit_dispatch env pass v).1 := by
      unfold kinit_acquire
      rw [h0]
      exact kinit_report_ok env pn _
    rw [ha] at hs ⊢
    refine ⟨hs, ?_⟩
    rw [hd]
    exact ⟨c0, by simp, hc0, by rw [hr0, h0]⟩
  · obtain ⟨msg, hm, hm1, hm2⟩ := kinit_report_trace env pn _ _ h0
    have ha : kinit_acquire env pn pass v =
        Flow.cleanup ((kinit_dispatch env pass v).1.log msg) := by
      unfold kinit_acquire
      exact hm
    have hmsg : msg.fn.is_acquisition = false := by
      by_cases hw : wrong_secret env (kinit_dispatch env pass v).2
          (kinit_dispatch env pass v).1.pwprompt
      · rw [hm1 hw]; rfl
      · rw [hm2 hw]; rfl
    rw [ha] at hs ⊢
    refine ⟨hs, ?_⟩
    simp only [kinit_state.log, hd, acquired_append, acquired_cons, acquired_nil, hmsg,
      hr0, h0, h2, hPa]
    simp

theorem acquired_say (s : kinit_state) (fmt : String) (args : List Val) :
    acquired (s.say fmt args).trace ↔ acquired s.trace := by
  rw [say_trace]
  split_ifs <;> simp [fprintf_stderr, Fn.is_acquisition]

theorem kinit_commit_staging (env : Krb5) (pn : Option String) (u : kinit_state)
    (h1 : staging_calls u.trace = []) (h2 : acquired u.trace) :
    (kinit_commit env pn u).post
      (fun w => staging_spec u.opts.action w.trace 0)
      (fun w => staging_spec u.opts.action w.trace 1) := by
  have h3 := not_called_of_staging_nil h1 Fn.krb5_cc_new_unique rfl
  have h4 := not_move_done_of_staging_nil h1
  unfold kinit_commit staging_spec non_initial
  dsimp only
  split_ifs with ha hn hi hw hv
  all_goals simp only [Flow.post, kinit_state.log, staging_calls_say, move_done_say,
    acquired_say, called_say_of_ne Fn.krb5_cc_new_unique (by decide)]
  all_goals simp_all [com_err, staging_calls_cons, Fn.is_staging, staging_fns,
    staging_calls_say, move_done_say, acquired_say, called_say_of_ne, Fn.is_acquisition]

theorem kinit_switch_notix (env : Krb5) (pn : Option String) (s : kinit_state) :
    (kinit_switch env pn s).state.notix = 0 := by
  unfold kinit_switch
  dsimp only
  split_ifs <;> rfl

theorem non_initial_iff (a : action_type) :
    non_initial a ↔ a = action_type.VALIDATE ∨ a = action_type.RENEW := by
  unfold non_initial
  cases a <;> simp

theorem kinit_body_staging (env : Krb5) (pn : Option String) (pass : List Nat)
    (opts : k_opts) (k5 : k5_data) :
    staging_spec opts.action
      (kinit_body env pn pass { opts := opts, k5 := k5 }).state.trace
      (kinit_body env pn pass { opts := opts, k5 := k5 }).state.notix := by
  obtain ⟨hp1, hp2⟩ := kinit_pre_spec env pn { opts := opts, k5 := k5 }
  have hs0 := staging_calls_extends hp1 pre_all_inert.1
  have ha0 := (acquired_extends hp1 pre_all_inert.2).not.2 (by simp)
  rw [kinit_body_pre]
  cases hpre : kinit_pre env pn { opts := opts, k5 := k5 } with
  | cleanup t =>
    rw [hpre] at hp2 hs0 ha0
    simp only [Flow.bind, Flow.state_cleanup] at hp2 hs0 ha0 ⊢
    rw [hp2.2.1]
    exact staging_spec_of_nil _ _ hs0 ha0
  | next v =>
    rw [hpre] at hp2 hs0 ha0
    simp only [Flow.bind, Flow.state_next] at hp2 hs0 ha0 ⊢
    obtain ⟨vo, vn, -⟩ := hp2
    have a1 := kinit_acquire_acquired env pn pass v hs0 ha0
    have a2 := kinit_acquire_frame env pn pass v
    cases hac : kinit_acquire env pn pass v with
    | cleanup u =>
      rw [hac] at a1 a2
      simp only [Flow.post, Flow.bind, Flow.state_cleanup] at a1 a2 ⊢
      rw [a2.2.1, vn]
      exact staging_spec_of_nil _ _ a1.1 a1.2
    | next u =>
      rw [hac] at a1 a2
      simp only [Flow.post, Flow.bind, Flow.state_next] at a1 a2 ⊢
      obtain ⟨uo, un, -⟩ := a2
      have c1 := kinit_commit_staging env pn u a1.1 a1.2
      have c2 := kinit_commit_keeps env pn u
      rw [uo, vo] at c1
      cases hcm : kinit_commit env pn u with
      | cleanup w =>
        rw [hcm] at c1 c2
        simp only [Flow.post, Flow.bind, Flow.state_cleanup] at c1 c2 ⊢
        rw [c2.2.2, un, vn]
        exact c1
      | next w =>
        rw [hcm] at c1
        simp only [Flow.post, Flow.bind] at c1 ⊢
        rw [kinit_switch_notix]
        exact staging_spec_extends _ _ (kinit_switch_extends env pn w)
          (switch_fns_inert _).1 (switch_fns_inert _).2 c1

theorem k5_kinit_staging_spec (env : Krb5) (pn : Option String) (pass : List Nat)
    (opts : k_opts) (k5 : k5_data) :
    staging_spec opts.action (k5_kinit env pn pass opts k5).trace
      (k5_kinit env pn pass opts k5).notix := by
  unfold k5_kinit
  rw [kinit_cleanup_notix]
  exact staging_spec_extends _ _ (kinit_cleanup_extends _) cleanup_fns_inert.1
    cleanup_fns_inert.2 (kinit_body_staging env pn pass opts k5)

theorem retval_eq_one (s : kinit_state) : s.retval = 1 ↔ s.notix = 0 := by
  unfold kinit_state.retval
  split_ifs with h
  · simp only [zero_ne_one, false_iff]
    exact h
  · simp only [true_iff]
    exact not_not.1 h

/-- C11: in every run of `k5_kinit` the calls of the staging sequence that are
logged, in order, are an initial part of the sequence `krb5_cc_new_unique`,
`krb5_cc_initialize`, `k5_cc_store_primary_cred`, `krb5_cc_move`; every one
of them but the last returned 0, and a sequence that stops before the move
stops at a call that failed.  The sequence is entered (the temporary store
is created) if and only if the mode is validate or renew and an acquisition
call is logged with return code 0.  In password and keytab mode neither
`krb5_cc_new_unique` nor `krb5_cc_move` is called.  In validate and renew mode
`k5_kinit` returns 1 if and only if a call of `krb5_cc_move` is logged with
return code 0. -/
theorem k5_kinit_staging_applicability (env : Krb5) (pn : Option String)
    (pass : List Nat) (opts : k_opts) (k5 : k5_data) :
    ((staging_calls (k5_kinit env pn pass opts k5).trace).map Call.fn <+: staging_fns) ∧
    (∀ c ∈ (staging_calls (k5_kinit env pn pass opts k5).trace).dropLast, c.ret = 0) ∧
    ((staging_calls (k5_kinit env pn pass opts k5).trace).length < 4 →
      ∀ c, (staging_calls (k5_kinit env pn pass opts k5).trace).getLast? = some c →
        c.ret ≠ 0) ∧
    (called Fn.krb5_cc_new_unique (k5_kinit env pn pass opts k5).trace ↔
      (opts.action = action_type.VALIDATE ∨ opts.action = action_type.RENEW) ∧
        acquired (k5_kinit env pn pass opts k5).trace) ∧
    (opts.action = action_type.INIT_PW ∨ opts.action = action_type.INIT_KT →
      ¬ called Fn.krb5_cc_new_unique (k5_kinit env pn pass opts k5).trace ∧
      ¬ called Fn.krb5_cc_move (k5_kinit env pn pass opts k5).trace) ∧
    (opts.action = action_type.VALIDATE ∨ opts.action = action_type.RENEW →
      ((k5_kinit env pn pass opts k5).retval = 1 ↔
        move_done (k5_kinit env pn pass opts k5).trace)) := by
  obtain ⟨h1, h2, h3, h4, h5, h6, -, -⟩ := k5_kinit_staging_spec env pn pass opts k5
  rw [non_initial_iff] at h4 h5 h6
  refine ⟨h1, h2, h3, h4, fun hi => ?_, fun hv => ?_⟩
  · have hn : ¬ (opts.action = action_type.VALIDATE ∨ opts.action = action_type.RENEW) := by
      rcases hi with hi | hi <;> rw [hi] <;> decide
    exact ⟨not_called_of_staging_nil (h5 hn) _ rfl,
      not_called_of_staging_nil (h5 hn) _ rfl⟩
  · rw [retval_eq_one]
    exact h6 hv

theorem k5_kinit_staging_applicability_witness :
    move_done (k5_kinit env_same none [] opts_validate k5_ready).trace :=
  ((k5_kinit_staging_applicability env_same none [] opts_validate k5_ready).2.2.2.2.2
    (Or.inl rfl)).1 (by decide)
/-! ## C12: a failed switch of the primary cache does not fail the run -/

theorem begin_out_cache_no_switch (env : Krb5) (pn : Option String) (s : begin_state)
    (h : ¬ called Fn.krb5_cc_switch s.trace) :
    (begin_out_cache env pn s).post (fun t => ¬ called Fn.krb5_cc_switch t.trace)
      (fun t => ¬ called Fn.krb5_cc_switch t.trace) := by
  unfold begin_out_cache
  dsimp only
  split <;> split_ifs <;> simp_all [com_err]

theorem begin_choose_princ_no_switch (env : Krb5) (pn : Option String) (s : begin_state)
    (h : ¬ called Fn.krb5_cc_switch s.trace) :
    (begin_choose_princ env pn s).post (fun t => ¬ called Fn.krb5_cc_switch t.trace)
      (fun t => ¬ called Fn.krb5_cc_switch t.trace) := by
  unfold begin_choose_princ
  dsimp only
  split <;> split_ifs <;> simp_all [com_err]

theorem begin_local_user_no_switch (env : Krb5) (pn : Option String) (s : begin_state)
    (h : ¬ called Fn.krb5_cc_switch s.trace) :
    (begin_local_user env pn s).post (fun t => ¬ called Fn.krb5_cc_switch t.trace)
      (fun t => ¬ called Fn.krb5_cc_switch t.trace) := by
  unfold begin_local_user
  dsimp only
  split_ifs
  · split
    · simp_all [fprintf_stderr]
    · split_ifs <;> simp_all [com_err]
  · simp_all

theorem begin_select_cache_no_switch (env : Krb5) (pn : Option String) (s : begin_state)
    (h : ¬ called Fn.krb5_cc_switch s.trace) :
    (begin_select_cache env pn s).post (fun t => ¬ called Fn.krb5_cc_switch t.trace)
      (fun t => ¬ called Fn.krb5_cc_switch t.trace) := by
  unfold begin_select_cache
  dsimp only
  split_ifs <;> simp_all [com_err]

theorem begin_default_cache_no_switch (s : begin_state)
    (h : ¬ called Fn.krb5_cc_switch s.trace) :
    (begin_default_cache s).post (fun t => ¬ called Fn.krb5_cc_switch t.trace)
      (fun t => ¬ called Fn.krb5_cc_switch t.trace) := by
  unfold begin_default_cache
  dsimp only
  split_ifs <;> simp_all

theorem begin_in_cache_no_switch (env : Krb5) (pn : Option String) (s : begin_state)
    (h : ¬ called Fn.krb5_cc_switch s.trace) :
    (begin_in_cache env pn s).post (fun t => ¬ called Fn.krb5_cc_switch t.trace)
      (fun t => ¬ called Fn.krb5_cc_switch t.trace) := by
  unfold begin_in_cache
  dsimp only
  split <;> (try split_ifs) <;> simp_all [com_err]

theorem begin_unparse_no_switch (env : Krb5) (pn : Option String) (s : begin_state)
    (h : ¬ called Fn.krb5_cc_switch s.trace) :
    (begin_unparse env pn s).post (fun t => ¬ called Fn.krb5_cc_switch t.trace)
      (fun t => ¬ called Fn.krb5_cc_switch t.trace) := by
  unfold begin_unparse
  dsimp only
  split_ifs <;> simp_all [com_err]

theorem begin_cleanup_no_switch (s : begin_state)
    (h : ¬ called Fn.krb5_cc_switch s.trace) :
    ¬ called Fn.krb5_cc_switch (begin_cleanup s).trace := by
  unfold begin_cleanup
  dsimp only
  split_ifs <;> simp_all

theorem begin_body_no_switch (env : Krb5) (pn : Option String) (s : begin_state)
    (h : ¬ called Fn.krb5_cc_switch s.trace) :
    (begin_body env pn s).post (fun t => ¬ called Fn.krb5_cc_switch t.trace)
      (fun t => ¬ called Fn.krb5_cc_switch t.trace) := by
  unfold begin_body
  refine Flow.post_bind (I := fun t => ¬ called Fn.krb5_cc_switch t.trace) ?_
    (fun t ht => Flow.post_bind (begin_in_cache_no_switch env pn t ht)
      (fun u hu => begin_unparse_no_switch env pn u hu))
  refine Flow.post_bind (I := fun t => ¬ called Fn.krb5_cc_switch t.trace) ?_
    (fun t ht => begin_default_cache_no_switch t ht)
  refine Flow.post_bind (I := fun t => ¬ called Fn.krb5_cc_switch t.trace) ?_
    (fun t ht => begin_select_cache_no_switch env pn t ht)
  refine Flow.post_bind (I := fun t => ¬ called Fn.krb5_cc_switch t.trace) ?_
    (fun t ht => begin_local_user_no_switch env pn t ht)
  refine Flow.post_bind (I := fun t => ¬ called Fn.krb5_cc_switch t.trace) ?_
    (fun t ht => begin_choose_princ_no_switch env pn t ht)
  exact begin_out_cache_no_switch env pn s h

theorem k5_begin_no_switch (env : Krb5) (pn : Option String) (opts : k_opts)
    (k5 : k5_data) : ¬ called Fn.krb5_cc_switch (k5_begin env pn opts k5).trace := by
  unfold k5_begin
  dsimp only
  split_ifs with hr
  · simp [com_err]
  · exact begin_cleanup_no_switch _ (Flow.post_state (begin_body_no_switch env pn _
      (by simp)))
theorem k5_begin_switch_indep (env : Krb5) (f : krb5_ccache → krb5_error_code)
    (pn : Option String) (opts : k_opts) (k5 : k5_data) :
    k5_begin { env with krb5_cc_switch := f } pn opts k5 = k5_begin env pn opts k5 := rfl

theorem kinit_setup_switch_indep (env : Krb5) (f : krb5_ccache → krb5_error_code)
    (pn : Option String) (s : kinit_state) :
    kinit_setup { env with krb5_cc_switch := f } pn s = kinit_setup env pn s := rfl

theorem kinit_pa_loop_switch_indep (env : Krb5) (f : krb5_ccache → krb5_error_code)
    (pn : Option String) (ps : List krb5_gic_opt_pa_data) (s : kinit_state) :
    kinit_pa_loop { env with krb5_cc_switch := f } pn ps s = kinit_pa_loop env pn ps s := by
  induction ps generalizing s with
  | nil => rfl
  | cons p ps ih =>
    unfold kinit_pa_loop
    dsimp only
    split_ifs
    · rfl
    · exact ih _

theorem kinit_ccaches_switch_indep (env : Krb5) (f : krb5_ccache → krb5_error_code)
    (s : kinit_state) :
    kinit_ccaches { env with krb5_cc_switch := f } s = kinit_ccaches env s := rfl

theorem kinit_prompts_switch_indep (env : Krb5) (f : krb5_ccache → krb5_error_code)
    (pass : List Nat) (pcs : List prompt_call) (s : kinit_state) :
    kinit_prompts { env with krb5_cc_switch := f } pass pcs s =
      kinit_prompts env pass pcs s := by
  induction pcs generalizing s with
  | nil => rfl
  | cons pc pcs ih =>
    unfold kinit_prompts
    exact ih _

theorem kinit_dispatch_switch_indep (env : Krb5) (f : krb5_ccache → krb5_error_code)
    (pass : List Nat) (s : kinit_state) :
    kinit_dispatch { env with krb5_cc_switch := f } pass s = kinit_dispatch env pass s := by
  unfold kinit_dispatch
  split
  · dsimp only
    rw [kinit_prompts_switch_indep]
  · rfl
  · rfl
  · rfl

theorem kinit_acquire_switch_indep (env : Krb5) (f : krb5_ccache → krb5_error_code)
    (pn : Option String) (pass : List Nat) (s : kinit_state) :
    kinit_acquire { env with krb5_cc_switch := f } pn pass s =
      kinit_acquire env pn pass s := by
  unfold kinit_acquire
  rw [kinit_dispatch_switch_indep]
  rfl

theorem kinit_commit_switch_indep (env : Krb5) (f : krb5_ccache → krb5_error_code)
    (pn : Option String) (s : kinit_state) :
    kinit_commit { env with krb5_cc_switch := f } pn s = kinit_commit env pn s := rfl

theorem kinit_pre_switch_indep (env : Krb5) (f : krb5_ccache → krb5_error_code)
    (pn : Option String) (s : kinit_state) :
    kinit_pre { env with krb5_cc_switch := f } pn s = kinit_pre env pn s := by
  unfold kinit_pre
  rw [kinit_setup_switch_indep]
  congr 1
  · congr 1
    funext t
    exact kinit_pa_loop_switch_indep env f pn _ t

theorem kinit_switch_called (env : Krb5) (pn : Option String) (w : kinit_state) :
    called Fn.krb5_cc_switch (kinit_switch env pn w).state.trace ↔
      called Fn.krb5_cc_switch w.trace ∨ w.k5.switch_to_cache ≠ 0 := by
  unfold kinit_switch
  dsimp only
  split_ifs <;> simp_all [com_err]

theorem kinit_switch_k5 (env : Krb5) (pn : Option String) (w : kinit_state) :
    (kinit_switch env pn w).state.k5 = w.k5 := by
  unfold kinit_switch
  dsimp only
  split_ifs <;> rfl

theorem commit_fns_switch (a : action_type) : Fn.krb5_cc_switch ∉ commit_fns a := by
  cases a <;> decide

theorem kinit_body_switch (env : Krb5) (pn : Option String) (pass : List Nat)
    (opts : k_opts) (k5 : k5_data) :
    (called Fn.krb5_cc_switch (kinit_body env pn pass { opts := opts, k5 := k5 }).state.trace ↔
      (kinit_body env pn pass { opts := opts, k5 := k5 }).state.notix = 0 ∧
        k5.switch_to_cache ≠ 0) := by
  obtain ⟨hp1, hp2⟩ := kinit_pre_spec env pn { opts := opts, k5 := k5 }
  have hs0 := (extends_by_called hp1 Fn.krb5_cc_switch (by decide)).not.2 (by simp)
  rw [kinit_body_pre]
  cases hpre : kinit_pre env pn { opts := opts, k5 := k5 } with
  | cleanup t =>
    rw [hpre] at hp2 hs0
    simp only [Flow.bind, Flow.state_cleanup] at hp2 hs0 ⊢
    rw [hp2.2.1]
    simp [hs0]
  | next v =>
    rw [hpre] at hp2 hs0
    simp only [Flow.bind, Flow.state_next] at hp2 hs0 ⊢
    obtain ⟨-, vn, -, -, -, -, vs⟩ := hp2
    have a1 := (extends_by_called (kinit_acquire_extends env pn pass v) Fn.krb5_cc_switch
      (acquire_fns_switch _)).not.2 hs0
    have a2 := kinit_acquire_frame env pn pass v
    cases hac : kinit_acquire env pn pass v with
    | cleanup u =>
      rw [hac] at a1 a2
      simp only [Flow.bind, Flow.state_cleanup] at a1 a2 ⊢
      rw [a2.2.1, vn]
      simp [a1]
    | next u =>
      rw [hac] at a1 a2
      simp only [Flow.bind, Flow.state_next] at a1 a2 ⊢
      obtain ⟨-, un, -, -, -, -, us⟩ := a2
      have c1 := (extends_by_called (kinit_commit_extends env pn u) Fn.krb5_cc_switch
        (commit_fns_switch _)).not.2 a1
      have c2 := kinit_commit_keeps env pn u
      cases hcm : kinit_commit env pn u with
      | cleanup w =>
        rw [hcm] at c1 c2
        simp only [Flow.bind, Flow.state_cleanup] at c1 c2 ⊢
        rw [c2.2.2, un, vn]
        simp [c1]
      | next w =>
        rw [hcm] at c1 c2
        simp only [Flow.bind, Flow.state_next] at c1 c2 ⊢
        rw [kinit_switch_called, kinit_switch_notix, c2.2.1, us, vs]
        simp [c1]

theorem k5_kinit_switch_called (env : Krb5) (pn : Option String) (pass : List Nat)
    (opts : k_opts) (k5 : k5_data) :
    called Fn.krb5_cc_switch (k5_kinit env pn pass opts k5).trace ↔
      (k5_kinit env pn pass opts k5).retval = 1 ∧ k5.switch_to_cache ≠ 0 := by
  rw [retval_eq_one]
  unfold k5_kinit
  rw [kinit_cleanup_notix, extends_by_called (kinit_cleanup_extends _) Fn.krb5_cc_switch
    (by decide)]
  exact kinit_body_switch env pn pass opts k5

theorem k5_kinit_success_iff (env : Krb5) (pn : Option String) (pass : List Nat)
    (opts : k_opts) (k5 : k5_data) :
    (k5_kinit env pn pass opts k5).retval = 1 ↔
      acquired (k5_kinit env pn pass opts k5).trace ∧
      (opts.action = action_type.VALIDATE ∨ opts.action = action_type.RENEW →
        move_done (k5_kinit env pn pass opts k5).trace) := by
  obtain ⟨-, -, -, -, -, h6, h7, h8⟩ := k5_kinit_staging_spec env pn pass opts k5
  rw [retval_eq_one, ← non_initial_iff]
  constructor
  · exact fun h => ⟨h7 h, fun hn => (h6 hn).1 h⟩
  · rintro ⟨h1, h2⟩
    by_cases hn : non_initial opts.action
    · exact (h6 hn).2 (h2 hn)
    · exact h8 hn h1

theorem kinit_body_chain (env : Krb5) (pn : Option String) (pass : List Nat)
    (s : kinit_state) :
    kinit_body env pn pass s =
      (((kinit_pre env pn s).bind (kinit_acquire env pn pass)).bind
        (kinit_commit env pn)).bind (kinit_switch env pn) := rfl

theorem switch_tail_notix (env : Krb5) (f : krb5_ccache → krb5_error_code)
    (pn : Option String) (x : Flow kinit_state) :
    (x.bind (kinit_switch { env with krb5_cc_switch := f } pn)).state.notix =
      (x.bind (kinit_switch env pn)).state.notix := by
  cases x with
  | cleanup t => rfl
  | next t =>
    show (kinit_switch _ pn t).state.notix = (kinit_switch env pn t).state.notix
    rw [kinit_switch_notix, kinit_switch_notix]

theorem k5_kinit_switch_indep (env : Krb5) (f : krb5_ccache → krb5_error_code)
    (pn : Option String) (pass : List Nat) (opts : k_opts) (k5 : k5_data) :
    (k5_kinit { env with krb5_cc_switch := f } pn pass opts k5).retval =
      (k5_kinit env pn pass opts k5).retval := by
  have e1 : kinit_acquire { env with krb5_cc_switch := f } pn pass =
      kinit_acquire env pn pass := funext (kinit_acquire_switch_indep env f pn pass)
  have e2 : kinit_commit { env with krb5_cc_switch := f } pn = kinit_commit env pn :=
    funext (kinit_commit_switch_indep env f pn)
  unfold kinit_state.retval k5_kinit
  rw [kinit_cleanup_notix, kinit_cleanup_notix, kinit_body_chain, kinit_body_chain,
    kinit_pre_switch_indep, e1, e2, switch_tail_notix]

theorem k5_end_no_switch (k5 : k5_data) : ¬ called Fn.krb5_cc_switch (k5_end k5).2 := by
  unfold k5_end
  dsimp only
  split_ifs <;> simp

theorem kinit_session_switch (env : Krb5) (pn : Option String) (opts : k_opts)
    (udata : userdata)
    (h : called Fn.krb5_cc_switch (kinit_session env pn opts udata).trace) :
    (kinit_session env pn opts udata).authed_k5 = 1 ∧
    (kinit_session env pn opts udata).status = 0 := by
  have hb := k5_begin_no_switch env pn opts {}
  have he := k5_end_no_switch (kinit_attempt env pn opts udata.pass).2.2.1
  have hk := k5_kinit_switch_called env pn udata.pass (k5_begin env pn opts {}).opts
    (k5_begin env pn opts {}).k5
  unfold kinit_session at h ⊢
  dsimp only at h ⊢
  have ha : called Fn.krb5_cc_switch (kinit_attempt env pn opts udata.pass).2.2.2 := by
    split_ifs at h <;> simpa [he, fprintf_stderr] using h
  have h1 : (kinit_attempt env pn opts udata.pass).1 = 1 := by
    unfold kinit_attempt at ha ⊢
    dsimp only at ha ⊢
    split_ifs at ha ⊢
    · rw [called_append] at ha
      exact (hk.1 (ha.resolve_left hb)).1
    · exact absurd ha hb
  rw [h1]
  exact ⟨rfl, rfl⟩

theorem kinit_session_switch_indep (env : Krb5) (f : krb5_ccache → krb5_error_code)
    (pn : Option String) (opts : k_opts) (udata : userdata) :
    (kinit_session { env with krb5_cc_switch := f } pn opts udata).status =
      (kinit_session env pn opts udata).status := by
  have h1 : (kinit_attempt { env with krb5_cc_switch := f } pn opts udata.pass).1 =
      (kinit_attempt env pn opts udata.pass).1 := by
    unfold kinit_attempt
    rw [k5_begin_switch_indep]
    dsimp only
    split_ifs
    · exact k5_kinit_switch_indep env f pn _ _ _
    · rfl
  unfold kinit_session
  dsimp only
  rw [h1]

/-- C12: the result of `krb5_cc_switch` does not enter the return value of
`k5_kinit`.  Whenever a call of `krb5_cc_switch` is logged, whatever it
returned, `k5_kinit` returns 1 and the exit status computed from it is 0; the
call is made exactly when `k5_kinit` returns 1 and the switch flag is set;
`k5_kinit` returns 1 exactly when an acquisition call succeeded and, in
validate and renew mode, the move succeeded; and replacing `krb5_cc_switch` by
any other function `f` leaves the return value as it is.  The same holds for
`my_kinit_main`: a run whose log holds a call of `krb5_cc_switch` ends with
`authed_k5 = 1` and exit status 0, and the exit status does not depend on
`krb5_cc_switch`. -/
theorem k5_kinit_switch_result_ignored (env : Krb5) (pn : Option String)
    (pass : List Nat) (opts : k_opts) (k5 : k5_data) :
    (∀ c ∈ (k5_kinit env pn pass opts k5).trace, c.fn = Fn.krb5_cc_switch →
      (k5_kinit env pn pass opts k5).retval = 1 ∧
      exit_status (k5_kinit env pn pass opts k5).retval = 0) ∧
    (called Fn.krb5_cc_switch (k5_kinit env pn pass opts k5).trace ↔
      (k5_kinit env pn pass opts k5).retval = 1 ∧ k5.switch_to_cache ≠ 0) ∧
    ((k5_kinit env pn pass opts k5).retval = 1 ↔
      acquired (k5_kinit env pn pass opts k5).trace ∧
      (opts.action = action_type.VALIDATE ∨ opts.action = action_type.RENEW →
        move_done (k5_kinit env pn pass opts k5).trace)) ∧
    (∀ f, (k5_kinit { env with krb5_cc_switch := f } pn pass opts k5).retval =
      (k5_kinit env pn pass opts k5).retval) ∧
    (∀ argv udata m, my_kinit_main env argv udata = some m →
      called Fn.krb5_cc_switch m.trace → m.authed_k5 = 1 ∧ m.status = 0) ∧
    (∀ f argv udata,
      (my_kinit_main { env with krb5_cc_switch := f } argv udata).map (fun m => m.status) =
        (my_kinit_main env argv udata).map (fun m => m.status)) := by
  have hk := k5_kinit_switch_called env pn pass opts k5
  refine ⟨fun c hc hf => ?_, hk, k5_kinit_success_iff env pn pass opts k5,
    fun f => k5_kinit_switch_indep env f pn pass opts k5, ?_, ?_⟩
  · have h1 := (hk.1 ⟨c, hc, hf⟩).1
    exact ⟨h1, by rw [h1]; rfl⟩
  · intro argv udata m hm hs
    unfold my_kinit_main at hm
    split at hm
    · split_ifs at hm
      rw [← Option.some.inj hm] at hs ⊢
      exact kinit_session_switch env _ _ _ hs
    · exact absurd hm (by simp)
  · intro f argv udata
    unfold my_kinit_main
    split
    · split_ifs
      · simp only [Option.map_some']
        rw [kinit_session_switch_indep]
      · rfl
    · rfl

theorem k5_kinit_switch_result_ignored_witness :
    (k5_kinit env_switch_fails none [] opts_alice k5_switch).retval = 1 ∧
    exit_status (k5_kinit env_switch_fails none [] opts_alice k5_switch).retval = 0 :=
  (k5_kinit_switch_result_ignored env_switch_fails none [] opts_alice k5_switch).1
    { fn := Fn.krb5_cc_switch, args := [Val.ptr (some 2)], ret := 13 } (by decide) rfl
end Kinit
